import Mathlib

/-!
# LOANIT2ME backend: payment settlement and loan-state reconciliation

A shallow embedding of the request handlers that write `Loan` and `Payment`
records (`src/controllers/manualPaymentController.js`,
`src/routes/paymentRoutes.js`, `src/routes/borrowerRoutes.js`,
`src/routes/lenderRoutes.js`, `src/routes/paymentAccountRoutes.js`,
`src/controllers/Admin/loan.controller.js`, `src/scheduler/nodemailerJob.js`).

Conventions of the embedding:

* the Prisma store is a record of lists (`Db`); `findUnique`/`findFirst` return the
  first row that matches, `update` rewrites the rows with the given id, `create` appends
  a row, and a relation loaded by `include` holds its rows in the order of the list;
* a handler is a function `Db → request → Db × Response`; an exception thrown inside a
  handler's `try` block ends it with code 500 and keeps the writes made so far;
* primary keys (strings in the source) are natural numbers, a fresh key being larger than
  every key in the table;
* JavaScript numbers that hold money are IEEE 754 doubles: a finite double is a rational,
  and `+`, `*`, `/` return the exact result rounded to the nearest double (`fadd`, `fmul`,
  `fdiv`); amounts and rates are finite doubles and no result exceeds the largest finite
  double; comparisons are exact; dates are integer milliseconds; request fields the
  handlers use as booleans are booleans;
* notifications, audit-log rows, e-mails and console output are not part of the state;
* the Prisma schema is not among the sources, so what it decides (whether the loan
  status column accepts the text `ACTIVE`, which role texts a payment accepts) is a
  parameter (`Schema`).
-/

namespace LoanIt2Me

/-! ## Data model -/

/-- Role texts as the handlers compare them: the two literals the code tests for, and
any other value of the request field (carried as the text a template literal prints). -/
inductive Role where
  | LENDER
  | BORROWER
  | OTHER (raw : String)
  deriving DecidableEq, Repr

/-- Loan status texts written or tested anywhere in the sources. `ACTIVE` is written by
`confirmManualPayment` only. -/
inductive LoanStatus where
  | PENDING
  | FUNDED
  | DENIED
  | OVERDUE
  | COMPLETED
  | ACTIVE
  deriving DecidableEq, Repr

/-- Loan health texts. -/
inductive LoanHealth where
  | GOOD
  | BEHIND
  | FAILING
  | DEFAULTED
  deriving DecidableEq, Repr

/-- Values of `Payment.transferStatus`. -/
inductive TransferStatus where
  | PENDING
  | PROCESSING
  | COMPLETED
  | FAILED
  deriving DecidableEq, Repr

/-- Values of `Payment.manualConfirmationStatus`. -/
inductive ManualConfirmationStatus where
  | NONE
  | PENDING_UPLOAD
  | PENDING_CONFIRMATION
  | CONFIRMED
  | DISPUTED
  deriving DecidableEq, Repr

/-- Payment method texts the handlers branch on; `OTHER` is any other text. -/
inductive PaymentMethod where
  | CASHAPP
  | ZELLE
  | PAYPAL
  | INTERNAL_WALLET
  | OTHER
  deriving DecidableEq, Repr

/-- A row of the `Payment` table (the columns the handlers read or write). -/
structure Payment where
  id : Nat
  loanId : Nat
  amount : ℚ
  method : PaymentMethod
  payerRole : Role
  receiverRole : Role
  confirmed : Bool
  transferStatus : TransferStatus
  manualConfirmationStatus : ManualConfirmationStatus
  lenderConfirmed : Bool
  borrowerConfirmed : Bool
  confirmationNote : Option String
  cashAppTransactionId : Option String
  confirmationScreenshot : Option String
  stripePaymentIntentId : Option String
  fromAccountId : Option Nat
  toAccountId : Option Nat
  deriving DecidableEq, Repr

/-- A row of the `Loan` table. -/
structure Loan where
  id : Nat
  lenderId : Nat
  borrowerId : Nat
  lenderTermId : Option Nat
  amount : ℚ
  feeAmount : ℚ
  totalPayable : ℚ
  paybackDate : Int
  status : LoanStatus
  health : LoanHealth
  deriving DecidableEq, Repr

/-- A row of the `PaymentAccount` table. -/
structure PaymentAccount where
  id : Nat
  userId : Nat
  accountType : PaymentMethod
  isDefault : Bool
  isVerified : Bool
  cashAppHandle : Option String
  paypalEmail : Option String
  deriving DecidableEq, Repr

/-- Values of `Relationship.status`. -/
inductive RelationshipStatus where
  | CONFIRMED
  | BLOCKED
  deriving DecidableEq, Repr

/-- A row of the `Relationship` table. -/
structure Relationship where
  id : Nat
  lenderId : Nat
  borrowerId : Nat
  status : RelationshipStatus
  deriving DecidableEq, Repr

/-- A row of the `LenderTerm` table (the columns loan creation reads). -/
structure LenderTerm where
  id : Nat
  lenderId : Nat
  feePer10Short : ℚ
  feePer10Long : ℚ
  deriving DecidableEq, Repr

/-- The store. -/
structure Db where
  loans : List Loan
  payments : List Payment
  paymentAccounts : List PaymentAccount
  relationships : List Relationship
  lenderTerms : List LenderTerm
  deriving DecidableEq, Repr

/-- What the absent Prisma schema decides. -/
structure Schema where
  loanStatusActive : Bool
  paymentRoleOk : Role → Bool

/-- The part of an HTTP response the claims talk about. -/
structure Response where
  code : Nat
  requiresAccount : Option String := none
  deriving DecidableEq, Repr

/-! ## IEEE 754 double arithmetic

A JavaScript number is an IEEE 754 binary64 value. Every finite double is a rational number
`m * 2 ^ e` with `|m| < 2 ^ 53` and `e ≥ -1074`; an arithmetic operation returns the exact
result rounded to the nearest double, ties going to the even significand. Results beyond
the largest finite double (`Infinity` in JavaScript) and `NaN` are outside the model:
`roundDouble` goes on rounding to 53 bits there. -/

/-- The number of halvings that bring `n` below 2 (`⌊log₂ n⌋` for `n ≥ 1`), by recursion on
`fuel`; `fuel = n` is enough. -/
def bitsBelow : Nat → Nat → Nat
  | 0, _ => 0
  | fuel + 1, n => if 2 ≤ n then bitsBelow fuel (n / 2) + 1 else 0

/-- `⌊log₂ (n / d)⌋` for positive `n` and `d`. -/
def floorLog2 (n d : Nat) : Int :=
  let k : Int := (bitsBelow n n : Int) - (bitsBelow d d : Int)
  if (if 0 ≤ k then d * 2 ^ k.toNat ≤ n else d ≤ n * 2 ^ (-k).toNat) then k else k - 1

/-- The integer nearest to `a / b` (`b > 0`), a tie going to the even one. -/
def roundHalfEven (a b : Nat) : Nat :=
  if 2 * (a % b) < b then a / b
  else if b < 2 * (a % b) then a / b + 1
  else if (a / b) % 2 = 0 then a / b else a / b + 1

/-- The exponent of the last significand bit of the doubles around the positive rational
`n / d`: 52 below `⌊log₂ (n / d)⌋`, and `-1074` in the subnormal range. -/
def ulpExponent (n d : Nat) : Int :=
  max (floorLog2 n d - 52) (-1074)

/-- The double nearest to the positive rational `n / d`. -/
def roundPos (n d : Nat) : ℚ :=
  if 0 ≤ ulpExponent n d then
    ((roundHalfEven n (d * 2 ^ (ulpExponent n d).toNat) * 2 ^ (ulpExponent n d).toNat : Nat) : ℚ)
  else
    (roundHalfEven (n * 2 ^ (-ulpExponent n d).toNat) d : ℚ)
      / ((2 ^ (-ulpExponent n d).toNat : Nat) : ℚ)

/-- The double nearest to a rational (round to nearest, ties to even): the value a number
literal or a JSON number denotes, and the rounding every arithmetic operation ends with. -/
def roundDouble (q : ℚ) : ℚ :=
  if q = 0 then 0
  else if 0 < q then roundPos q.num.natAbs q.den
  else - roundPos q.num.natAbs q.den

/-- JavaScript `a + b` on numbers. -/
def fadd (a b : ℚ) : ℚ := roundDouble (a + b)

/-- JavaScript `a * b` on numbers. -/
def fmul (a b : ℚ) : ℚ := roundDouble (a * b)

/-- JavaScript `a / b` on numbers (`b` not zero). -/
def fdiv (a b : ℚ) : ℚ := roundDouble (a / b)

/-! ## Store primitives -/

/-- Model of `prisma.payment.findUnique` by id. -/
def findPayment (db : Db) (id : Nat) : Option Payment :=
  db.payments.find? (fun p => p.id == id)

/-- Model of `prisma.loan.findUnique` by id. -/
def findLoan (db : Db) (id : Nat) : Option Loan :=
  db.loans.find? (fun l => l.id == id)

/-- Model of `prisma.payment.update` by id, the new column values given as a function of
the row. -/
def updatePayment (db : Db) (id : Nat) (f : Payment → Payment) : Db :=
  { db with payments := db.payments.map (fun p => if p.id = id then f p else p) }

/-- Rewrites the status of the loans with the given id. -/
def setLoanStatus (db : Db) (id : Nat) (s : LoanStatus) : Db :=
  { db with loans := db.loans.map (fun l => if l.id = id then { l with status := s } else l) }

/-- Whether the status column accepts a value: the five statuses used by every other
handler always, `ACTIVE` as the schema says. -/
def Schema.acceptsStatus (sch : Schema) (s : LoanStatus) : Bool :=
  match s with
  | .ACTIVE => sch.loanStatusActive
  | _ => true

/-- Model of `prisma.loan.update` with data `status`: `none` stands for the exception
Prisma throws when the value is rejected or no row has the id. -/
def loanUpdateStatus (sch : Schema) (db : Db) (id : Nat) (s : LoanStatus) : Option Db :=
  if sch.acceptsStatus s = true ∧ (findLoan db id).isSome = true then
    some (setLoanStatus db id s)
  else none

/-- The `payments` relation of a loan as `include: payments` loads it, in the order of the
store. -/
def paymentsOfLoan (db : Db) (loanId : Nat) : List Payment :=
  db.payments.filter (fun p => p.loanId == loanId)

/-- The filter of the repayment aggregate: confirmed, paid by the borrower to the lender. -/
def isConfirmedRepayment (p : Payment) : Bool :=
  p.confirmed && decide (p.payerRole = Role.BORROWER) && decide (p.receiverRole = Role.LENDER)

/-- The aggregate `payments.filter(...).reduce((sum, p) => sum + p.amount, 0)`: the amounts
are added from the left, in the order of the list, each addition rounded to a double. -/
def totalRepaidOf (ps : List Payment) : ℚ :=
  (ps.filter isConfirmedRepayment).foldl (fun sum p => fadd sum p.amount) 0

/-! ## confirmManualPayment -/

/-- JavaScript white space and line terminators removed by `String.prototype.trim`. -/
def isJsSpace (c : Char) : Bool :=
  c.toNat ∈ [9, 10, 11, 12, 13, 32, 160, 5760, 8232, 8233, 8239, 8287, 12288, 65279]
    || (8192 ≤ c.toNat && c.toNat ≤ 8202)

/-- Model of `String.prototype.trim`. -/
def jsTrim (s : String) : String :=
  String.mk ((s.toList.dropWhile isJsSpace).reverse.dropWhile isJsSpace).reverse

/-- The text a template literal prints for a role value. -/
def Role.text : Role → String
  | .LENDER => "LENDER"
  | .BORROWER => "BORROWER"
  | .OTHER raw => raw

/-- Body of `POST /payments/confirm-manual-payment`. -/
structure ConfirmManualReq where
  paymentId : Option Nat
  confirmed : Bool
  userRole : Role
  note : Option String
  deriving DecidableEq, Repr

/-- The object `updateData`: a column is `none` when the handler does not assign it
(`confirmationNote` is always assigned). -/
structure UpdateData where
  confirmationNote : Option String
  lenderConfirmed : Option Bool := none
  borrowerConfirmed : Option Bool := none
  manualConfirmationStatus : Option ManualConfirmationStatus := none
  confirmed : Option Bool := none
  transferStatus : Option TransferStatus := none
  deriving DecidableEq, Repr

/-- JavaScript truthiness of an optional text. -/
def truthy (s : Option String) : Bool :=
  match s with
  | none => false
  | some t => t != ""

/-- The value `otherUserConfirmed` (line 173). -/
def otherUserConfirmed (payment : Payment) (userRole : Role) : Bool :=
  if userRole = Role.LENDER then payment.borrowerConfirmed else payment.lenderConfirmed

/-- Lines 162-199 of `confirmManualPayment`: the `updateData` built for a payment. -/
def buildUpdateData (payment : Payment) (req : ConfirmManualReq) : UpdateData :=
  let u0 : UpdateData :=
    { confirmationNote :=
        if truthy req.note = true then
          some (jsTrim ((payment.confirmationNote.getD "") ++ "\n" ++ req.userRole.text
            ++ ": " ++ req.note.getD ""))
        else payment.confirmationNote }
  let u1 : UpdateData :=
    if req.userRole = Role.LENDER then { u0 with lenderConfirmed := some req.confirmed }
    else if req.userRole = Role.BORROWER then { u0 with borrowerConfirmed := some req.confirmed }
    else u0
  if req.confirmed = false then
    { u1 with manualConfirmationStatus := some .DISPUTED, confirmed := some false }
  else if otherUserConfirmed payment req.userRole = true then
    { u1 with manualConfirmationStatus := some .CONFIRMED, confirmed := some true,
              transferStatus := some .COMPLETED }
  else if payment.payerRole = Role.BORROWER ∧ payment.receiverRole = Role.LENDER
      ∧ req.userRole = Role.LENDER then
    { u1 with confirmed := some true, transferStatus := some .COMPLETED,
              manualConfirmationStatus := some .CONFIRMED }
  else if payment.payerRole = Role.LENDER ∧ payment.receiverRole = Role.BORROWER
      ∧ req.userRole = Role.BORROWER then
    { u1 with confirmed := some true, transferStatus := some .COMPLETED,
              manualConfirmationStatus := some .CONFIRMED }
  else u1

/-- Effect of `prisma.payment.update` with `data: updateData` on one row. -/
def applyUpdate (u : UpdateData) (p : Payment) : Payment :=
  { p with
    confirmationNote := u.confirmationNote
    lenderConfirmed := u.lenderConfirmed.getD p.lenderConfirmed
    borrowerConfirmed := u.borrowerConfirmed.getD p.borrowerConfirmed
    manualConfirmationStatus := u.manualConfirmationStatus.getD p.manualConfirmationStatus
    confirmed := u.confirmed.getD p.confirmed
    transferStatus := u.transferStatus.getD p.transferStatus }

/-- Lines 215-225: the loan write for a funding payment the borrower confirms. -/
def fundingStep (sch : Schema) (db : Db) (payment : Payment) (req : ConfirmManualReq) :
    Option Db :=
  if req.confirmed = true ∧ payment.payerRole = Role.LENDER
      ∧ payment.receiverRole = Role.BORROWER then
    if req.userRole = Role.BORROWER then
      loanUpdateStatus sch db payment.loanId .ACTIVE
    else some db
  else some db

/-- Lines 227-254: the completion check for a repayment the lender confirms. `none` is
an exception (the loan row is missing). -/
def repaymentStep (sch : Schema) (db : Db) (payment : Payment) (req : ConfirmManualReq)
    (updateData : UpdateData) : Option Db :=
  if req.confirmed = true ∧ payment.payerRole = Role.BORROWER
      ∧ payment.receiverRole = Role.LENDER then
    if req.userRole = Role.LENDER ∧ updateData.confirmed = some true then
      match findLoan db payment.loanId with
      | none => none
      | some loanWithPayments =>
        let totalRepaid := totalRepaidOf (paymentsOfLoan db loanWithPayments.id)
        if totalRepaid ≥ loanWithPayments.totalPayable then
          loanUpdateStatus sch db payment.loanId .COMPLETED
        else some db
    else some db
  else some db

/-- The handler `confirmManualPayment` (lines 136-325). -/
def confirmManualPayment (sch : Schema) (db : Db) (req : ConfirmManualReq) : Db × Response :=
  match req.paymentId with
  | none => (db, { code := 400 })
  | some paymentId =>
    match findPayment db paymentId with
    | none => (db, { code := 404 })
    | some payment =>
      let updateData := buildUpdateData payment req
      let db1 := updatePayment db paymentId (applyUpdate updateData)
      match fundingStep sch db1 payment req with
      | none => (db1, { code := 500 })
      | some db2 =>
        match repaymentStep sch db2 payment req updateData with
        | none => (db2, { code := 500 })
        | some db3 =>
          -- `payment.loan.borrowerId` (line 270) throws when the included loan is null
          if (findLoan db payment.loanId).isSome = true then (db3, { code := 200 })
          else (db3, { code := 500 })

/-! ## submitManualProof -/

/-- Body of `POST /payments/submit-manual-proof`. -/
structure SubmitProofReq where
  paymentId : Option Nat
  transactionId : Option String
  note : Option String
  screenshotPath : Option String
  userRole : Role
  deriving DecidableEq, Repr

/-- JavaScript `a || b` on optional texts. -/
def orElseJs (a b : Option String) : Option String :=
  if truthy a = true then a else b

/-- The handler `submitManualProof` (lines 55-134). -/
def submitManualProof (db : Db) (req : SubmitProofReq) : Db × Response :=
  match req.paymentId with
  | none => (db, { code := 400 })
  | some paymentId =>
    match findPayment db paymentId with
    | none => (db, { code := 404 })
    | some payment =>
      let db1 := updatePayment db paymentId (fun p =>
        { p with
          cashAppTransactionId := orElseJs req.transactionId payment.cashAppTransactionId
          confirmationNote := orElseJs req.note payment.confirmationNote
          confirmationScreenshot := orElseJs req.screenshotPath payment.confirmationScreenshot
          manualConfirmationStatus := .PENDING_CONFIRMATION })
      -- `payment.loan.borrowerId` (line 114) throws when the included loan is null
      if (findLoan db payment.loanId).isSome = true then (db1, { code := 200 })
      else (db1, { code := 500 })

/-! ## Initiate payment (`POST /payment`) -/

/-- Body of `POST /payment`. -/
structure InitiateReq where
  loanId : Nat
  amount : ℚ
  method : PaymentMethod
  payerRole : Role
  receiverRole : Role
  deriving DecidableEq, Repr

/-- What a rail adapter answered (`createPayPalPayment`, `callCashAppAPI`); the adapters
catch their own exceptions. -/
structure RemoteInit where
  success : Bool
  approvalUrl : Bool
  deriving DecidableEq, Repr

/-- Model of `prisma.paymentAccount.findFirst` with `userId`, `accountType`,
`isDefault: true`. -/
def findDefaultAccount (db : Db) (userId : Nat) (ty : PaymentMethod) : Option PaymentAccount :=
  db.paymentAccounts.find? (fun a => a.userId == userId && a.accountType == ty && a.isDefault)

/-- Outcome of lines 29-127. -/
inductive AccountResolution where
  | ok (fromAccountId toAccountId : Option Nat)
  | fail (r : Response)
  deriving DecidableEq, Repr

/-- Lines 29-127: the default accounts of payer and receiver for `CASHAPP` and `PAYPAL`.
In the branch for a missing receiver account the block-scoped
`const receiverRole = receiverRole === ...` reads its own binding before initialisation,
which throws a ReferenceError; the handler's `catch` answers 500. -/
def resolveAccounts (db : Db) (loan : Loan) (req : InitiateReq) : AccountResolution :=
  let fromUserId := if req.payerRole = Role.LENDER then loan.lenderId else loan.borrowerId
  let toUserId := if req.payerRole = Role.LENDER then loan.borrowerId else loan.lenderId
  if req.method = PaymentMethod.CASHAPP ∨ req.method = PaymentMethod.PAYPAL then
    match findDefaultAccount db fromUserId req.method with
    | none =>
      .fail { code := 400,
              requiresAccount :=
                some (if req.payerRole = Role.LENDER then "lender" else "borrower") }
    | some fromAccount =>
      match findDefaultAccount db toUserId req.method with
      | none => .fail { code := 500 }
      | some toAccount => .ok (some fromAccount.id) (some toAccount.id)
  else .ok none none

/-- A fresh primary key. -/
def nextId (ids : List Nat) : Nat :=
  ids.foldr max 0 + 1

/-- The row `prisma.payment.create` stores at lines 130-145; the two confirmation flags
take the column default `false`. -/
def newPayment (db : Db) (req : InitiateReq) (fromAccountId toAccountId : Option Nat) :
    Payment :=
  { id := nextId (db.payments.map (fun p => p.id))
    loanId := req.loanId
    amount := req.amount
    method := req.method
    payerRole := req.payerRole
    receiverRole := req.receiverRole
    confirmed := false
    transferStatus := .PENDING
    manualConfirmationStatus :=
      if req.method = PaymentMethod.CASHAPP ∨ req.method = PaymentMethod.ZELLE then
        .PENDING_UPLOAD
      else .NONE
    lenderConfirmed := false
    borrowerConfirmed := false
    confirmationNote := none
    cashAppTransactionId := none
    confirmationScreenshot := none
    stripePaymentIntentId := none
    fromAccountId := fromAccountId
    toAccountId := toAccountId }

/-- The loan-status logic shared by the automated paths: `FUNDED` for a payment the lender
pays; for one the borrower pays, `COMPLETED` when the given `totalRepaid` reaches
`totalPayable` of the loan snapshot. -/
def settleLoan (db : Db) (loan : Loan) (payerRole : Role) (totalRepaid : ℚ) : Db :=
  let db1 := if payerRole = Role.LENDER then setLoanStatus db loan.id .FUNDED else db
  if payerRole = Role.BORROWER ∧ totalRepaid ≥ loan.totalPayable then
    setLoanStatus db1 loan.id .COMPLETED
  else db1

/-- The handler `POST /payment` (lines 8-348). -/
def initiatePayment (sch : Schema) (db : Db) (req : InitiateReq) (remote : RemoteInit) :
    Db × Response :=
  match findLoan db req.loanId with
  | none => (db, { code := 404 })
  | some loan =>
    match resolveAccounts db loan req with
    | .fail r => (db, r)
    | .ok fromAccountId toAccountId =>
      if sch.paymentRoleOk req.payerRole = false ∨ sch.paymentRoleOk req.receiverRole = false then
        (db, { code := 500 })
      else
        let payment := newPayment db req fromAccountId toAccountId
        let db1 : Db := { db with payments := db.payments ++ [payment] }
        if req.method = PaymentMethod.CASHAPP ∨ req.method = PaymentMethod.ZELLE then
          if req.payerRole = Role.LENDER ∧ req.receiverRole = Role.BORROWER then
            (setLoanStatus db1 req.loanId .FUNDED, { code := 200 })
          else (db1, { code := 200 })
        else
          let paymentResponse : RemoteInit :=
            if req.method = PaymentMethod.INTERNAL_WALLET then
              { success := true, approvalUrl := false }
            else remote
          if paymentResponse.success = true then
            if req.method = PaymentMethod.PAYPAL ∧ paymentResponse.approvalUrl = true then
              (db1, { code := 200 })
            else if req.method = PaymentMethod.INTERNAL_WALLET then
              let db2 := updatePayment db1 payment.id (fun p =>
                { p with confirmed := true, transferStatus := .COMPLETED })
              let totalRepaid := fadd (totalRepaidOf (paymentsOfLoan db loan.id)) req.amount
              (settleLoan db2 { loan with id := req.loanId } req.payerRole totalRepaid,
                { code := 200 })
            else (db1, { code := 400 })
          else (db1, { code := 400 })

/-! ## The confirm endpoints of `paymentRoutes.js` -/

/-- Model of the `fromAccount` / `toAccount` relation loaded by `include`. -/
def findAccount (db : Db) (id : Option Nat) : Option PaymentAccount :=
  match id with
  | none => none
  | some i => db.paymentAccounts.find? (fun a => a.id == i)

/-- The value `totalRepaid` of the confirm endpoints (lines 438-440, 585-587, 673-675):
the aggregate over `loan.payments` as loaded before the payment was updated, plus
`payment.amount`. -/
def snapshotTotalRepaid (db0 : Db) (loan : Loan) (payment : Payment) : ℚ :=
  fadd (totalRepaidOf (paymentsOfLoan db0 loan.id)) payment.amount

/-- The tail shared by the three confirm endpoints ("Update loan status logic"):
`loan` is the snapshot `payment.loan` read before the payment was updated. Reading
`loan.id` of a missing loan throws. -/
def settleFromSnapshot (db0 db : Db) (payment : Payment) : Db × Response :=
  match findLoan db0 payment.loanId with
  | none =>
    if payment.payerRole = Role.LENDER ∨ payment.payerRole = Role.BORROWER then
      (db, { code := 500 })
    else (db, { code := 200 })
  | some loan =>
    (settleLoan db loan payment.payerRole (snapshotTotalRepaid db0 loan payment), { code := 200 })

/-- Body of `POST /payment/confirm-stripe`. -/
structure ConfirmStripeReq where
  paymentIntentId : String
  paymentId : Nat
  deriving DecidableEq, Repr

/-- The handler `POST /payment/confirm-stripe` (lines 351-468); `success` is
`confirmResult.success` as `confirmStripePayment` returned it. -/
def confirmStripe (db : Db) (req : ConfirmStripeReq) (success : Bool) : Db × Response :=
  if success = true then
    match findPayment db req.paymentId with
    | none => (db, { code := 404 })
    | some payment =>
      let db1 := updatePayment db req.paymentId (fun p =>
        { p with confirmed := true, transferStatus := .PROCESSING,
                 stripePaymentIntentId := some req.paymentIntentId })
      let db2 := updatePayment db1 req.paymentId (fun p =>
        { p with transferStatus := .COMPLETED })
      -- the notification at lines 401-415 reads `payment.loan.lenderId`
      if (findAccount db payment.fromAccountId).isSome = true
          ∧ (findAccount db payment.toAccountId).isSome = true
          ∧ (findLoan db payment.loanId).isSome = false then
        (db2, { code := 500 })
      else settleFromSnapshot db db2 payment
  else (db, { code := 400 })

/-- Body of `POST /payment/confirm-paypal`. -/
structure ConfirmPaypalReq where
  paymentId : String
  payerId : String
  dbPaymentId : Nat
  deriving DecidableEq, Repr

/-- What `sendPayPalPayout` answered. -/
structure PayoutResult where
  success : Bool
  payoutBatchId : Option String
  deriving DecidableEq, Repr

/-- The handler `POST /payment/confirm-paypal` (lines 471-615); `success` is
`confirmResult.success` as `executePayPalPayment` returned it. -/
def confirmPaypal (db : Db) (req : ConfirmPaypalReq) (success : Bool) (payout : PayoutResult) :
    Db × Response :=
  if success = true then
    match findPayment db req.dbPaymentId with
    | none => (db, { code := 404 })
    | some payment =>
      let db1 := updatePayment db req.dbPaymentId (fun p =>
        { p with confirmed := true, transferStatus := .PROCESSING,
                 stripePaymentIntentId := some req.paymentId })
      let toEmail : Bool :=
        match findAccount db payment.toAccountId with
        | none => false
        | some a => truthy a.paypalEmail
      if payment.payerRole = Role.LENDER ∧ toEmail = true then
        if payout.success = true then
          let db2 := updatePayment db1 req.dbPaymentId (fun p =>
            { p with transferStatus := .COMPLETED, cashAppTransactionId := payout.payoutBatchId })
          -- the log line 528 reads `payment.fromAccount.paypalEmail`
          if (findAccount db payment.fromAccountId).isSome = true then
            settleFromSnapshot db db2 payment
          else (db2, { code := 500 })
        else
          (updatePayment db1 req.dbPaymentId (fun p => { p with transferStatus := .FAILED }),
            { code := 400 })
      else
        let db2 := updatePayment db1 req.dbPaymentId (fun p =>
          { p with transferStatus := .COMPLETED })
        let db3 :=
          if payment.payerRole = Role.BORROWER ∧ toEmail = true ∧ payout.success = true then
            updatePayment db2 req.dbPaymentId (fun p =>
              { p with cashAppTransactionId := payout.payoutBatchId })
          else db2
        settleFromSnapshot db db3 payment
  else (db, { code := 400 })

/-- Body of `POST /payment/confirm-cashapp`. -/
structure ConfirmCashappReq where
  paymentId : Nat
  cashAppTransactionId : Option String
  confirmationNote : Option String
  deriving DecidableEq, Repr

/-- The handler `POST /payment/confirm-cashapp` (lines 618-693). -/
def confirmCashapp (db : Db) (req : ConfirmCashappReq) : Db × Response :=
  match findPayment db req.paymentId with
  | none => (db, { code := 404 })
  | some payment =>
    if payment.transferStatus ≠ TransferStatus.COMPLETED then (db, { code := 400 })
    else
      let db1 := updatePayment db req.paymentId (fun p =>
        { p with transferStatus := .COMPLETED
                 cashAppTransactionId := orElseJs req.cashAppTransactionId none
                 confirmationNote := orElseJs req.confirmationNote none })
      -- the notification at lines 652-660 reads `payment.loan.lenderId`
      if (findLoan db payment.loanId).isSome = false then (db1, { code := 500 })
      else settleFromSnapshot db db1 payment

/-! ## Loan creation, the borrower's and lender's loan endpoints -/

/-- Body of the borrower's `POST /loans` (the fields that decide the stored loan). -/
structure CreateLoanReq where
  lenderId : Option Nat
  amount : ℚ
  paybackDays : Int
  lenderTermId : Option Nat
  deriving DecidableEq, Repr

/-- Milliseconds in a day. -/
def msPerDay : Int := 1000 * 60 * 60 * 24

/-- Lines 101-112 of `borrowerRoutes.js`: the fee for an amount, a number of payback days
and the lender term found (if any). -/
def feeAmountOf (amount : ℚ) (paybackDays : Int) (lenderTerm : Option LenderTerm) : ℚ :=
  match lenderTerm with
  | some t =>
    let feePer10 := if paybackDays ≤ 7 then t.feePer10Short else t.feePer10Long
    fmul (fdiv amount 10) feePer10
  | none =>
    let feePer10 : ℚ := if paybackDays ≤ 7 then 1 else 2
    fmul (fdiv amount 10) feePer10

/-- The borrower's `POST /loans` (lines 68-167 of `borrowerRoutes.js`), for the
authenticated user `userId` at time `now`. The payback date is `now` moved on by
`paybackDays` calendar days (`setDate`), which is `paybackDays` times 24 hours when the
server's time zone has no clock change in between. -/
def createLoan (db : Db) (userId : Nat) (req : CreateLoanReq) (now : Int) : Db × Response :=
  match req.lenderId with
  | none => (db, { code := 400 })
  | some lenderId =>
    if req.amount = 0 ∨ req.paybackDays = 0 then (db, { code := 400 })
    else
      match db.relationships.find? (fun r => r.lenderId == lenderId && r.borrowerId == userId
          && r.status == RelationshipStatus.CONFIRMED) with
      | none => (db, { code := 400 })
      | some _ =>
        let lenderTerm : Option LenderTerm :=
          match req.lenderTermId with
          | none => none
          | some tid => db.lenderTerms.find? (fun t => t.id == tid && t.lenderId == lenderId)
        let feeAmount := feeAmountOf req.amount req.paybackDays lenderTerm
        let totalPayable := fadd req.amount feeAmount
        let loan : Loan :=
          { id := nextId (db.loans.map (fun l => l.id))
            lenderId := lenderId
            borrowerId := userId
            lenderTermId := lenderTerm.map (fun t => t.id)
            amount := req.amount
            feeAmount := feeAmount
            totalPayable := totalPayable
            paybackDate := now + req.paybackDays * msPerDay
            status := .PENDING
            health := .GOOD }
        ({ db with loans := db.loans ++ [loan] }, { code := 201 })

/-- The borrower's `PATCH /loans/:id/completed` (lines 233-279 of `borrowerRoutes.js`). -/
def markCompleted (db : Db) (userId : Nat) (id : Nat) : Db × Response :=
  match db.loans.find? (fun l => l.id == id && l.borrowerId == userId) with
  | none => (db, { code := 404 })
  | some loan =>
    if loan.status = LoanStatus.COMPLETED then (db, { code := 400 })
    else
      ({ db with loans := db.loans.map (fun l =>
          if l.id = id ∧ l.borrowerId = userId then { l with status := .COMPLETED } else l) },
        { code := 200 })

/-- The lender's `POST /loans/:id/fund` (lines 236-300 of `lenderRoutes.js`). -/
def fundLoan (db : Db) (userId : Nat) (id : Nat) : Db × Response :=
  match db.loans.find? (fun l => l.id == id && l.lenderId == userId) with
  | none => (db, { code := 404 })
  | some loan =>
    if loan.status ≠ LoanStatus.PENDING then (db, { code := 400 })
    else
      let lenderTerm : Option LenderTerm :=
        match loan.lenderTermId with
        | none => none
        | some tid => db.lenderTerms.find? (fun t => t.id == tid)
      ({ db with loans := db.loans.map (fun l =>
          if l.id = id then
            { l with status := .FUNDED, lenderTermId := lenderTerm.map (fun t => t.id) }
          else l) },
        { code := 200 })

/-- The lender's `POST /loans/:id/deny` (lines 302-351 of `lenderRoutes.js`). -/
def denyLoan (db : Db) (userId : Nat) (id : Nat) : Db × Response :=
  match db.loans.find? (fun l => l.id == id && l.lenderId == userId) with
  | none => (db, { code := 404 })
  | some loan =>
    if loan.status ≠ LoanStatus.PENDING then (db, { code := 400 })
    else (setLoanStatus db id .DENIED, { code := 200 })

/-! ## The overdue sweep -/

/-- The health band of a number of days late (lines 124-128 of `nodemailerJob.js`). -/
def healthBand (daysLate : Int) : LoanHealth :=
  if daysLate > 30 then .DEFAULTED
  else if daysLate > 14 then .FAILING
  else .BEHIND

/-- `Math.floor((now - loan.paybackDate) / (1000 * 60 * 60 * 24))`. -/
def daysLateOf (now : Int) (loan : Loan) : Int :=
  Int.fdiv (now - loan.paybackDate) msPerDay

/-- Step 1 of the daily job (lines 111-142 of `nodemailerJob.js`): every loan that
`findMany` with `status: FUNDED, paybackDate < now` returns is updated by its id. -/
def overdueSweep (db : Db) (now : Int) : Db :=
  { db with loans := db.loans.map (fun l =>
      if l.status = LoanStatus.FUNDED ∧ l.paybackDate < now then
        { l with status := .OVERDUE, health := healthBand (daysLateOf now l) }
      else l) }

/-! ## Sequences of operations -/

/-- One call of one of the operations the claims about sequences name (loan creation,
payment initiation, the confirm endpoints, the manual proof and confirmation, the borrower's
mark-completed endpoint, the lender's fund and deny endpoints, the overdue sweep), with what
the outside world supplies (request, authenticated user, clock, the rail adapters' answers).
Sequences of them build the stores of the scenarios; the administrator's loan update
(`adminUpdateLoan`), the borrower's record-payment endpoint (`recordPayment`) and the
payment-account endpoints are handlers of their own. -/
inductive Op where
  | createLoan (userId : Nat) (req : CreateLoanReq) (now : Int)
  | initiatePayment (req : InitiateReq) (remote : RemoteInit)
  | confirmStripe (req : ConfirmStripeReq) (success : Bool)
  | confirmPaypal (req : ConfirmPaypalReq) (success : Bool) (payout : PayoutResult)
  | confirmCashapp (req : ConfirmCashappReq)
  | submitManualProof (req : SubmitProofReq)
  | confirmManualPayment (req : ConfirmManualReq)
  | markCompleted (userId : Nat) (id : Nat)
  | fundLoan (userId : Nat) (id : Nat)
  | denyLoan (userId : Nat) (id : Nat)
  | overdueSweep (now : Int)
  deriving DecidableEq, Repr

/-- The store after one operation. -/
def step (sch : Schema) (db : Db) : Op → Db
  | .createLoan userId req now => (createLoan db userId req now).1
  | .initiatePayment req remote => (initiatePayment sch db req remote).1
  | .confirmStripe req success => (confirmStripe db req success).1
  | .confirmPaypal req success payout => (confirmPaypal db req success payout).1
  | .confirmCashapp req => (confirmCashapp db req).1
  | .submitManualProof req => (submitManualProof db req).1
  | .confirmManualPayment req => (confirmManualPayment sch db req).1
  | .markCompleted userId id => (markCompleted db userId id).1
  | .fundLoan userId id => (fundLoan db userId id).1
  | .denyLoan userId id => (denyLoan db userId id).1
  | .overdueSweep now => overdueSweep db now

/-- The store after a sequence of operations, each one finishing before the next starts. -/
def run (sch : Schema) (db : Db) (ops : List Op) : Db :=
  ops.foldl (step sch) db

/-- A store with users' relationships, terms and accounts but no loan and no payment yet. -/
def Db.fresh (accounts : List PaymentAccount) (relationships : List Relationship)
    (terms : List LenderTerm) : Db :=
  { loans := [], payments := [], paymentAccounts := accounts, relationships := relationships,
    lenderTerms := terms }

/-! ## Concrete stores and requests used to evaluate the handlers -/

/-- A schema whose loan-status column accepts `ACTIVE`. -/
def schemaWithActive : Schema :=
  { loanStatusActive := true, paymentRoleOk := fun _ => true }

/-- A schema whose loan-status column holds the five lifecycle statuses only. -/
def schemaLifecycleOnly : Schema :=
  { loanStatusActive := false, paymentRoleOk := fun _ => true }

/-- Default PayPal accounts of lender 10 and borrower 20. -/
def demoAccounts : List PaymentAccount :=
  [ { id := 1, userId := 10, accountType := .PAYPAL, isDefault := true, isVerified := true,
      cashAppHandle := none, paypalEmail := some "lender@example.com" },
    { id := 2, userId := 20, accountType := .PAYPAL, isDefault := true, isVerified := true,
      cashAppHandle := none, paypalEmail := some "borrower@example.com" } ]

/-- The confirmed relationship of lender 10 and borrower 20. -/
def demoRelationships : List Relationship :=
  [ { id := 1, lenderId := 10, borrowerId := 20, status := .CONFIRMED } ]

/-- Lender 10 and borrower 20 with a confirmed relationship and default PayPal accounts; no
loan and no payment yet. -/
def demoDb : Db :=
  Db.fresh demoAccounts demoRelationships []

/-- The borrower asks the lender for 50 over 7 days: fee 5, `totalPayable` 55, loan id 1. -/
def opRequestLoan : Op :=
  .createLoan 20 { lenderId := some 10, amount := 50, paybackDays := 7, lenderTermId := none } 0

/-- A manual (Zelle) payment on loan 1. -/
def opZelle (amount : ℚ) (payer receiver : Role) : Op :=
  .initiatePayment
    { loanId := 1, amount := amount, method := .ZELLE, payerRole := payer,
      receiverRole := receiver }
    { success := false, approvalUrl := false }

/-- A confirm (`confirmed = true`) or dispute (`confirmed = false`) without note. -/
def reqConfirm (paymentId : Nat) (confirmed : Bool) (userRole : Role) : ConfirmManualReq :=
  { paymentId := some paymentId, confirmed := confirmed, userRole := userRole, note := none }

/-- A payment row with the given settlement columns, on loan 1. -/
def paymentRow (id : Nat) (amount : ℚ) (payer receiver : Role) (confirmed : Bool)
    (ts : TransferStatus) (mcs : ManualConfirmationStatus) (lenderConfirmed borrowerConfirmed : Bool) :
    Payment :=
  { id := id, loanId := 1, amount := amount, method := .ZELLE, payerRole := payer,
    receiverRole := receiver, confirmed := confirmed, transferStatus := ts,
    manualConfirmationStatus := mcs, lenderConfirmed := lenderConfirmed,
    borrowerConfirmed := borrowerConfirmed, confirmationNote := none,
    cashAppTransactionId := none, confirmationScreenshot := none,
    stripePaymentIntentId := none, fromAccountId := none, toAccountId := none }

/-- Loan 1 of `opRequestLoan` with a given status. -/
def loanRow (status : LoanStatus) : Loan :=
  { id := 1, lenderId := 10, borrowerId := 20, lenderTermId := none, amount := 50,
    feeAmount := 5, totalPayable := 55, paybackDate := 604800000, status := status,
    health := .GOOD }

/-- A store holding loan 1 with the given status and the given payments. -/
def storeOf (status : LoanStatus) (payments : List Payment) : Db :=
  { demoDb with loans := [loanRow status], payments := payments }

/-- A repayment of 30 the lender has confirmed. -/
def rowLenderConfirmed : Payment :=
  paymentRow 1 30 .BORROWER .LENDER true .COMPLETED .CONFIRMED true false

/-- Loan 1 funded, with the repayment of 30 the lender has confirmed. -/
def storeLenderConfirmed : Db :=
  storeOf .FUNDED [rowLenderConfirmed]

/-- A manual funding payment of 50 nobody has confirmed yet. -/
def rowFundingPending : Payment :=
  paymentRow 1 50 .LENDER .BORROWER false .PENDING .PENDING_UPLOAD false false

/-- Loan 1 with the unconfirmed funding payment. -/
def storeFundingPending : Db :=
  storeOf .FUNDED [rowFundingPending]

/-- A manual funding payment of 50 whose proof was submitted and which the lender (its payer)
has confirmed. -/
def rowPayerConfirmed : Payment :=
  paymentRow 1 50 .LENDER .BORROWER false .PENDING .PENDING_CONFIRMATION true false

/-- Loan 1 with the funding payment its payer has confirmed. -/
def storePayerConfirmed : Db :=
  storeOf .FUNDED [rowPayerConfirmed]

/-- A repayment of 30 with proof submitted, no confirmation yet. -/
def rowRepaymentPending : Payment :=
  paymentRow 1 30 .BORROWER .LENDER false .PENDING .PENDING_CONFIRMATION false false

/-- Loan 1 with the repayment awaiting confirmation. -/
def storeRepaymentPending : Db :=
  storeOf .FUNDED [rowRepaymentPending]

/-- The loan is funded by Zelle (payment 1), two repayments of 30 and 25 are initiated
(payments 2 and 3); the lender confirms the first, the borrower disputes it, the lender
confirms the second. -/
def opsDisputedFirstRepayment : List Op :=
  [ opRequestLoan,
    opZelle 50 .LENDER .BORROWER,
    opZelle 30 .BORROWER .LENDER,
    opZelle 25 .BORROWER .LENDER,
    .confirmManualPayment (reqConfirm 2 true .LENDER),
    .confirmManualPayment (reqConfirm 2 false .BORROWER),
    .confirmManualPayment (reqConfirm 3 true .LENDER) ]

/-- The loan is requested and funded by Zelle (payment 1). -/
def opsZelleFunding : List Op :=
  [ opRequestLoan, opZelle 50 .LENDER .BORROWER ]

/-- The loan is requested and one repayment of 30 is initiated (payment 1). -/
def opsOneRepayment : List Op :=
  [ opRequestLoan, opZelle 30 .BORROWER .LENDER ]

/-- A confirm-stripe request for payment 1. -/
def reqStripe : ConfirmStripeReq :=
  { paymentIntentId := "pi_1", paymentId := 1 }

/-- The loan is requested and the borrower marks it completed. -/
def opsMarkCompleted : List Op :=
  [ opRequestLoan, .markCompleted 20 1 ]

/-- The loan is funded by Zelle (payment 1) and repaid by Zelle in two payments of 30 and 25
(payments 2 and 3), each confirmed by the lender. -/
def opsFullRepayment : List Op :=
  [ opRequestLoan,
    opZelle 50 .LENDER .BORROWER,
    opZelle 30 .BORROWER .LENDER,
    opZelle 25 .BORROWER .LENDER,
    .confirmManualPayment (reqConfirm 2 true .LENDER),
    .confirmManualPayment (reqConfirm 3 true .LENDER) ]

/-- As `opsFullRepayment`, then the borrower disputes the repayment of 25. -/
def opsDisputeAfterCompletion : List Op :=
  opsFullRepayment ++ [ .confirmManualPayment (reqConfirm 3 false .BORROWER) ]

/-- The loan is requested and the lender calls the fund endpoint. -/
def opsFundEndpoint : List Op :=
  [ opRequestLoan, .fundLoan 10 1 ]

/-- An internal-wallet payment on loan 1. -/
def opWallet (amount : ℚ) (payer receiver : Role) : Op :=
  .initiatePayment
    { loanId := 1, amount := amount, method := .INTERNAL_WALLET, payerRole := payer,
      receiverRole := receiver }
    { success := false, approvalUrl := false }

/-- The loan is funded from the internal wallet, found overdue by the sweep ten days after
its payback date, and repaid from the internal wallet. -/
def opsWalletLifecycle : List Op :=
  [ opRequestLoan,
    opWallet 50 .LENDER .BORROWER,
    .overdueSweep (17 * msPerDay),
    opWallet 55 .BORROWER .LENDER ]

/-- A confirm-paypal request for payment 1. -/
def reqPaypal : ConfirmPaypalReq :=
  { paymentId := "PAYID-1", payerId := "payer", dbPaymentId := 1 }

/-- A payout answer (not consulted for a payment without receiver account). -/
def payoutOk : PayoutResult :=
  { success := true, payoutBatchId := some "batch" }

/-! ## State predicates of the claims about completed and funded loans -/

/-- The invariant of C1: every `COMPLETED` loan has confirmed borrower→lender payments that
sum to at least its `totalPayable`. -/
def CompletedCovered (db : Db) : Prop :=
  ∀ l ∈ db.loans, l.status = LoanStatus.COMPLETED →
    totalRepaidOf (paymentsOfLoan db l.id) ≥ l.totalPayable

instance (db : Db) : Decidable (CompletedCovered db) :=
  inferInstanceAs (Decidable (∀ l ∈ db.loans, l.status = LoanStatus.COMPLETED →
    totalRepaidOf (paymentsOfLoan db l.id) ≥ l.totalPayable))

/-- The filter of the funding side: confirmed, paid by the lender to the borrower. -/
def isConfirmedFunding (p : Payment) : Bool :=
  p.confirmed && decide (p.payerRole = Role.LENDER) && decide (p.receiverRole = Role.BORROWER)

/-- The loan has a confirmed lender→borrower payment. -/
def hasConfirmedFunding (db : Db) (loanId : Nat) : Prop :=
  ∃ p ∈ paymentsOfLoan db loanId, isConfirmedFunding p = true

instance (db : Db) (loanId : Nat) : Decidable (hasConfirmedFunding db loanId) :=
  inferInstanceAs (Decidable (∃ p ∈ paymentsOfLoan db loanId, isConfirmedFunding p = true))

/-- The statuses the funding invariant speaks about. -/
def LoanStatus.disbursed (s : LoanStatus) : Prop :=
  s = LoanStatus.FUNDED ∨ s = LoanStatus.OVERDUE ∨ s = LoanStatus.COMPLETED

instance (s : LoanStatus) : Decidable s.disbursed :=
  inferInstanceAs (Decidable (s = LoanStatus.FUNDED ∨ s = LoanStatus.OVERDUE
    ∨ s = LoanStatus.COMPLETED))

/-- The invariant of C9: every loan that is `FUNDED`, `OVERDUE` or `COMPLETED` has a
confirmed lender→borrower payment. -/
def FundedBacked (db : Db) : Prop :=
  ∀ l ∈ db.loans, l.status.disbursed → hasConfirmedFunding db l.id

instance (db : Db) : Decidable (FundedBacked db) :=
  inferInstanceAs (Decidable (∀ l ∈ db.loans, l.status.disbursed → hasConfirmedFunding db l.id))

/-! ## The remote confirmations -/

/-- What `stripe.paymentIntents.retrieve` did inside `confirmStripePayment`: it threw (a
missing key included), or it returned an intent with a status text. -/
inductive IntentRetrieval where
  | threw
  | intent (status : String)
  deriving DecidableEq, Repr

/-- The `success` field of `confirmStripePayment` (lines 121-137 of `cashAppService.js`). -/
def confirmStripePayment : IntentRetrieval → Bool
  | .threw => false
  | .intent status => status == "succeeded"

/-- What the execute call did inside `executePayPalPayment`: it threw, it answered with a
non-2xx response, or it returned a result with a state text. -/
inductive PaypalExecution where
  | threw
  | notOk
  | result (state : String)
  deriving DecidableEq, Repr

/-- The `success` field of `executePayPalPayment` (lines 231-275 of `paypalService.js`). -/
def executePayPalPayment : PaypalExecution → Bool
  | .threw => false
  | .notOk => false
  | .result state => state == "approved"

/-! ## Requests of the initiate-payment scenarios -/

/-- The user who pays, as lines 29-36 of `paymentRoutes.js` pick it. -/
def fromUserIdOf (loan : Loan) (req : InitiateReq) : Nat :=
  if req.payerRole = Role.LENDER then loan.lenderId else loan.borrowerId

/-- The user who receives, as lines 29-36 of `paymentRoutes.js` pick it. -/
def toUserIdOf (loan : Loan) (req : InitiateReq) : Nat :=
  if req.payerRole = Role.LENDER then loan.borrowerId else loan.lenderId

/-- An internal-wallet repayment request on a loan. -/
def walletRepaymentReq (loanId : Nat) (amount : ℚ) : InitiateReq :=
  { loanId := loanId, amount := amount, method := .INTERNAL_WALLET, payerRole := .BORROWER,
    receiverRole := .LENDER }

/-- Internal-wallet repayments of the given amounts on a loan, one request after the
other. -/
def walletRepayments (loanId : Nat) (remote : RemoteInit) (amounts : List ℚ) : List Op :=
  amounts.map (fun a => Op.initiatePayment (walletRepaymentReq loanId a) remote)

/-- A lender term of lender 11 (not the lender of the demo relationship). -/
def foreignTerm : LenderTerm :=
  { id := 5, lenderId := 11, feePer10Short := 3, feePer10Long := 4 }

/-- A lender term of lender 10. -/
def ownTerm : LenderTerm :=
  { id := 6, lenderId := 10, feePer10Short := 1, feePer10Long := 3 }

/-- The demo store with the two lender terms. -/
def demoDbWithTerms : Db :=
  Db.fresh demoAccounts demoRelationships [foreignTerm, ownTerm]

/-- The borrower asks lender 10 for 50 over 7 days under a given term id. -/
def reqLoanWithTerm (termId : Option Nat) : CreateLoanReq :=
  { lenderId := some 10, amount := 50, paybackDays := 7, lenderTermId := termId }

/-- The lender has a default CashApp and a default PayPal account, the borrower has none;
loan 1 is pending. -/
def storeReceiverWithoutAccount : Db :=
  { loans := [loanRow .PENDING], payments := [],
    paymentAccounts :=
      [ { id := 1, userId := 10, accountType := .CASHAPP, isDefault := true,
          isVerified := true, cashAppHandle := some "$lender", paypalEmail := none },
        { id := 2, userId := 10, accountType := .PAYPAL, isDefault := true,
          isVerified := true, cashAppHandle := none,
          paypalEmail := some "lender@example.com" } ],
    relationships := demoRelationships, lenderTerms := [] }

/-- A CashApp funding request on loan 1. -/
def reqCashappFunding : InitiateReq :=
  { loanId := 1, amount := 50, method := .CASHAPP, payerRole := .LENDER,
    receiverRole := .BORROWER }

/-- Both users have a default PayPal account, neither verified; loan 1 is pending. -/
def storeUnverifiedAccounts : Db :=
  { loans := [loanRow .PENDING], payments := [],
    paymentAccounts :=
      [ { id := 1, userId := 10, accountType := .PAYPAL, isDefault := true,
          isVerified := false, cashAppHandle := none,
          paypalEmail := some "lender@example.com" },
        { id := 2, userId := 20, accountType := .PAYPAL, isDefault := true,
          isVerified := false, cashAppHandle := none,
          paypalEmail := some "borrower@example.com" } ],
    relationships := demoRelationships, lenderTerms := [] }

/-- A PayPal funding request on loan 1. -/
def reqPaypalFunding : InitiateReq :=
  { loanId := 1, amount := 50, method := .PAYPAL, payerRole := .LENDER,
    receiverRole := .BORROWER }

/-- The adapter created the PayPal payment and returned an approval URL. -/
def remoteApproval : RemoteInit :=
  { success := true, approvalUrl := true }

/-- The adapter failed. -/
def remoteFailure : RemoteInit :=
  { success := false, approvalUrl := false }

/-- A Zelle funding request on loan 1. -/
def reqZelleFunding : InitiateReq :=
  { loanId := 1, amount := 50, method := .ZELLE, payerRole := .LENDER,
    receiverRole := .BORROWER }

/-- An internal-wallet funding request on loan 1. -/
def reqWalletFunding : InitiateReq :=
  { loanId := 1, amount := 50, method := .INTERNAL_WALLET, payerRole := .LENDER,
    receiverRole := .BORROWER }

/-- A CashApp repayment request on loan 1. -/
def reqCashappRepayment : InitiateReq :=
  { loanId := 1, amount := 30, method := .CASHAPP, payerRole := .BORROWER,
    receiverRole := .LENDER }

/-- A Zelle repayment request on loan 1. -/
def reqZelleRepayment : InitiateReq :=
  { loanId := 1, amount := 30, method := .ZELLE, payerRole := .BORROWER,
    receiverRole := .LENDER }

/-- A PayPal repayment request on loan 1. -/
def reqPaypalRepayment : InitiateReq :=
  { loanId := 1, amount := 30, method := .PAYPAL, payerRole := .BORROWER,
    receiverRole := .LENDER }

/-! ## Loan creation: the term that applies and the row stored -/

/-- Lines 91-99 of `borrowerRoutes.js`: the lender term looked up for a request, `none` when
no `lenderTermId` is given or no term has that id together with the stated lender. -/
def lenderTermOf (db : Db) (lenderId : Nat) (lenderTermId : Option Nat) : Option LenderTerm :=
  match lenderTermId with
  | none => none
  | some tid => db.lenderTerms.find? (fun t => t.id == tid && t.lenderId == lenderId)

/-- The row `prisma.loan.create` stores at lines 118-141 of `borrowerRoutes.js`. -/
def loanOf (db : Db) (userId lenderId : Nat) (req : CreateLoanReq) (now : Int) : Loan :=
  { id := nextId (db.loans.map (fun l => l.id))
    lenderId := lenderId
    borrowerId := userId
    lenderTermId := (lenderTermOf db lenderId req.lenderTermId).map (fun t => t.id)
    amount := req.amount
    feeAmount := feeAmountOf req.amount req.paybackDays
      (lenderTermOf db lenderId req.lenderTermId)
    totalPayable := fadd req.amount (feeAmountOf req.amount req.paybackDays
      (lenderTermOf db lenderId req.lenderTermId))
    paybackDate := now + req.paybackDays * msPerDay
    status := .PENDING
    health := .GOOD }

/-- A `CONFIRMED` relationship between a lender and a borrower is in the store. -/
def hasConfirmedRelationship (db : Db) (lenderId borrowerId : Nat) : Prop :=
  ∃ r ∈ db.relationships, r.lenderId = lenderId ∧ r.borrowerId = borrowerId
    ∧ r.status = RelationshipStatus.CONFIRMED

instance (db : Db) (lenderId borrowerId : Nat) :
    Decidable (hasConfirmedRelationship db lenderId borrowerId) :=
  inferInstanceAs (Decidable (∃ r ∈ db.relationships, r.lenderId = lenderId
    ∧ r.borrowerId = borrowerId ∧ r.status = RelationshipStatus.CONFIRMED))

/-- The relationship of lender 10 and borrower 20 is blocked. -/
def blockedDb : Db :=
  Db.fresh demoAccounts [ { id := 1, lenderId := 10, borrowerId := 20, status := .BLOCKED } ] []

/-- As `opsFullRepayment` (loan 1 ends `COMPLETED`), then the lender initiates another Zelle
funding payment. -/
def opsFundingAfterCompletion : List Op :=
  opsFullRepayment ++ [ opZelle 50 .LENDER .BORROWER ]

/-- Loan 1 is funded by Zelle, found overdue by the sweep, and a payment paid by the lender
(payment 1) is then confirmed through confirm-stripe. -/
def opsStripeAfterOverdue : List Op :=
  [ opRequestLoan,
    opZelle 50 .LENDER .BORROWER,
    .overdueSweep (17 * msPerDay),
    .confirmStripe reqStripe true ]

/-- Loan 1 is requested and denied, then the lender funds it from the internal wallet. -/
def opsWalletAfterDenial : List Op :=
  [ opRequestLoan, .denyLoan 10 1, opWallet 50 .LENDER .BORROWER ]

/-! ## The overdue sweep: health order and scenarios -/

/-- The order `GOOD < BEHIND < FAILING < DEFAULTED` as a rank. -/
def LoanHealth.rank : LoanHealth → Nat
  | .GOOD => 0
  | .BEHIND => 1
  | .FAILING => 2
  | .DEFAULTED => 3

/-- The loans the sweep selects: `status: "FUNDED", paybackDate: { lt: now }`. -/
def sweepSelects (now : Int) (l : Loan) : Prop :=
  l.status = LoanStatus.FUNDED ∧ l.paybackDate < now

instance (now : Int) (l : Loan) : Decidable (sweepSelects now l) :=
  inferInstanceAs (Decidable (l.status = LoanStatus.FUNDED ∧ l.paybackDate < now))

/-- Model of `prisma.loan.update` by id with `data: { status, health }`. -/
def setStatusAndHealth (db : Db) (id : Nat) (s : LoanStatus) (h : LoanHealth) : Db :=
  { db with loans := db.loans.map (fun l =>
      if l.id = id then { l with status := s, health := h } else l) }

/-- Step 1 of the daily job statement by statement (lines 117-141 of `nodemailerJob.js`):
the `findMany`, then for each loan found one `update` by its id; `daysLate` is computed from
the loan as found. -/
def overdueSweepLoop (db : Db) (now : Int) : Db :=
  (db.loans.filter (fun l => decide (sweepSelects now l))).foldl
    (fun d loan => setStatusAndHealth d loan.id .OVERDUE (healthBand (daysLateOf now loan))) db

/-- The loans after the updates of the loop for the loans `found`. -/
def sweepUpdates (now : Int) (found : List Loan) (loans : List Loan) : List Loan :=
  found.foldl (fun ls loan => ls.map (fun l =>
    if l.id = loan.id then
      { l with status := .OVERDUE, health := healthBand (daysLateOf now loan) }
    else l)) loans

/-- The ids of the loans are a primary key. -/
def loanIdsUnique (db : Db) : Prop :=
  (db.loans.map (fun (l : Loan) => l.id)).Nodup

instance (db : Db) : Decidable (loanIdsUnique db) :=
  inferInstanceAs (Decidable ((db.loans.map (fun (l : Loan) => l.id)).Nodup))

/-- Loan 1 (payback date at day 7) with a given status and health. -/
def loanRowWith (status : LoanStatus) (health : LoanHealth) : Loan :=
  { loanRow status with health := health }

/-- A store holding loan 1 with the given status and health and no payment. -/
def storeWith (status : LoanStatus) (health : LoanHealth) : Db :=
  { demoDb with loans := [loanRowWith status health] }

/-- Loan 1 is funded from the internal wallet and found overdue by the sweep one day after
its payback date. -/
def opsOverdueAfterOneDay : List Op :=
  [ opRequestLoan, opWallet 50 .LENDER .BORROWER, .overdueSweep (8 * msPerDay) ]

/-- The status and health of every loan of a store. -/
def statusAndHealth (db : Db) : List (LoanStatus × LoanHealth) :=
  db.loans.map (fun l => (l.status, l.health))

/-! ## Scenarios of confirm-cashapp and of the manual confirmation -/

/-- Default CashApp accounts of lender 10 and borrower 20. -/
def cashappAccounts : List PaymentAccount :=
  [ { id := 1, userId := 10, accountType := .CASHAPP, isDefault := true, isVerified := true,
      cashAppHandle := some "$lender", paypalEmail := none },
    { id := 2, userId := 20, accountType := .CASHAPP, isDefault := true, isVerified := true,
      cashAppHandle := some "$borrower", paypalEmail := none } ]

/-- Lender 10 and borrower 20 with a confirmed relationship and default CashApp accounts; no
loan and no payment yet. -/
def cashappDb : Db :=
  Db.fresh cashappAccounts demoRelationships []

/-- A CashApp payment on loan 1. -/
def opCashapp (amount : ℚ) (payer receiver : Role) : Op :=
  .initiatePayment
    { loanId := 1, amount := amount, method := .CASHAPP, payerRole := payer,
      receiverRole := receiver }
    { success := true, approvalUrl := false }

/-- Loan 1 is funded by CashApp (payment 1); the borrower repays 30 by CashApp (payment 2)
and the lender confirms that repayment. -/
def opsCashappRepaymentConfirmed : List Op :=
  [ opRequestLoan,
    opCashapp 50 .LENDER .BORROWER,
    opCashapp 30 .BORROWER .LENDER,
    .confirmManualPayment (reqConfirm 2 true .LENDER) ]

/-- A confirm-cashapp request for payment 2. -/
def reqCashapp : ConfirmCashappReq :=
  { paymentId := 2, cashAppTransactionId := some "T-2", confirmationNote := none }

/-- The settlement columns of a payment. -/
def settlementFields (p : Payment) :
    Bool × TransferStatus × ManualConfirmationStatus × Bool × Bool :=
  (p.confirmed, p.transferStatus, p.manualConfirmationStatus, p.lenderConfirmed,
    p.borrowerConfirmed)

/-- A role that is neither `LENDER` nor `BORROWER`. -/
def Role.unrecognised (r : Role) : Prop :=
  r ≠ Role.LENDER ∧ r ≠ Role.BORROWER

instance (r : Role) : Decidable r.unrecognised :=
  inferInstanceAs (Decidable (r ≠ Role.LENDER ∧ r ≠ Role.BORROWER))

/-- The text begins with a character that `trim` removes. -/
def startsWithJsSpace (s : String) : Bool :=
  match s.toList.head? with
  | some c => isJsSpace c
  | none => false

/-- The text ends with a character that `trim` removes. -/
def endsWithJsSpace (s : String) : Bool :=
  match s.toList.getLast? with
  | some c => isJsSpace c
  | none => false

/-- A manual-confirmation request with a note. -/
def reqConfirmNote (paymentId : Nat) (confirmed : Bool) (userRole : Role) (note : String) :
    ConfirmManualReq :=
  { paymentId := some paymentId, confirmed := confirmed, userRole := userRole,
    note := some note }

/-- A proof submission for payment 1 with the given fields. -/
def reqProof (transactionId note screenshotPath : Option String) : SubmitProofReq :=
  { paymentId := some 1, transactionId := transactionId, note := note,
    screenshotPath := screenshotPath, userRole := .BORROWER }

/-- A repayment of 30 is initiated on loan 1 (payment 1) and the borrower submits a proof
whose note begins with a blank. -/
def opsProofWithIndentedNote : List Op :=
  opsOneRepayment ++ [ .submitManualProof (reqProof (some "T-1") (some " sent via app") none) ]

/-- The proof columns of a payment. -/
def proofFields (p : Payment) :
    Option String × Option String × Option String × ManualConfirmationStatus :=
  (p.cashAppTransactionId, p.confirmationNote, p.confirmationScreenshot,
    p.manualConfirmationStatus)

/-- What `submitted || previous` stores: the submitted text when it is non-empty, else the
previous value. -/
def StoresOrKeeps (submitted previous stored : Option String) : Prop :=
  (∀ t, submitted = some t → t ≠ "" → stored = some t)
    ∧ (submitted = none ∨ submitted = some "" → stored = previous)

/-- Payment 1 with a proof already submitted: transaction id, note and screenshot. -/
def rowWithProof : Payment :=
  { rowRepaymentPending with
    cashAppTransactionId := some "T-1"
    confirmationNote := some "sent via app"
    confirmationScreenshot := some "uploads/a.png" }

/-- Loan 1 funded, with the repayment whose proof was submitted. -/
def storeWithProof : Db :=
  storeOf .FUNDED [rowWithProof]

/-! ## The borrower's record-payment endpoint -/

/-- Body of the borrower's `POST /loans/:id/payments` (the fields that decide the stored
row); the body has no field for a role. -/
structure RecordPaymentReq where
  amount : Option ℚ
  method : Option PaymentMethod
  deriving DecidableEq, Repr

/-- The handler `POST /loans/:id/payments` of `borrowerRoutes.js` (lines 170-229). Its
`create` gives `loanId`, `amount`, `paymentDate`, `method`, `confirmed` and `reference` only;
`blank` is the row the payment table makes of the columns left out, or `none` when the table
refuses a row without them (the `create` throws and the `catch` answers 500). -/
def recordPayment (blank : Option Payment) (db : Db) (userId id : Nat)
    (req : RecordPaymentReq) : Db × Response :=
  match req.amount, req.method with
  | some amount, some method =>
    if amount = 0 then (db, { code := 400 })
    else
      match db.loans.find? (fun l => l.id == id && l.borrowerId == userId) with
      | none => (db, { code := 404 })
      | some loan =>
        if loan.status = LoanStatus.COMPLETED then (db, { code := 400 })
        else
          match blank with
          | none => (db, { code := 500 })
          | some row =>
            ({ db with payments := db.payments ++
                [{ row with
                    id := nextId (db.payments.map (fun p => p.id))
                    loanId := id
                    amount := amount
                    method := method
                    confirmed := false }] },
              { code := 201 })
  | _, _ => (db, { code := 400 })

/-- A payment table whose role columns accept `LENDER` and `BORROWER` only. -/
def schemaRolesEnum : Schema :=
  { loanStatusActive := false
    paymentRoleOk := fun r => decide (r = Role.LENDER ∨ r = Role.BORROWER) }

/-- A Zelle request on loan 1 whose payer and receiver are both the lender. -/
def reqZelleSameRole : InitiateReq :=
  { loanId := 1, amount := 50, method := .ZELLE, payerRole := .LENDER,
    receiverRole := .LENDER }

/-- A Zelle request on loan 1 with roles that are neither `LENDER` nor `BORROWER`. -/
def reqZelleForeignRoles : InitiateReq :=
  { loanId := 1, amount := 50, method := .ZELLE, payerRole := .OTHER "ADMIN",
    receiverRole := .OTHER "GUEST" }

/-- The payer and receiver roles of every payment of a store. -/
def rolesOfPayments (db : Db) : List (Role × Role) :=
  db.payments.map (fun p => (p.payerRole, p.receiverRole))

/-! ## Payment accounts (`paymentAccountRoutes.js`) -/

/-- Body of `POST /payment-accounts` (`isDefault` is `false` when the body leaves it out). -/
structure AddAccountReq where
  accountType : PaymentMethod
  cashAppHandle : Option String
  paypalEmail : Option String
  isDefault : Bool
  deriving DecidableEq, Repr

/-- What the store answers to a `create` or a `delete`: done, a unique-constraint error
(`P2002`), or another error. -/
inductive StoreAnswer where
  | done
  | uniqueViolation
  | failure
  deriving DecidableEq, Repr

/-- The test `!cashAppHandle || !cashAppHandle.startsWith('$')` negated. -/
def validHandle (h : Option String) : Bool :=
  truthy h && ((h.getD "").toList.head? == some '$')

/-- The test `!paypalEmail || !paypalEmail.includes('@')` negated. -/
def validEmail (e : Option String) : Bool :=
  truthy e && (e.getD "").toList.contains '@'

/-- Model of `prisma.paymentAccount.updateMany` with `data: { isDefault: false }` on the
accounts of a user and type, the account `keep` left out (`id: { not: id }`). -/
def clearDefaults (accounts : List PaymentAccount) (userId : Nat) (ty : PaymentMethod)
    (keep : Option Nat) : List PaymentAccount :=
  accounts.map (fun a =>
    if a.userId = userId ∧ a.accountType = ty ∧ some a.id ≠ keep then
      { a with isDefault := false }
    else a)

/-- The handler `POST /payment-accounts` (lines 22-75); `answer` is what the store answers
to the `create`. -/
def addPaymentAccount (db : Db) (userId : Nat) (req : AddAccountReq) (answer : StoreAnswer) :
    Db × Response :=
  if req.accountType = PaymentMethod.CASHAPP ∧ validHandle req.cashAppHandle = false then
    (db, { code := 400 })
  else if req.accountType = PaymentMethod.PAYPAL ∧ validEmail req.paypalEmail = false then
    (db, { code := 400 })
  else
    let db1 : Db :=
      if req.isDefault = true then
        { db with paymentAccounts := clearDefaults db.paymentAccounts userId req.accountType none }
      else db
    match answer with
    | .done =>
      ({ db1 with paymentAccounts := db1.paymentAccounts ++
          [{ id := nextId (db1.paymentAccounts.map (fun a => a.id))
             userId := userId
             accountType := req.accountType
             isDefault := req.isDefault
             isVerified := false
             cashAppHandle :=
               if req.accountType = PaymentMethod.CASHAPP then req.cashAppHandle else none
             paypalEmail :=
               if req.accountType = PaymentMethod.PAYPAL then req.paypalEmail else none }] },
        { code := 200 })
    | .uniqueViolation => (db1, { code := 400 })
    | .failure => (db1, { code := 500 })

/-- Body of `PUT /payment-accounts/:id` (the nickname is not modelled); `isDefault` is
`none` when the body leaves it out. -/
structure UpdateAccountReq where
  isDefault : Option Bool
  deriving DecidableEq, Repr

/-- The handler `PUT /payment-accounts/:id` (lines 78-115). -/
def updatePaymentAccount (db : Db) (userId id : Nat) (req : UpdateAccountReq) :
    Db × Response :=
  match db.paymentAccounts.find? (fun a => a.id == id && a.userId == userId) with
  | none => (db, { code := 404 })
  | some account =>
    let accounts1 :=
      if req.isDefault = some true then
        clearDefaults db.paymentAccounts userId account.accountType (some id)
      else db.paymentAccounts
    ({ db with paymentAccounts := accounts1.map (fun a =>
        if a.id = id then { a with isDefault := req.isDefault.getD a.isDefault } else a) },
      { code := 200 })

/-- The handler `DELETE /payment-accounts/:id` (lines 118-140); `answer` is what the store
answers to the `delete`. -/
def deletePaymentAccount (db : Db) (userId id : Nat) (answer : StoreAnswer) : Db × Response :=
  match db.paymentAccounts.find? (fun a => a.id == id && a.userId == userId) with
  | none => (db, { code := 404 })
  | some _ =>
    match answer with
    | .done =>
      ({ db with paymentAccounts := db.paymentAccounts.filter (fun a => a.id != id) },
        { code := 200 })
    | _ => (db, { code := 500 })

/-- An account of the user and type that is marked default. -/
def isDefaultOf (userId : Nat) (ty : PaymentMethod) (a : PaymentAccount) : Bool :=
  a.userId == userId && a.accountType == ty && a.isDefault

/-- The number of accounts of a user and type that are marked default. -/
def defaultCount (db : Db) (userId : Nat) (ty : PaymentMethod) : Nat :=
  (db.paymentAccounts.filter (isDefaultOf userId ty)).length

/-- The ids of the payment accounts are a primary key. -/
def accountIdsUnique (db : Db) : Prop :=
  (db.paymentAccounts.map (fun a => a.id)).Nodup

instance (db : Db) : Decidable (accountIdsUnique db) :=
  inferInstanceAs (Decidable ((db.paymentAccounts.map (fun (a : PaymentAccount) => a.id)).Nodup))

/-- A request that adds a default PayPal account. -/
def reqAddDefaultPaypal : AddAccountReq :=
  { accountType := .PAYPAL, cashAppHandle := none, paypalEmail := some "second@example.com",
    isDefault := true }

/-! ## Two confirm-stripe handlers running concurrently

Between two `await`s a handler runs alone; each awaited store operation (`findUnique`,
`update`) is one step. A handler is modelled by what it holds between two steps, and a
schedule says which of two handlers performs its next step. -/

/-- What a confirm-stripe handler (after a successful remote confirmation) holds between two
store operations: the request, and from the `findUnique` on, the payment it read and the
store at that moment (`payment.loan` and `loan.payments` come from that read). -/
inductive StripeTask where
  | start (req : ConfirmStripeReq)
  | loaded (req : ConfirmStripeReq) (snapshot : Db) (payment : Payment)
  | marked (req : ConfirmStripeReq) (snapshot : Db) (payment : Payment)
  | transferred (req : ConfirmStripeReq) (snapshot : Db) (payment : Payment)
  | finished (r : Response)
  deriving DecidableEq, Repr

/-- One store operation of a confirm-stripe handler (lines 362-452): the `findUnique`, the
update to `PROCESSING`, the update to `COMPLETED`, then the notification and the
loan-status logic on the snapshot read at the `findUnique`. -/
def stripeStep (db : Db) : StripeTask → Db × StripeTask
  | .start req =>
    match findPayment db req.paymentId with
    | none => (db, .finished { code := 404 })
    | some payment => (db, .loaded req db payment)
  | .loaded req snapshot payment =>
    (updatePayment db req.paymentId (fun p =>
        { p with confirmed := true, transferStatus := .PROCESSING,
                 stripePaymentIntentId := some req.paymentIntentId }),
      .marked req snapshot payment)
  | .marked req snapshot payment =>
    (updatePayment db req.paymentId (fun p => { p with transferStatus := .COMPLETED }),
      .transferred req snapshot payment)
  | .transferred _ snapshot payment =>
    if (findAccount snapshot payment.fromAccountId).isSome = true
        ∧ (findAccount snapshot payment.toAccountId).isSome = true
        ∧ (findLoan snapshot payment.loanId).isSome = false then
      (db, .finished { code := 500 })
    else
      ((settleFromSnapshot snapshot db payment).1,
        .finished (settleFromSnapshot snapshot db payment).2)
  | .finished r => (db, .finished r)

/-- Two handlers under a schedule: `true` lets the first handler perform its next store
operation, `false` the second. -/
def runSchedule (db : Db) (a b : StripeTask) : List Bool → Db × StripeTask × StripeTask
  | [] => (db, a, b)
  | true :: rest => runSchedule (stripeStep db a).1 (stripeStep db a).2 b rest
  | false :: rest => runSchedule (stripeStep db b).1 a (stripeStep db b).2 rest

/-- Loan 1 (`totalPayable = 55`) is funded by CashApp (payment 1); the borrower initiates two
CashApp repayments of 30 and 25 (payments 2 and 3). -/
def opsTwoRepaymentsPending : List Op :=
  [ opRequestLoan,
    opCashapp 50 .LENDER .BORROWER,
    opCashapp 30 .BORROWER .LENDER,
    opCashapp 25 .BORROWER .LENDER ]

/-- The store with the two repayments awaiting confirmation. -/
def storeTwoRepaymentsPending : Db :=
  run schemaWithActive cashappDb opsTwoRepaymentsPending

/-- A confirm-stripe request for a payment. -/
def reqStripeFor (paymentId : Nat) : ConfirmStripeReq :=
  { paymentIntentId := "pi", paymentId := paymentId }

/-- The first handler runs to its end, then the second. -/
def scheduleOneAfterTheOther : List Bool :=
  [true, true, true, true, false, false, false, false]

/-- Both handlers perform their `findUnique` before either writes. -/
def scheduleBothReadFirst : List Bool :=
  [true, false, true, true, true, false, false, false]

/-- The total payable and status of every loan of a store. -/
def payableAndStatus (db : Db) : List (ℚ × LoanStatus) :=
  db.loans.map (fun l => (l.totalPayable, l.status))

/-- The id, amount and `confirmed` flag of every payment of a store. -/
def confirmedFlags (db : Db) : List (Nat × ℚ × Bool) :=
  db.payments.map (fun p => (p.id, p.amount, p.confirmed))

/-! ## Doubles: exact values and scenarios of rounding -/

/-- The rational is a double: rounding leaves it as it is. -/
def isDouble (q : ℚ) : Prop :=
  roundDouble q = q

instance (q : ℚ) : Decidable (isDouble q) :=
  inferInstanceAs (Decidable (roundDouble q = q))

/-- The rate per 10 that applies to a request: of the term found, short up to 7 payback days
and long beyond; 1 and 2 when no term is found. -/
def feePer10Of (paybackDays : Int) (lenderTerm : Option LenderTerm) : ℚ :=
  match lenderTerm with
  | some t => if paybackDays ≤ 7 then t.feePer10Short else t.feePer10Long
  | none => if paybackDays ≤ 7 then 1 else 2

/-- The borrower asks lender 10 for 11 over 14 days under the lender's own term 6, whose
long rate is 3. -/
def reqLoanOfEleven : CreateLoanReq :=
  { lenderId := some 10, amount := 11, paybackDays := 14, lenderTermId := some 6 }

/-- The double that the text `24.999999999999996` denotes. -/
def justBelow25 : ℚ :=
  roundDouble 24.999999999999996

/-- The borrower marks loan 1 completed, then repays 30 from the internal wallet. -/
def opsWalletAfterMarkCompleted : List Op :=
  opsMarkCompleted ++ walletRepayments 1 remoteFailure [30]

/-! ## Loans that a call completes or funds -/

/-- The call that led from the store `before` to the store `after` changed the status of
the loan with the given id to `COMPLETED`. -/
def becameCompleted (before after : Db) (id : Nat) : Prop :=
  ∃ loan loan', findLoan before id = some loan ∧ findLoan after id = some loan'
    ∧ loan.status ≠ LoanStatus.COMPLETED ∧ loan'.status = LoanStatus.COMPLETED

instance (before after : Db) (id : Nat) : Decidable (becameCompleted before after id) :=
  match h1 : findLoan before id, h2 : findLoan after id with
  | some l, some l' =>
    if h : l.status ≠ LoanStatus.COMPLETED ∧ l'.status = LoanStatus.COMPLETED then
      isTrue ⟨l, l', h1, h2, h.1, h.2⟩
    else
      isFalse (fun ⟨a, b, ha, hb, hc, hd⟩ => h (by
        rw [h1] at ha; rw [h2] at hb; cases ha; cases hb; exact ⟨hc, hd⟩))
  | none, _ => isFalse (fun ⟨_, _, ha, _, _, _⟩ => by rw [h1] at ha; cases ha)
  | some _, none => isFalse (fun ⟨_, _, _, hb, _, _⟩ => by rw [h2] at hb; cases hb)

/-- The confirmed borrower→lender amounts of the loan with the given id, added as the
handlers add them, reach its `totalPayable`. -/
def coveredIn (db : Db) (id : Nat) : Prop :=
  ∃ loan, findLoan db id = some loan
    ∧ totalRepaidOf (paymentsOfLoan db id) ≥ loan.totalPayable

instance (db : Db) (id : Nat) : Decidable (coveredIn db id) :=
  match h1 : findLoan db id with
  | some l =>
    if h : totalRepaidOf (paymentsOfLoan db id) ≥ l.totalPayable then isTrue ⟨l, h1, h⟩
    else isFalse (fun ⟨a, ha, hb⟩ => h (by rw [h1] at ha; cases ha; exact hb))
  | none => isFalse (fun ⟨_, ha, _⟩ => by rw [h1] at ha; cases ha)

/-- The exact sum of the confirmed borrower→lender amounts. -/
def exactRepaidOf (ps : List Payment) : ℚ :=
  ((ps.filter isConfirmedRepayment).map (fun p => p.amount)).sum

/-- Loan 1 is funded from the internal wallet; the borrower then sends 55 from the internal
wallet with the borrower named as receiver too. -/
def opsWalletToBorrower : List Op :=
  [ opRequestLoan, opWallet 50 .LENDER .BORROWER, opWallet 55 .BORROWER .BORROWER ]

/-- Loan 1 is funded by Zelle (payment 1); the borrower repays 30 and the double
`24.999999999999996` by Zelle (payments 2 and 3) and the lender confirms both. -/
def opsRoundedRepayments : List Op :=
  [ opRequestLoan,
    opZelle 50 .LENDER .BORROWER,
    opZelle 30 .BORROWER .LENDER,
    opZelle justBelow25 .BORROWER .LENDER,
    .confirmManualPayment (reqConfirm 2 true .LENDER),
    .confirmManualPayment (reqConfirm 3 true .LENDER) ]

/-- Loan 1 is funded by Zelle (payment 1); the borrower repays the doubles that `21.82`,
`29.56` and `3.62` denote by Zelle (payments 2 to 4) and the lender confirms the three. -/
def opsDecimalRepayments : List Op :=
  [ opRequestLoan,
    opZelle 50 .LENDER .BORROWER,
    opZelle (roundDouble 21.82) .BORROWER .LENDER,
    opZelle (roundDouble 29.56) .BORROWER .LENDER,
    opZelle (roundDouble 3.62) .BORROWER .LENDER,
    .confirmManualPayment (reqConfirm 2 true .LENDER),
    .confirmManualPayment (reqConfirm 3 true .LENDER),
    .confirmManualPayment (reqConfirm 4 true .LENDER) ]

/-! ## The administrator's loan update -/

/-- The handler `PATCH /admin/loans/:id` (`updateLoan`, lines 21-62 of
`Admin/loan.controller.js`): the status and the health of the request are written on the
loan, a field the request leaves out is kept; `prisma.loan.update` throws when there is no
such loan. -/
def adminUpdateLoan (db : Db) (id : Nat) (status : Option LoanStatus)
    (health : Option LoanHealth) : Db × Response :=
  match findLoan db id with
  | none => (db, { code := 500 })
  | some _ =>
    ({ db with loans := db.loans.map (fun l =>
        if l.id = id then
          { l with status := status.getD l.status, health := health.getD l.health }
        else l) },
      { code := 200 })

/-- Loan 1 is requested and the lender sends 50 from the internal wallet, naming the lender
as receiver too. -/
def opsWalletToLender : List Op :=
  [ opRequestLoan, opWallet 50 .LENDER .LENDER ]

/-! ## Store lemmas -/

theorem find?_map_update_id {α : Type} (key : α → Nat) (f : α → α) (hf : ∀ a, key (f a) = key a)
    (id : Nat) (xs : List α) :
    (xs.map (fun a => if key a = id then f a else a)).find? (fun a => key a == id)
      = (xs.find? (fun a => key a == id)).map f := by
  induction xs with
  | nil => rfl
  | cons x xs ih =>
    by_cases hx : key x = id
    · simp [List.find?_cons, hx, hf]
    · have hb : (key x == id) = false := by simpa using hx
      simp only [List.map_cons, if_neg hx, List.find?_cons, hb, ih]

theorem findPayment_updatePayment (db : Db) (id : Nat) (f : Payment → Payment)
    (hf : ∀ p, (f p).id = p.id) :
    findPayment (updatePayment db id f) id = (findPayment db id).map f := by
  unfold findPayment updatePayment
  exact find?_map_update_id (fun p => p.id) f hf id db.payments

theorem updatePayment_loans (db : Db) (id : Nat) (f : Payment → Payment) :
    (updatePayment db id f).loans = db.loans := rfl

theorem findLoan_updatePayment (db : Db) (id lid : Nat) (f : Payment → Payment) :
    findLoan (updatePayment db id f) lid = findLoan db lid := rfl

theorem findLoan_id {db : Db} {id : Nat} {loan : Loan} (h : findLoan db id = some loan) :
    loan.id = id := by
  have := List.find?_some h
  simpa using this

theorem applyUpdate_id (u : UpdateData) (p : Payment) : (applyUpdate u p).id = p.id := rfl

theorem loanUpdateStatus_payments {sch : Schema} {db db' : Db} {id : Nat} {s : LoanStatus}
    (h : loanUpdateStatus sch db id s = some db') : db'.payments = db.payments := by
  unfold loanUpdateStatus at h
  split at h
  · cases h; rfl
  · cases h

theorem fundingStep_payments {sch : Schema} {db db' : Db} {payment : Payment}
    {req : ConfirmManualReq} (h : fundingStep sch db payment req = some db') :
    db'.payments = db.payments := by
  unfold fundingStep at h
  split at h
  · split at h
    · exact loanUpdateStatus_payments h
    · cases h; rfl
  · cases h; rfl

theorem repaymentStep_payments {sch : Schema} {db db' : Db} {payment : Payment}
    {req : ConfirmManualReq} {u : UpdateData}
    (h : repaymentStep sch db payment req u = some db') : db'.payments = db.payments := by
  unfold repaymentStep at h
  split at h
  · split at h
    · split at h
      · cases h
      · dsimp only at h
        split at h
        · exact loanUpdateStatus_payments h
        · cases h; rfl
    · cases h; rfl
  · cases h; rfl

/-- The payment rows after `confirmManualPayment` found the payment: the `updateData`
applied to the rows with that id, whatever happens to the loan afterwards. -/
theorem confirmManualPayment_payments (sch : Schema) (db : Db) (req : ConfirmManualReq)
    (pid : Nat) (payment : Payment) (hid : req.paymentId = some pid)
    (hfind : findPayment db pid = some payment) :
    (confirmManualPayment sch db req).1.payments
      = (updatePayment db pid (applyUpdate (buildUpdateData payment req))).payments := by
  unfold confirmManualPayment
  simp only [hid, hfind]
  split
  · rfl
  · rename_i db2 h2
    split
    · exact fundingStep_payments h2
    · rename_i db3 h3
      have := repaymentStep_payments h3
      split <;> simp [this, fundingStep_payments h2]

theorem findPayment_confirmManualPayment (sch : Schema) (db : Db) (req : ConfirmManualReq)
    (pid : Nat) (payment : Payment) (hid : req.paymentId = some pid)
    (hfind : findPayment db pid = some payment) :
    findPayment (confirmManualPayment sch db req).1 pid
      = some (applyUpdate (buildUpdateData payment req) payment) := by
  have h := confirmManualPayment_payments sch db req pid payment hid hfind
  have h2 := findPayment_updatePayment db pid (applyUpdate (buildUpdateData payment req))
    (applyUpdate_id _)
  unfold findPayment at *
  rw [h, h2, hfind]; rfl

/-! ## The decision table of `confirmManualPayment` -/

/-- C2: a call with `confirmed = false` writes `manualConfirmationStatus = DISPUTED` and
`confirmed = false` on the payment, for every confirmer role, every stored flag of the other
party and every prior `manualConfirmationStatus`. -/
theorem confirmManualPayment_dispute_overrides (sch : Schema) (db : Db)
    (req : ConfirmManualReq) (pid : Nat) (payment : Payment)
    (hid : req.paymentId = some pid) (hfind : findPayment db pid = some payment)
    (hdispute : req.confirmed = false) :
    (buildUpdateData payment req).manualConfirmationStatus = some .DISPUTED
      ∧ (buildUpdateData payment req).confirmed = some false
      ∧ ∃ p, findPayment (confirmManualPayment sch db req).1 pid = some p
          ∧ p.manualConfirmationStatus = .DISPUTED ∧ p.confirmed = false := by
  have hu : (buildUpdateData payment req).manualConfirmationStatus = some .DISPUTED
      ∧ (buildUpdateData payment req).confirmed = some false := by
    unfold buildUpdateData
    simp only [hdispute, if_true]
    exact ⟨trivial, trivial⟩
  refine ⟨hu.1, hu.2, _, findPayment_confirmManualPayment sch db req pid payment hid hfind, ?_, ?_⟩
  · simp [applyUpdate, hu.1]
  · simp [applyUpdate, hu.2]

/-- Witness of C2: the lender has confirmed a repayment, the borrower then disputes it. -/
theorem confirmManualPayment_dispute_overrides_witness :
    (reqConfirm 1 false .BORROWER).paymentId = some 1
      ∧ findPayment storeLenderConfirmed 1 = some rowLenderConfirmed
      ∧ ∃ p, findPayment (confirmManualPayment schemaWithActive storeLenderConfirmed
          (reqConfirm 1 false .BORROWER)).1 1 = some p
          ∧ p.manualConfirmationStatus = .DISPUTED ∧ p.confirmed = false :=
  ⟨rfl, rfl,
    (confirmManualPayment_dispute_overrides schemaWithActive storeLenderConfirmed
      (reqConfirm 1 false .BORROWER) 1 rowLenderConfirmed rfl rfl rfl).2.2⟩

/-- C3: receiver fast-path. With `confirmed = true`, the borrower confirming a
lender→borrower payment, or the lender confirming a borrower→lender payment, writes
`CONFIRMED`, `confirmed = true`, `transferStatus = COMPLETED` and the confirmer's own flag,
and leaves the payer's flag as stored (also when it is `false`). -/
theorem confirmManualPayment_receiver_fast_path (sch : Schema) (db : Db)
    (req : ConfirmManualReq) (pid : Nat) (payment : Payment)
    (hid : req.paymentId = some pid) (hfind : findPayment db pid = some payment)
    (hconfirm : req.confirmed = true)
    (hreceiver :
      (payment.payerRole = .LENDER ∧ payment.receiverRole = .BORROWER ∧ req.userRole = .BORROWER)
      ∨ (payment.payerRole = .BORROWER ∧ payment.receiverRole = .LENDER
          ∧ req.userRole = .LENDER)) :
    ∃ p, findPayment (confirmManualPayment sch db req).1 pid = some p
      ∧ p.manualConfirmationStatus = .CONFIRMED ∧ p.confirmed = true
      ∧ p.transferStatus = .COMPLETED
      ∧ (req.userRole = .BORROWER →
          p.borrowerConfirmed = true ∧ p.lenderConfirmed = payment.lenderConfirmed)
      ∧ (req.userRole = .LENDER →
          p.lenderConfirmed = true ∧ p.borrowerConfirmed = payment.borrowerConfirmed) := by
  refine ⟨_, findPayment_confirmManualPayment sch db req pid payment hid hfind, ?_⟩
  rcases hreceiver with ⟨h1, h2, h3⟩ | ⟨h1, h2, h3⟩
  · by_cases ho : otherUserConfirmed payment req.userRole = true <;>
      simp [applyUpdate, buildUpdateData, hconfirm, h1, h2, h3, ho]
  · by_cases ho : otherUserConfirmed payment req.userRole = true <;>
      simp [applyUpdate, buildUpdateData, hconfirm, h1, h2, h3, ho]

/-- Witness of C3: the borrower confirms a funding payment the lender never confirmed. -/
theorem confirmManualPayment_receiver_fast_path_witness :
    rowFundingPending.lenderConfirmed = false
      ∧ ∃ p, findPayment (confirmManualPayment schemaWithActive storeFundingPending
          (reqConfirm 1 true .BORROWER)).1 1 = some p
        ∧ p.manualConfirmationStatus = .CONFIRMED ∧ p.confirmed = true
        ∧ p.transferStatus = .COMPLETED
        ∧ ((reqConfirm 1 true .BORROWER).userRole = .BORROWER →
            p.borrowerConfirmed = true ∧ p.lenderConfirmed = rowFundingPending.lenderConfirmed)
        ∧ ((reqConfirm 1 true .BORROWER).userRole = .LENDER →
            p.lenderConfirmed = true
              ∧ p.borrowerConfirmed = rowFundingPending.borrowerConfirmed) :=
  ⟨rfl, confirmManualPayment_receiver_fast_path schemaWithActive storeFundingPending
    (reqConfirm 1 true .BORROWER) 1 rowFundingPending rfl rfl rfl (Or.inl ⟨rfl, rfl, rfl⟩)⟩

/-- C4: both-sided attestation. With `confirmed = true`, the lender confirming while the
stored `borrowerConfirmed` is true, or the borrower confirming while the stored
`lenderConfirmed` is true, writes `CONFIRMED`, `confirmed = true` and
`transferStatus = COMPLETED`, whatever the payment's payer and receiver roles. -/
theorem confirmManualPayment_both_confirmed (sch : Schema) (db : Db)
    (req : ConfirmManualReq) (pid : Nat) (payment : Payment)
    (hid : req.paymentId = some pid) (hfind : findPayment db pid = some payment)
    (hconfirm : req.confirmed = true)
    (hother : (req.userRole = .LENDER ∧ payment.borrowerConfirmed = true)
      ∨ (req.userRole = .BORROWER ∧ payment.lenderConfirmed = true)) :
    ∃ p, findPayment (confirmManualPayment sch db req).1 pid = some p
      ∧ p.manualConfirmationStatus = .CONFIRMED ∧ p.confirmed = true
      ∧ p.transferStatus = .COMPLETED := by
  refine ⟨_, findPayment_confirmManualPayment sch db req pid payment hid hfind, ?_⟩
  rcases hother with ⟨h1, h2⟩ | ⟨h1, h2⟩ <;>
    simp [applyUpdate, buildUpdateData, otherUserConfirmed, hconfirm, h1, h2]

/-- Witness of C4: the borrower confirms a funding payment its payer, the lender, had
confirmed. -/
theorem confirmManualPayment_both_confirmed_witness :
    rowPayerConfirmed.lenderConfirmed = true
      ∧ ∃ p, findPayment (confirmManualPayment schemaWithActive storePayerConfirmed
          (reqConfirm 1 true .BORROWER)).1 1 = some p
        ∧ p.manualConfirmationStatus = .CONFIRMED ∧ p.confirmed = true
        ∧ p.transferStatus = .COMPLETED :=
  ⟨rfl, confirmManualPayment_both_confirmed schemaWithActive storePayerConfirmed
    (reqConfirm 1 true .BORROWER) 1 rowPayerConfirmed rfl rfl rfl (Or.inr ⟨rfl, rfl⟩)⟩

/-- C5, as stated, fails: the lender confirms a funding payment it pays itself while the
payment is still `PENDING_UPLOAD` and the borrower has not confirmed; the payment stays
`PENDING_UPLOAD`, it does not become `PENDING_CONFIRMATION`. -/
theorem confirmManualPayment_payer_first_keeps_pending_upload :
    (reqConfirm 1 true .LENDER).confirmed = true
      ∧ (reqConfirm 1 true .LENDER).userRole = rowFundingPending.payerRole
      ∧ rowFundingPending.borrowerConfirmed = false
      ∧ findPayment storeFundingPending 1 = some rowFundingPending
      ∧ (findPayment (confirmManualPayment schemaWithActive storeFundingPending
          (reqConfirm 1 true .LENDER)).1 1).map (fun p => p.manualConfirmationStatus)
          = some .PENDING_UPLOAD
      ∧ ManualConfirmationStatus.PENDING_UPLOAD ≠ .PENDING_CONFIRMATION := by
  decide

/-- C5 (amended): with `confirmed = true`, the other party's stored flag not true and the
confirmer being the payer of the payment, the call leaves `manualConfirmationStatus`,
`confirmed` and `transferStatus` as they were (so `PENDING_CONFIRMATION` stays
`PENDING_CONFIRMATION`) and no column of `updateData` other than the note and the
confirmer's flag is written. -/
theorem confirmManualPayment_payer_first_keeps_status (sch : Schema) (db : Db)
    (req : ConfirmManualReq) (pid : Nat) (payment : Payment)
    (hid : req.paymentId = some pid) (hfind : findPayment db pid = some payment)
    (hconfirm : req.confirmed = true)
    (hother : otherUserConfirmed payment req.userRole = false)
    (hpayer : req.userRole = payment.payerRole) :
    ∃ p, findPayment (confirmManualPayment sch db req).1 pid = some p
      ∧ p.manualConfirmationStatus = payment.manualConfirmationStatus
      ∧ p.confirmed = payment.confirmed
      ∧ p.transferStatus = payment.transferStatus
      ∧ (payment.manualConfirmationStatus = .PENDING_CONFIRMATION →
          p.manualConfirmationStatus = .PENDING_CONFIRMATION) := by
  refine ⟨_, findPayment_confirmManualPayment sch db req pid payment hid hfind, ?_⟩
  have hu : (buildUpdateData payment req).manualConfirmationStatus = none
      ∧ (buildUpdateData payment req).confirmed = none
      ∧ (buildUpdateData payment req).transferStatus = none := by
    unfold buildUpdateData
    simp only [hconfirm, hother]
    by_cases hL : payment.payerRole = .LENDER
    · simp [hpayer, hL]
    · by_cases hB : payment.payerRole = .BORROWER
      · simp [hpayer, hB]
      · simp [hpayer, hL, hB]
  simp [applyUpdate, hu.1, hu.2.1, hu.2.2]

/-- Witness of C5 (amended): the borrower confirms a repayment it pays itself, proof
submitted, lender not yet confirmed. -/
theorem confirmManualPayment_payer_first_keeps_status_witness :
    otherUserConfirmed rowRepaymentPending (reqConfirm 1 true .BORROWER).userRole = false
      ∧ (reqConfirm 1 true .BORROWER).userRole = rowRepaymentPending.payerRole
      ∧ ∃ p, findPayment (confirmManualPayment schemaWithActive storeRepaymentPending
          (reqConfirm 1 true .BORROWER)).1 1 = some p
        ∧ p.manualConfirmationStatus = rowRepaymentPending.manualConfirmationStatus
        ∧ p.confirmed = rowRepaymentPending.confirmed
        ∧ p.transferStatus = rowRepaymentPending.transferStatus
        ∧ (rowRepaymentPending.manualConfirmationStatus = .PENDING_CONFIRMATION →
            p.manualConfirmationStatus = .PENDING_CONFIRMATION) :=
  ⟨rfl, rfl, confirmManualPayment_payer_first_keeps_status schemaWithActive
    storeRepaymentPending (reqConfirm 1 true .BORROWER) 1 rowRepaymentPending rfl rfl rfl rfl rfl⟩

/-! ## Loan writes of `confirmManualPayment` -/

/-- C8: a call with `confirmed = false` writes no loan: the loan rows after the call are the
loan rows before it, for every payment id, confirmer role and store. -/
theorem confirmManualPayment_dispute_keeps_loans (sch : Schema) (db : Db)
    (req : ConfirmManualReq) (hdispute : req.confirmed = false) :
    (confirmManualPayment sch db req).1.loans = db.loans := by
  cases hp : req.paymentId with
  | none => simp [confirmManualPayment, hp]
  | some pid =>
    cases hf : findPayment db pid with
    | none => simp [confirmManualPayment, hp, hf]
    | some payment =>
      simp only [confirmManualPayment, hp, hf, fundingStep, repaymentStep, hdispute,
        Bool.false_eq_true, false_and, if_false]
      split <;> rfl

/-- Witness of C8: the borrower disputes the repayment the lender has confirmed. -/
theorem confirmManualPayment_dispute_keeps_loans_witness :
    (reqConfirm 1 false .BORROWER).confirmed = false
      ∧ (confirmManualPayment schemaWithActive storeLenderConfirmed
          (reqConfirm 1 false .BORROWER)).1.loans = storeLenderConfirmed.loans :=
  ⟨rfl, confirmManualPayment_dispute_keeps_loans schemaWithActive storeLenderConfirmed
    (reqConfirm 1 false .BORROWER) rfl⟩

/-- C6, as stated, fails for the borrower's second confirmation: after
`opsDisputedFirstRepayment` the lender's flag on payment 2 is stored, the borrower confirms
it, the payment becomes `CONFIRMED`, the confirmed repayments sum to 55 = `totalPayable`,
and the loan is still `FUNDED`. It fails for the lender's confirmation too when the sum is
not the double sum: the lender's confirmation of the double `24.999999999999996` after a
confirmed 30 sets the loan to `COMPLETED` while the two amounts sum to less than 55, and the
lender's confirmation of `3.62` after confirmed `21.82` and `29.56` leaves the loan `FUNDED`
while these decimal amounts sum to 55. -/
theorem confirmManualPayment_borrower_second_confirmation_no_completion :
    (findPayment (run schemaWithActive demoDb opsDisputedFirstRepayment) 2).map
        (fun p => (p.payerRole, p.receiverRole, p.lenderConfirmed, p.manualConfirmationStatus))
        = some (.BORROWER, .LENDER, true, .DISPUTED)
      ∧ (findPayment (confirmManualPayment schemaWithActive
            (run schemaWithActive demoDb opsDisputedFirstRepayment)
            (reqConfirm 2 true .BORROWER)).1 2).map (fun p => p.manualConfirmationStatus)
          = some .CONFIRMED
      ∧ totalRepaidOf (paymentsOfLoan (confirmManualPayment schemaWithActive
            (run schemaWithActive demoDb opsDisputedFirstRepayment)
            (reqConfirm 2 true .BORROWER)).1 1) = 55
      ∧ (confirmManualPayment schemaWithActive
            (run schemaWithActive demoDb opsDisputedFirstRepayment)
            (reqConfirm 2 true .BORROWER)).1.loans.map (fun l => (l.totalPayable, l.status))
          = [(55, .FUNDED)]
      ∧ (findPayment (run schemaWithActive demoDb opsRoundedRepayments) 3).map
          (fun p => (p.payerRole, p.receiverRole, p.manualConfirmationStatus))
          = some (.BORROWER, .LENDER, .CONFIRMED)
      ∧ exactRepaidOf (paymentsOfLoan (run schemaWithActive demoDb opsRoundedRepayments) 1)
          < 55
      ∧ (run schemaWithActive demoDb (opsRoundedRepayments.take 5)).loans.map
          (fun l => (l.totalPayable, l.status)) = [(55, .FUNDED)]
      ∧ (run schemaWithActive demoDb opsRoundedRepayments).loans.map
          (fun l => (l.totalPayable, l.status)) = [(55, .COMPLETED)]
      ∧ (findPayment (run schemaWithActive demoDb opsDecimalRepayments) 4).map
          (fun p => (p.payerRole, p.receiverRole, p.manualConfirmationStatus))
          = some (.BORROWER, .LENDER, .CONFIRMED)
      ∧ (21.82 + 29.56 + 3.62 : ℚ) = 55
      ∧ totalRepaidOf (paymentsOfLoan (run schemaWithActive demoDb opsDecimalRepayments) 1)
          < 55
      ∧ (run schemaWithActive demoDb opsDecimalRepayments).loans.map
          (fun l => (l.totalPayable, l.status)) = [(55, .FUNDED)] :=
  ⟨by decide!, by decide!, by decide!, by decide!, by decide!, by decide!, by decide!,
    by decide!, by decide!, by norm_num, by decide!, by decide!⟩

theorem buildUpdateData_confirmed_of_lender_repayment (payment : Payment)
    (req : ConfirmManualReq) (hconfirm : req.confirmed = true)
    (hpayer : payment.payerRole = .BORROWER) (hreceiver : payment.receiverRole = .LENDER)
    (hrole : req.userRole = .LENDER) :
    (buildUpdateData payment req).confirmed = some true
      ∧ (buildUpdateData payment req).manualConfirmationStatus = some .CONFIRMED := by
  by_cases ho : otherUserConfirmed payment req.userRole = true <;>
    simp [buildUpdateData, hconfirm, hpayer, hreceiver, hrole, ho]

theorem fundingStep_of_borrower_paid (sch : Schema) (db : Db) (payment : Payment)
    (req : ConfirmManualReq) (hpayer : payment.payerRole = .BORROWER) :
    fundingStep sch db payment req = some db := by
  simp [fundingStep, hpayer]

theorem repaymentStep_of_lender (sch : Schema) (db : Db) (payment : Payment)
    (req : ConfirmManualReq) (u : UpdateData) (loan : Loan) (hconfirm : req.confirmed = true)
    (hpayer : payment.payerRole = .BORROWER) (hreceiver : payment.receiverRole = .LENDER)
    (hrole : req.userRole = .LENDER) (hu : u.confirmed = some true)
    (hloan : findLoan db payment.loanId = some loan) :
    repaymentStep sch db payment req u
      = some (if totalRepaidOf (paymentsOfLoan db payment.loanId) ≥ loan.totalPayable
          then setLoanStatus db payment.loanId .COMPLETED else db) := by
  have hlid := findLoan_id hloan
  simp only [repaymentStep, hconfirm, hpayer, hreceiver, hrole, hu, hloan, hlid,
    loanUpdateStatus, Schema.acceptsStatus, and_self, if_true, Option.isSome_some]
  split <;> rfl

theorem repaymentStep_of_not_lender (sch : Schema) (db : Db) (payment : Payment)
    (req : ConfirmManualReq) (u : UpdateData) (hrole : req.userRole ≠ .LENDER) :
    repaymentStep sch db payment req u = some db := by
  simp [repaymentStep, hrole]

/-- C6 (amended): for a repayment (payer `BORROWER`, receiver `LENDER`) whose loan exists and
a call with `confirmed = true`: when the lender confirms, the payment becomes `CONFIRMED`
and the loan's status is set to `COMPLETED` if the sum of the loan's confirmed
borrower→lender payments, read after the payment's update is stored and added up from 0 in
stored order in double arithmetic (`totalRepaidOf`), is at least `totalPayable`, and the
loan rows are left as they were otherwise; when anyone else confirms (the borrower's second
confirmation included) the loan rows are left as they were. -/
theorem confirmManualPayment_repayment_completion (sch : Schema) (db : Db)
    (req : ConfirmManualReq) (pid : Nat) (payment : Payment) (loan : Loan)
    (hid : req.paymentId = some pid) (hfind : findPayment db pid = some payment)
    (hconfirm : req.confirmed = true)
    (hpayer : payment.payerRole = .BORROWER) (hreceiver : payment.receiverRole = .LENDER)
    (hloan : findLoan db payment.loanId = some loan) :
    (req.userRole = .LENDER →
      (findPayment (confirmManualPayment sch db req).1 pid).map
          (fun p => p.manualConfirmationStatus) = some .CONFIRMED
        ∧ (confirmManualPayment sch db req).1.loans =
          if totalRepaidOf (paymentsOfLoan (confirmManualPayment sch db req).1 payment.loanId)
              ≥ loan.totalPayable
          then (setLoanStatus db payment.loanId .COMPLETED).loans else db.loans)
      ∧ (req.userRole ≠ .LENDER → (confirmManualPayment sch db req).1.loans = db.loans) := by
  have hpay := confirmManualPayment_payments sch db req pid payment hid hfind
  have hfp := findPayment_confirmManualPayment sch db req pid payment hid hfind
  have hfund := fun d => fundingStep_of_borrower_paid sch d payment req hpayer
  constructor
  · intro hrole
    have hu := buildUpdateData_confirmed_of_lender_repayment payment req hconfirm hpayer
      hreceiver hrole
    refine ⟨by simp [hfp, applyUpdate, hu.2], ?_⟩
    have hpl : paymentsOfLoan (confirmManualPayment sch db req).1 payment.loanId
        = paymentsOfLoan (updatePayment db pid
            (applyUpdate (buildUpdateData payment req))) payment.loanId := by
      unfold paymentsOfLoan; rw [hpay]
    rw [hpl]
    have hrep := repaymentStep_of_lender sch
      (updatePayment db pid (applyUpdate (buildUpdateData payment req))) payment req
      (buildUpdateData payment req) loan hconfirm hpayer hreceiver hrole hu.1
      (by rw [findLoan_updatePayment]; exact hloan)
    simp only [confirmManualPayment, hid, hfind, hfund, hrep, hloan, Option.isSome_some,
      if_true]
    split <;> rfl
  · intro hrole
    have hrep := fun d => repaymentStep_of_not_lender sch d payment req
      (buildUpdateData payment req) hrole
    simp only [confirmManualPayment, hid, hfind, hfund, hrep, hloan, Option.isSome_some,
      if_true]
    rfl

/-- Witness of C6 (amended): the lender confirms the repayment of 30 on the loan with
`totalPayable = 55`. -/
theorem confirmManualPayment_repayment_completion_witness :
    findLoan storeRepaymentPending rowRepaymentPending.loanId = some (loanRow .FUNDED)
      ∧ ((reqConfirm 1 true .LENDER).userRole = .LENDER →
        (findPayment (confirmManualPayment schemaWithActive storeRepaymentPending
            (reqConfirm 1 true .LENDER)).1 1).map
            (fun p => p.manualConfirmationStatus) = some .CONFIRMED
          ∧ (confirmManualPayment schemaWithActive storeRepaymentPending
              (reqConfirm 1 true .LENDER)).1.loans =
            if totalRepaidOf (paymentsOfLoan (confirmManualPayment schemaWithActive
                storeRepaymentPending (reqConfirm 1 true .LENDER)).1
                rowRepaymentPending.loanId) ≥ (loanRow .FUNDED).totalPayable
            then (setLoanStatus storeRepaymentPending rowRepaymentPending.loanId
              .COMPLETED).loans
            else storeRepaymentPending.loans) :=
  ⟨rfl, (confirmManualPayment_repayment_completion schemaWithActive storeRepaymentPending
    (reqConfirm 1 true .LENDER) 1 rowRepaymentPending (loanRow .FUNDED) rfl rfl rfl rfl rfl
    rfl).1⟩

/-- C7: the code at the failing inputs. After a Zelle funding payment made the loan
`FUNDED`, the borrower's confirmation of receipt stores the payment as `CONFIRMED` and
writes the status `ACTIVE`; when the status column rejects `ACTIVE` the same call ends
with code 500. After the sweep made the loan `OVERDUE` the call leaves `ACTIVE`
or `OVERDUE`. In no case is the status `FUNDED` written. -/
theorem confirmManualPayment_funding_writes_active :
    (run schemaWithActive demoDb opsZelleFunding).loans.map (fun l => l.status) = [.FUNDED]
      ∧ (findPayment (confirmManualPayment schemaWithActive
            (run schemaWithActive demoDb opsZelleFunding) (reqConfirm 1 true .BORROWER)).1 1).map
            (fun p => (p.payerRole, p.receiverRole, p.manualConfirmationStatus))
          = some (.LENDER, .BORROWER, .CONFIRMED)
      ∧ (confirmManualPayment schemaWithActive (run schemaWithActive demoDb opsZelleFunding)
            (reqConfirm 1 true .BORROWER)).1.loans.map (fun l => l.status) = [.ACTIVE]
      ∧ (confirmManualPayment schemaLifecycleOnly
            (run schemaLifecycleOnly demoDb opsZelleFunding)
            (reqConfirm 1 true .BORROWER)).2.code = 500
      ∧ (confirmManualPayment schemaWithActive
            (overdueSweep (run schemaWithActive demoDb opsZelleFunding) 700000000)
            (reqConfirm 1 true .BORROWER)).1.loans.map (fun l => l.status) = [.ACTIVE]
      ∧ (confirmManualPayment schemaLifecycleOnly
            (overdueSweep (run schemaLifecycleOnly demoDb opsZelleFunding) 700000000)
            (reqConfirm 1 true .BORROWER)).1.loans.map (fun l => l.status) = [.OVERDUE] := by
  decide!

/-- C10: the code at the failing input. A repayment of 30 on the loan with
`totalPayable = 55` is confirmed through confirm-stripe twice. At the second call the
`totalRepaid` compared with `totalPayable` is 60, the sum of the loan's confirmed
borrower→lender payments is 30, and the loan is set to `COMPLETED`. The same happens with
two calls of confirm-paypal. -/
theorem confirmStripe_second_call_counts_twice :
    (confirmStripe (run schemaWithActive demoDb opsOneRepayment) reqStripe true).1.loans.map
        (fun l => (l.totalPayable, l.status)) = [(55, .PENDING)]
      ∧ ((findPayment (confirmStripe (run schemaWithActive demoDb opsOneRepayment)
            reqStripe true).1 1).map (fun p =>
          snapshotTotalRepaid (confirmStripe (run schemaWithActive demoDb opsOneRepayment)
            reqStripe true).1 (loanRow .PENDING) p)) = some 60
      ∧ totalRepaidOf (paymentsOfLoan (confirmStripe (confirmStripe
            (run schemaWithActive demoDb opsOneRepayment) reqStripe true).1 reqStripe true).1 1)
          = 30
      ∧ (confirmStripe (confirmStripe (run schemaWithActive demoDb opsOneRepayment)
            reqStripe true).1 reqStripe true).1.loans.map (fun l => (l.totalPayable, l.status))
          = [(55, .COMPLETED)]
      ∧ (confirmPaypal (run schemaWithActive demoDb opsOneRepayment) reqPaypal true
            payoutOk).1.loans.map (fun l => (l.totalPayable, l.status)) = [(55, .PENDING)]
      ∧ totalRepaidOf (paymentsOfLoan (confirmPaypal (confirmPaypal
            (run schemaWithActive demoDb opsOneRepayment) reqPaypal true payoutOk).1
            reqPaypal true payoutOk).1 1) = 30
      ∧ (confirmPaypal (confirmPaypal (run schemaWithActive demoDb opsOneRepayment)
            reqPaypal true payoutOk).1 reqPaypal true payoutOk).1.loans.map
            (fun l => (l.totalPayable, l.status)) = [(55, .COMPLETED)] := by
  decide!

/-! ## Fresh keys -/

theorem lt_nextId (ids : List Nat) : ∀ x ∈ ids, x < nextId ids := by
  unfold nextId
  induction ids with
  | nil => intro x hx; cases hx
  | cons a as ih =>
    intro x hx
    simp only [List.foldr_cons]
    rcases List.mem_cons.mp hx with rfl | h
    · omega
    · have := ih x h
      omega

theorem nextId_not_mem (ids : List Nat) : nextId ids ∉ ids :=
  fun h => Nat.lt_irrefl _ (lt_nextId ids _ h)

theorem with_id_eq (loan : Loan) (id : Nat) (h : loan.id = id) : { loan with id := id } = loan := by
  subst h; rfl

theorem findPayment_mem {db : Db} {id : Nat} {p : Payment} (h : findPayment db id = some p) :
    p ∈ db.payments ∧ p.id = id := by
  unfold findPayment at h
  exact ⟨List.mem_of_find?_eq_some h, by simpa using List.find?_some h⟩

/-! ## Initiate payment: the manual and the internal-wallet branch -/

theorem resolveAccounts_of_no_rail (db : Db) (loan : Loan) (req : InitiateReq)
    (h1 : req.method ≠ PaymentMethod.CASHAPP) (h2 : req.method ≠ PaymentMethod.PAYPAL) :
    resolveAccounts db loan req = .ok none none := by
  simp [resolveAccounts, h1, h2]

/-- The manual branch: the payment row is appended and, for a lender→borrower payment, the
loan is set to `FUNDED`; the adapter's answer is not consulted. -/
theorem initiatePayment_manual (sch : Schema) (db : Db) (req : InitiateReq)
    (remote : RemoteInit) (loan : Loan) (f t : Option Nat)
    (hloan : findLoan db req.loanId = some loan)
    (hacc : resolveAccounts db loan req = .ok f t)
    (hpayer : sch.paymentRoleOk req.payerRole = true)
    (hreceiver : sch.paymentRoleOk req.receiverRole = true)
    (hm : req.method = PaymentMethod.CASHAPP ∨ req.method = PaymentMethod.ZELLE) :
    initiatePayment sch db req remote
      = (if req.payerRole = Role.LENDER ∧ req.receiverRole = Role.BORROWER then
          setLoanStatus { db with payments := db.payments ++ [newPayment db req f t] }
            req.loanId .FUNDED
        else { db with payments := db.payments ++ [newPayment db req f t] },
        { code := 200 }) := by
  simp only [initiatePayment, hloan, hacc, hpayer, hreceiver, hm, Bool.true_eq_false, or_self,
    if_false, if_true]
  split <;> rfl

/-- The internal-wallet branch: the payment row is appended and stored as confirmed, then
the loan-status logic runs on the amount added to the aggregate read before. -/
theorem initiatePayment_wallet (sch : Schema) (db : Db) (req : InitiateReq)
    (remote : RemoteInit) (loan : Loan)
    (hloan : findLoan db req.loanId = some loan)
    (hpayer : sch.paymentRoleOk req.payerRole = true)
    (hreceiver : sch.paymentRoleOk req.receiverRole = true)
    (hm : req.method = PaymentMethod.INTERNAL_WALLET) :
    initiatePayment sch db req remote
      = (settleLoan
          (updatePayment { db with payments := db.payments ++ [newPayment db req none none] }
            (newPayment db req none none).id
            (fun p => { p with confirmed := true, transferStatus := .COMPLETED }))
          loan req.payerRole (fadd (totalRepaidOf (paymentsOfLoan db req.loanId)) req.amount),
        { code := 200 }) := by
  have hacc : resolveAccounts db loan req = .ok none none :=
    resolveAccounts_of_no_rail db loan req (by rw [hm]; decide) (by rw [hm]; decide)
  have hid := findLoan_id hloan
  simp only [initiatePayment, hloan, hacc, hpayer, hreceiver, hm, Bool.true_eq_false, or_self,
    if_false, if_true, reduceCtorEq, false_and, with_id_eq loan req.loanId hid, hid]

theorem newPayment_id_fresh (db : Db) (req : InitiateReq) (f t : Option Nat) :
    ∀ q ∈ db.payments, q.id ≠ (newPayment db req f t).id := by
  intro q hq he
  have := lt_nextId (db.payments.map (fun p => p.id)) q.id (List.mem_map_of_mem _ hq)
  have hn : (newPayment db req f t).id = nextId (db.payments.map (fun p => p.id)) := rfl
  omega

/-- Updating the freshly appended row leaves the older rows as they are. -/
theorem updatePayment_appended (db : Db) (p : Payment) (g : Payment → Payment)
    (hfresh : ∀ q ∈ db.payments, q.id ≠ p.id) :
    updatePayment { db with payments := db.payments ++ [p] } p.id g
      = { db with payments := db.payments ++ [g p] } := by
  unfold updatePayment
  have : db.payments.map (fun q => if q.id = p.id then g q else q) = db.payments := by
    conv_rhs => rw [← List.map_id db.payments]
    apply List.map_congr_left
    intro q hq
    simp [hfresh q hq]
  simp [List.map_append, this]

theorem findPayment_appended (db : Db) (p : Payment)
    (hfresh : ∀ q ∈ db.payments, q.id ≠ p.id) :
    findPayment { db with payments := db.payments ++ [p] } p.id = some p := by
  unfold findPayment
  have hnone : db.payments.find? (fun q => q.id == p.id) = none := by
    rw [List.find?_eq_none]
    intro q hq
    simpa using hfresh q hq
  simp [List.find?_append, hnone]

theorem setLoanStatus_payments (db : Db) (id : Nat) (s : LoanStatus) :
    (setLoanStatus db id s).payments = db.payments := rfl

theorem findLoan_setLoanStatus (db : Db) (id : Nat) (s : LoanStatus) :
    findLoan (setLoanStatus db id s) id
      = (findLoan db id).map (fun l => { l with status := s }) := by
  unfold findLoan setLoanStatus
  exact find?_map_update_id (fun l => l.id) (fun l => { l with status := s }) (fun _ => rfl) id
    db.loans

theorem settleLoan_payments (db : Db) (loan : Loan) (payerRole : Role) (total : ℚ) :
    (settleLoan db loan payerRole total).payments = db.payments := by
  unfold settleLoan
  split <;> split <;> rfl

theorem settleLoan_lender (db : Db) (loan : Loan) (total : ℚ) :
    settleLoan db loan Role.LENDER total = setLoanStatus db loan.id .FUNDED := by
  simp [settleLoan]

theorem settleLoan_borrower (db : Db) (loan : Loan) (total : ℚ) :
    settleLoan db loan Role.BORROWER total
      = if total ≥ loan.totalPayable then setLoanStatus db loan.id .COMPLETED else db := by
  simp [settleLoan]

/-! ## C17, C20: what initiation stores -/

/-- C17: for an existing loan and a `CASHAPP` or `ZELLE` request that passes account
resolution (the payment table accepting the two roles), the handler answers 200 whatever
the rail adapter would answer, appends a payment with `confirmed = false`,
`transferStatus = PENDING` and `manualConfirmationStatus = PENDING_UPLOAD`, sets the loan to
`FUNDED` when the payer is the lender and the receiver the borrower, and leaves the loan
rows as they are when the payer is the borrower. -/
theorem initiatePayment_manual_records_intent (sch : Schema) (db : Db) (req : InitiateReq)
    (remote remote' : RemoteInit) (loan : Loan) (f t : Option Nat)
    (hloan : findLoan db req.loanId = some loan)
    (hacc : resolveAccounts db loan req = .ok f t)
    (hpayer : sch.paymentRoleOk req.payerRole = true)
    (hreceiver : sch.paymentRoleOk req.receiverRole = true)
    (hm : req.method = PaymentMethod.CASHAPP ∨ req.method = PaymentMethod.ZELLE) :
    initiatePayment sch db req remote = initiatePayment sch db req remote'
      ∧ (initiatePayment sch db req remote).2.code = 200
      ∧ (∃ p, (initiatePayment sch db req remote).1.payments = db.payments ++ [p]
          ∧ p.loanId = req.loanId ∧ p.amount = req.amount ∧ p.payerRole = req.payerRole
          ∧ p.receiverRole = req.receiverRole ∧ p.confirmed = false
          ∧ p.transferStatus = .PENDING ∧ p.manualConfirmationStatus = .PENDING_UPLOAD)
      ∧ (req.payerRole = .LENDER → req.receiverRole = .BORROWER →
          (findLoan (initiatePayment sch db req remote).1 req.loanId).map (fun l => l.status)
            = some .FUNDED)
      ∧ (req.payerRole = .BORROWER → (initiatePayment sch db req remote).1.loans = db.loans) := by
  have h := initiatePayment_manual sch db req remote loan f t hloan hacc hpayer hreceiver hm
  have h' := initiatePayment_manual sch db req remote' loan f t hloan hacc hpayer hreceiver hm
  refine ⟨by rw [h, h'], by rw [h], ⟨newPayment db req f t, ?_, rfl, rfl, rfl, rfl, rfl, rfl, ?_⟩,
    ?_, ?_⟩
  · rw [h]; dsimp only; split <;> rfl
  · simp [newPayment, hm]
  · intro hL hB
    rw [h]
    simp only [hL, hB, and_self, if_true, findLoan_setLoanStatus]
    have : findLoan { db with payments := db.payments ++ [newPayment db req f t] } req.loanId
        = some loan := hloan
    rw [this]; rfl
  · intro hB
    rw [h]
    simp [hB]

/-- Witness of C17: a Zelle funding request on the pending loan 1. -/
theorem initiatePayment_manual_records_intent_witness :
    findLoan (storeOf .PENDING []) reqZelleFunding.loanId = some (loanRow .PENDING)
      ∧ resolveAccounts (storeOf .PENDING []) (loanRow .PENDING) reqZelleFunding = .ok none none
      ∧ (initiatePayment schemaWithActive (storeOf .PENDING []) reqZelleFunding remoteFailure).2.code
          = 200
      ∧ (findLoan (initiatePayment schemaWithActive (storeOf .PENDING []) reqZelleFunding
            remoteFailure).1 reqZelleFunding.loanId).map (fun l => l.status) = some .FUNDED :=
  ⟨rfl, rfl,
    (initiatePayment_manual_records_intent schemaWithActive (storeOf .PENDING [])
      reqZelleFunding remoteFailure remoteApproval (loanRow .PENDING) none none rfl rfl rfl rfl
      (Or.inr rfl)).2.1,
    (initiatePayment_manual_records_intent schemaWithActive (storeOf .PENDING [])
      reqZelleFunding remoteFailure remoteApproval (loanRow .PENDING) none none rfl rfl rfl rfl
      (Or.inr rfl)).2.2.2.1 rfl rfl⟩

/-- C20: for an existing loan and every amount (the payment table accepting the two
roles), an `INTERNAL_WALLET` request answers 200 whatever the rail adapter would answer;
the payment it creates is stored with `confirmed = true`, `transferStatus = COMPLETED` and
`manualConfirmationStatus = NONE`; when the payer is the lender the loan is `FUNDED`
afterwards. -/
theorem initiatePayment_wallet_settles_at_once (sch : Schema) (db : Db) (req : InitiateReq)
    (remote remote' : RemoteInit) (loan : Loan)
    (hloan : findLoan db req.loanId = some loan)
    (hpayer : sch.paymentRoleOk req.payerRole = true)
    (hreceiver : sch.paymentRoleOk req.receiverRole = true)
    (hm : req.method = PaymentMethod.INTERNAL_WALLET) :
    initiatePayment sch db req remote = initiatePayment sch db req remote'
      ∧ (initiatePayment sch db req remote).2.code = 200
      ∧ (∃ p, (initiatePayment sch db req remote).1.payments = db.payments ++ [p]
          ∧ findPayment (initiatePayment sch db req remote).1 p.id = some p
          ∧ p.loanId = req.loanId ∧ p.amount = req.amount ∧ p.payerRole = req.payerRole
          ∧ p.receiverRole = req.receiverRole ∧ p.confirmed = true
          ∧ p.transferStatus = .COMPLETED ∧ p.manualConfirmationStatus = .NONE)
      ∧ (req.payerRole = .LENDER →
          (findLoan (initiatePayment sch db req remote).1 req.loanId).map (fun l => l.status)
            = some .FUNDED) := by
  have h := initiatePayment_wallet sch db req remote loan hloan hpayer hreceiver hm
  have h' := initiatePayment_wallet sch db req remote' loan hloan hpayer hreceiver hm
  have hup := updatePayment_appended db (newPayment db req none none)
    (fun p => { p with confirmed := true, transferStatus := .COMPLETED })
    (newPayment_id_fresh db req none none)
  have hpay : (initiatePayment sch db req remote).1.payments
      = db.payments ++ [{ newPayment db req none none with
          confirmed := true, transferStatus := .COMPLETED }] := by
    rw [h]; dsimp only; rw [settleLoan_payments, hup]
  refine ⟨by rw [h, h'], by rw [h], ⟨_, hpay, ?_, rfl, rfl, rfl, rfl, rfl, rfl, ?_⟩, ?_⟩
  · have := findPayment_appended db { newPayment db req none none with
        confirmed := true, transferStatus := .COMPLETED } (newPayment_id_fresh db req none none)
    unfold findPayment at this ⊢
    rw [hpay]; exact this
  · simp [newPayment, hm]
  · intro hL
    rw [h]
    dsimp only
    rw [hL, settleLoan_lender, findLoan_id hloan, findLoan_setLoanStatus]
    have : findLoan (updatePayment { db with payments := db.payments
        ++ [newPayment db req none none] } (newPayment db req none none).id
        (fun p => { p with confirmed := true, transferStatus := .COMPLETED })) req.loanId
        = some loan := hloan
    rw [this]; rfl

/-- Witness of C20: an internal-wallet funding request on the pending loan 1. -/
theorem initiatePayment_wallet_settles_at_once_witness :
    findLoan (storeOf .PENDING []) reqWalletFunding.loanId = some (loanRow .PENDING)
      ∧ (initiatePayment schemaWithActive (storeOf .PENDING []) reqWalletFunding
          remoteFailure).2.code = 200
      ∧ (reqWalletFunding.payerRole = .LENDER →
          (findLoan (initiatePayment schemaWithActive (storeOf .PENDING []) reqWalletFunding
            remoteFailure).1 reqWalletFunding.loanId).map (fun l => l.status) = some .FUNDED) :=
  ⟨rfl,
    (initiatePayment_wallet_settles_at_once schemaWithActive (storeOf .PENDING [])
      reqWalletFunding remoteFailure remoteApproval (loanRow .PENDING) rfl rfl rfl rfl).2.1,
    (initiatePayment_wallet_settles_at_once schemaWithActive (storeOf .PENDING [])
      reqWalletFunding remoteFailure remoteApproval (loanRow .PENDING) rfl rfl rfl rfl).2.2.2⟩

/-! ## C18, C19: account resolution -/

/-- C18: the code at the failing inputs. The lender (payer) has a default account of the
type, the borrower (receiver) has none: for `CASHAPP` and for `PAYPAL` the handler answers
500 without `requiresAccount`, creating no payment and changing no loan. When it is the
payer who has no account (the repayment requests), the answer is 400 with
`requiresAccount = "borrower"`. -/
theorem initiatePayment_missing_receiver_account_answers_500 :
    findDefaultAccount storeReceiverWithoutAccount 10 .CASHAPP ≠ none
      ∧ findDefaultAccount storeReceiverWithoutAccount 20 .CASHAPP = none
      ∧ initiatePayment schemaWithActive storeReceiverWithoutAccount reqCashappFunding
          remoteApproval
          = (storeReceiverWithoutAccount, { code := 500, requiresAccount := none })
      ∧ findDefaultAccount storeReceiverWithoutAccount 10 .PAYPAL ≠ none
      ∧ findDefaultAccount storeReceiverWithoutAccount 20 .PAYPAL = none
      ∧ initiatePayment schemaWithActive storeReceiverWithoutAccount reqPaypalFunding
          remoteApproval
          = (storeReceiverWithoutAccount, { code := 500, requiresAccount := none })
      ∧ initiatePayment schemaWithActive storeReceiverWithoutAccount reqCashappRepayment
          remoteApproval
          = (storeReceiverWithoutAccount, { code := 400, requiresAccount := some "borrower" })
      ∧ initiatePayment schemaWithActive storeReceiverWithoutAccount reqPaypalRepayment
          remoteApproval
          = (storeReceiverWithoutAccount, { code := 400, requiresAccount := some "borrower" }) := by
  decide!

theorem findDefaultAccount_some {db : Db} {userId : Nat} {ty : PaymentMethod}
    {a : PaymentAccount} (h : findDefaultAccount db userId ty = some a) :
    a ∈ db.paymentAccounts ∧ a.userId = userId ∧ a.accountType = ty ∧ a.isDefault = true := by
  unfold findDefaultAccount at h
  refine ⟨List.mem_of_find?_eq_some h, ?_⟩
  have := List.find?_some h
  simp only [Bool.and_eq_true, beq_iff_eq] at this
  exact ⟨this.1.1, this.1.2, this.2⟩

theorem resolveAccounts_ok {db : Db} {loan : Loan} {req : InitiateReq} {f t : Option Nat}
    (hm : req.method = PaymentMethod.CASHAPP ∨ req.method = PaymentMethod.PAYPAL)
    (h : resolveAccounts db loan req = .ok f t) :
    ∃ a b, findDefaultAccount db (fromUserIdOf loan req) req.method = some a
      ∧ findDefaultAccount db (toUserIdOf loan req) req.method = some b
      ∧ f = some a.id ∧ t = some b.id := by
  unfold resolveAccounts at h
  simp only [hm, if_true] at h
  cases ha : findDefaultAccount db (fromUserIdOf loan req) req.method with
  | none =>
    unfold fromUserIdOf at ha
    rw [ha] at h
    cases h
  | some a =>
    cases hb : findDefaultAccount db (toUserIdOf loan req) req.method with
    | none =>
      unfold fromUserIdOf at ha
      unfold toUserIdOf at hb
      rw [ha] at h
      simp only [hb] at h
      cases h
    | some b =>
      unfold fromUserIdOf at ha
      unfold toUserIdOf at hb
      rw [ha] at h
      simp only [hb] at h
      cases h
      exact ⟨a, b, rfl, rfl, rfl, rfl⟩

theorem resolveAccounts_fail_of_missing {db : Db} {loan : Loan} {req : InitiateReq}
    (hm : req.method = PaymentMethod.CASHAPP ∨ req.method = PaymentMethod.PAYPAL)
    (h : findDefaultAccount db (fromUserIdOf loan req) req.method = none
      ∨ findDefaultAccount db (toUserIdOf loan req) req.method = none) :
    ∃ r, resolveAccounts db loan req = .fail r := by
  cases hr : resolveAccounts db loan req with
  | fail r => exact ⟨r, rfl⟩
  | ok f t =>
    obtain ⟨a, b, ha, hb, _, _⟩ := resolveAccounts_ok hm hr
    rcases h with h | h
    · rw [h] at ha; cases ha
    · rw [h] at hb; cases hb

/-- With a rail account type the handler either stores no payment or appends exactly the
row built from the resolved accounts. -/
theorem initiatePayment_rail_payments (sch : Schema) (db : Db) (req : InitiateReq)
    (remote : RemoteInit) (loan : Loan) (f t : Option Nat)
    (hloan : findLoan db req.loanId = some loan)
    (hm : req.method = PaymentMethod.CASHAPP ∨ req.method = PaymentMethod.PAYPAL)
    (hacc : resolveAccounts db loan req = .ok f t) :
    (initiatePayment sch db req remote).1.payments = db.payments
      ∨ (initiatePayment sch db req remote).1.payments
          = db.payments ++ [newPayment db req f t] := by
  simp only [initiatePayment, hloan, hacc]
  split
  · left; rfl
  · right
    rcases hm with hm | hm
    · simp only [hm, true_or, if_true]
      split <;> rfl
    · simp only [hm, reduceCtorEq, or_self, if_false, true_and]
      split
      · split <;> rfl
      · rfl

/-- C19 (amended): for a `CASHAPP` or `PAYPAL` request on an existing loan, the payment the
handler creates references as `fromAccountId` and `toAccountId` accounts of that type that
belong to the payer and to the receiver and are marked default, verified or not; when the
payer or the receiver has no default account of the type, the store is left as it was. -/
theorem initiatePayment_references_default_accounts (sch : Schema) (db : Db)
    (req : InitiateReq) (remote : RemoteInit) (loan : Loan)
    (hloan : findLoan db req.loanId = some loan)
    (hm : req.method = PaymentMethod.CASHAPP ∨ req.method = PaymentMethod.PAYPAL) :
    (∀ p, (initiatePayment sch db req remote).1.payments = db.payments ++ [p] →
        ∃ a b, a ∈ db.paymentAccounts ∧ b ∈ db.paymentAccounts
          ∧ p.fromAccountId = some a.id ∧ p.toAccountId = some b.id
          ∧ a.userId = fromUserIdOf loan req ∧ a.accountType = req.method
          ∧ a.isDefault = true
          ∧ b.userId = toUserIdOf loan req ∧ b.accountType = req.method
          ∧ b.isDefault = true)
      ∧ (findDefaultAccount db (fromUserIdOf loan req) req.method = none
          ∨ findDefaultAccount db (toUserIdOf loan req) req.method = none →
          (initiatePayment sch db req remote).1 = db) := by
  constructor
  · intro p hp
    cases hr : resolveAccounts db loan req with
    | fail r =>
      simp only [initiatePayment, hloan, hr] at hp
      have := congrArg List.length hp
      simp at this
    | ok f t =>
      obtain ⟨a, b, ha, hb, hf, ht⟩ := resolveAccounts_ok hm hr
      have ha' := findDefaultAccount_some ha
      have hb' := findDefaultAccount_some hb
      rcases initiatePayment_rail_payments sch db req remote loan f t hloan hm hr with h | h
      · rw [h] at hp
        have := congrArg List.length hp
        simp at this
      · rw [h] at hp
        have hp' : newPayment db req f t = p := by
          have := List.append_cancel_left hp
          simpa using this
        subst hp'
        exact ⟨a, b, ha'.1, hb'.1, hf, ht, ha'.2.1, ha'.2.2.1, ha'.2.2.2, hb'.2.1,
          hb'.2.2.1, hb'.2.2.2⟩
  · intro hmiss
    obtain ⟨r, hr⟩ := resolveAccounts_fail_of_missing hm hmiss
    simp only [initiatePayment, hloan, hr]

/-- C19, as stated, fails: the default PayPal accounts of lender and borrower are both
unverified; the PayPal funding request is answered 200 and the payment created references
the two unverified accounts. -/
theorem initiatePayment_accepts_unverified_accounts :
    storeUnverifiedAccounts.paymentAccounts.map (fun a => (a.id, a.isDefault, a.isVerified))
        = [(1, true, false), (2, true, false)]
      ∧ (initiatePayment schemaWithActive storeUnverifiedAccounts reqPaypalFunding
          remoteApproval).2.code = 200
      ∧ (initiatePayment schemaWithActive storeUnverifiedAccounts reqPaypalFunding
          remoteApproval).1.payments.map (fun p => (p.fromAccountId, p.toAccountId))
          = [(some 1, some 2)] := by
  decide!

/-- Witness of C19 (amended): the PayPal funding request on the store with the two default
accounts. -/
theorem initiatePayment_references_default_accounts_witness :
    findLoan storeUnverifiedAccounts reqPaypalFunding.loanId = some (loanRow .PENDING)
      ∧ (reqPaypalFunding.method = PaymentMethod.CASHAPP
          ∨ reqPaypalFunding.method = PaymentMethod.PAYPAL)
      ∧ (∀ p, (initiatePayment schemaWithActive storeUnverifiedAccounts reqPaypalFunding
            remoteApproval).1.payments = storeUnverifiedAccounts.payments ++ [p] →
          ∃ a b, a ∈ storeUnverifiedAccounts.paymentAccounts
            ∧ b ∈ storeUnverifiedAccounts.paymentAccounts
            ∧ p.fromAccountId = some a.id ∧ p.toAccountId = some b.id
            ∧ a.userId = fromUserIdOf (loanRow .PENDING) reqPaypalFunding
            ∧ a.accountType = reqPaypalFunding.method ∧ a.isDefault = true
            ∧ b.userId = toUserIdOf (loanRow .PENDING) reqPaypalFunding
            ∧ b.accountType = reqPaypalFunding.method ∧ b.isDefault = true) :=
  ⟨rfl, Or.inr rfl,
    (initiatePayment_references_default_accounts schemaWithActive storeUnverifiedAccounts
      reqPaypalFunding remoteApproval (loanRow .PENDING) rfl (Or.inr rfl)).1⟩

/-! ## C14, C15, C16: loan creation -/

theorem relationship_find_some {db : Db} {lenderId userId : Nat}
    (h : hasConfirmedRelationship db lenderId userId) :
    ∃ r, db.relationships.find? (fun r => r.lenderId == lenderId && r.borrowerId == userId
      && r.status == RelationshipStatus.CONFIRMED) = some r := by
  obtain ⟨r, hr, h1, h2, h3⟩ := h
  cases hf : db.relationships.find? (fun r => r.lenderId == lenderId && r.borrowerId == userId
      && r.status == RelationshipStatus.CONFIRMED) with
  | some r' => exact ⟨r', rfl⟩
  | none =>
    rw [List.find?_eq_none] at hf
    have := hf r hr
    simp [h1, h2, h3] at this

theorem relationship_find_none {db : Db} {lenderId userId : Nat}
    (h : ¬ hasConfirmedRelationship db lenderId userId) :
    db.relationships.find? (fun r => r.lenderId == lenderId && r.borrowerId == userId
      && r.status == RelationshipStatus.CONFIRMED) = none := by
  rw [List.find?_eq_none]
  intro r hr hc
  apply h
  simp only [Bool.and_eq_true, beq_iff_eq] at hc
  exact ⟨r, hr, hc.1.1, hc.1.2, hc.2⟩

/-- A request with lender, amount and payback days and a confirmed relationship is answered
201 and appends `loanOf`. -/
theorem createLoan_of_valid (db : Db) (userId : Nat) (req : CreateLoanReq) (now : Int)
    (lenderId : Nat) (hlender : req.lenderId = some lenderId) (hamount : req.amount ≠ 0)
    (hdays : req.paybackDays ≠ 0) (hrel : hasConfirmedRelationship db lenderId userId) :
    createLoan db userId req now
      = ({ db with loans := db.loans ++ [loanOf db userId lenderId req now] },
          { code := 201 }) := by
  obtain ⟨r, hr⟩ := relationship_find_some hrel
  simp only [createLoan, hlender, hamount, hdays, or_self, if_false, hr]
  rfl

/-- A request that is not answered 400 named a lender, an amount and payback days and has
a confirmed relationship behind it. -/
theorem createLoan_valid_of_not_400 (db : Db) (userId : Nat) (req : CreateLoanReq) (now : Int)
    (h : createLoan db userId req now ≠ (db, { code := 400 })) :
    ∃ lenderId, req.lenderId = some lenderId ∧ req.amount ≠ 0 ∧ req.paybackDays ≠ 0
      ∧ hasConfirmedRelationship db lenderId userId := by
  cases hl : req.lenderId with
  | none => exact absurd (by simp [createLoan, hl]) h
  | some lenderId =>
    by_cases hz : req.amount = 0 ∨ req.paybackDays = 0
    · exact absurd (by simp only [createLoan, hl, hz, if_true]) h
    · by_cases hrel : hasConfirmedRelationship db lenderId userId
      · exact ⟨lenderId, rfl, fun h0 => hz (Or.inl h0), fun h0 => hz (Or.inr h0), hrel⟩
      · exact absurd (by simp only [createLoan, hl, hz, if_false,
          relationship_find_none hrel]) h

/-- Counterexample to C14: amount 11 over 14 days under the lender's term with long rate 3.
The stored `feeAmount` is the double `3.3000000000000003`, which is neither `(11 / 10) * 3`
nor the double nearest to it, and the stored `totalPayable` is the double `14.3`, which is
not `11 + feeAmount`. -/
theorem createLoan_fee_not_exact :
    (createLoan demoDbWithTerms 20 reqLoanOfEleven 0).2.code = 201
      ∧ lenderTermOf demoDbWithTerms 10 (some 6) = some ownTerm
      ∧ ownTerm.feePer10Long = 3
      ∧ (createLoan demoDbWithTerms 20 reqLoanOfEleven 0).1.loans.map
          (fun l => (l.amount, l.feeAmount, l.totalPayable))
          = [(11, 7430939385161319 / 2251799813685248, 4025092166962381 / 281474976710656)]
      ∧ (7430939385161319 / 2251799813685248 : ℚ) ≠ (11 / 10) * 3
      ∧ (7430939385161319 / 2251799813685248 : ℚ) ≠ roundDouble ((11 / 10) * 3)
      ∧ (4025092166962381 / 281474976710656 : ℚ)
          ≠ 11 + 7430939385161319 / 2251799813685248 :=
  ⟨by decide!, by decide!, by decide!, by decide!, by decide!, by decide!, by decide!⟩

/-- C14 (amended): for every request loan creation accepts (answer 201), the loan stored has
the amount of the request; its `feeAmount` is `(amount / 10) * feePer10` evaluated in double
arithmetic, the quotient rounded to a double and then the product, where `feePer10` is
`feePer10Short` of the term looked up for the request when `paybackDays <= 7` and its
`feePer10Long` otherwise, and 1 respectively 2 when no term applies; its `totalPayable` is
`amount + feeAmount` rounded to a double. When `amount / 10` and its product with the rate
are doubles the `feeAmount` is exactly `(amount / 10) * feePer10`, and when
`amount + feeAmount` is a double the `totalPayable` is exactly that sum. -/
theorem createLoan_fee_and_total_rounded (db : Db) (userId : Nat) (req : CreateLoanReq)
    (now : Int) (h : (createLoan db userId req now).2.code = 201) :
    ∃ lenderId loan, req.lenderId = some lenderId
      ∧ (createLoan db userId req now).1.loans = db.loans ++ [loan]
      ∧ loan.amount = req.amount
      ∧ (∀ term, lenderTermOf db lenderId req.lenderTermId = some term →
          loan.feeAmount = roundDouble (roundDouble (req.amount / 10)
            * (if req.paybackDays ≤ 7 then term.feePer10Short else term.feePer10Long)))
      ∧ (lenderTermOf db lenderId req.lenderTermId = none →
          loan.feeAmount
            = roundDouble (roundDouble (req.amount / 10) * (if req.paybackDays ≤ 7 then 1 else 2)))
      ∧ loan.totalPayable = roundDouble (req.amount + loan.feeAmount)
      ∧ (isDouble (req.amount / 10) →
          isDouble ((req.amount / 10)
            * feePer10Of req.paybackDays (lenderTermOf db lenderId req.lenderTermId)) →
          loan.feeAmount = (req.amount / 10)
            * feePer10Of req.paybackDays (lenderTermOf db lenderId req.lenderTermId))
      ∧ (isDouble (req.amount + loan.feeAmount) →
          loan.totalPayable = req.amount + loan.feeAmount) := by
  have hne : createLoan db userId req now ≠ (db, { code := 400 }) := by
    intro hc; rw [hc] at h; cases h
  obtain ⟨lenderId, hl, ha, hd, hrel⟩ := createLoan_valid_of_not_400 db userId req now hne
  have heq := createLoan_of_valid db userId req now lenderId hl ha hd hrel
  have hfee : (loanOf db userId lenderId req now).feeAmount
      = roundDouble (roundDouble (req.amount / 10)
          * feePer10Of req.paybackDays (lenderTermOf db lenderId req.lenderTermId)) := by
    simp only [loanOf, feeAmountOf, feePer10Of, fmul, fdiv]
    split <;> rfl
  refine ⟨lenderId, loanOf db userId lenderId req now, hl, by rw [heq], rfl, ?_, ?_, rfl, ?_, ?_⟩
  · intro term ht
    rw [hfee, ht]; rfl
  · intro ht
    rw [hfee, ht]; rfl
  · intro h1 h2
    rw [hfee, h1, h2]
  · intro h3
    have : (loanOf db userId lenderId req now).totalPayable
        = roundDouble (req.amount + (loanOf db userId lenderId req now).feeAmount) := rfl
    rw [this, h3]

/-- Witness of C14 (amended): amount 50 over 7 days under the lender's own term with
`feePer10Short = 1`; `50 / 10`, its product with the rate and `50 + 5` are doubles, so
`feeAmount = 5` and `totalPayable = 55` exactly. -/
theorem createLoan_fee_and_total_rounded_witness :
    (createLoan demoDbWithTerms 20 (reqLoanWithTerm (some 6)) 0).2.code = 201
      ∧ lenderTermOf demoDbWithTerms 10 (some 6) = some ownTerm
      ∧ (createLoan demoDbWithTerms 20 (reqLoanWithTerm (some 6)) 0).1.loans.map
          (fun l => (l.amount, l.feeAmount, l.totalPayable)) = [(50, 5, 55)]
      ∧ ∃ lenderId loan, (reqLoanWithTerm (some 6)).lenderId = some lenderId
        ∧ (createLoan demoDbWithTerms 20 (reqLoanWithTerm (some 6)) 0).1.loans
            = demoDbWithTerms.loans ++ [loan]
        ∧ loan.amount = (reqLoanWithTerm (some 6)).amount
        ∧ loan.totalPayable = roundDouble ((reqLoanWithTerm (some 6)).amount + loan.feeAmount) :=
  ⟨by decide!, by decide!, by decide!,
    (createLoan_fee_and_total_rounded demoDbWithTerms 20 (reqLoanWithTerm (some 6)) 0
      (by decide!)).elim (fun lenderId hx => hx.elim (fun loan hl =>
        ⟨lenderId, loan, hl.1, hl.2.1, hl.2.2.1, hl.2.2.2.2.2.1⟩))⟩

/-- C15, as stated, fails: term 5 belongs to lender 11; the request names lender 10 and
`lenderTermId = 5`, is answered 201, and the loan is created with the default rate (fee 5
on 50 over 7 days, not the 15 of the term's rate 3) and without term. -/
theorem createLoan_foreign_term_not_rejected :
    foreignTerm ∈ demoDbWithTerms.lenderTerms
      ∧ foreignTerm.id = 5 ∧ foreignTerm.lenderId = 11
      ∧ (reqLoanWithTerm (some 5)).lenderId = some 10
      ∧ (createLoan demoDbWithTerms 20 (reqLoanWithTerm (some 5)) 0).2.code = 201
      ∧ (createLoan demoDbWithTerms 20 (reqLoanWithTerm (some 5)) 0).1.loans.map
          (fun l => (l.lenderId, l.lenderTermId, l.feeAmount, l.totalPayable))
          = [(10, none, 5, 55)] := by
  decide!

/-- C15 (amended): a request that names a lender, an amount and payback days, has a
confirmed relationship behind it, and whose `lenderTermId` names no term of the stated
lender (a term of another lender included) is answered 201; the loan is created without
term and with the default rates 1 (`paybackDays <= 7`) or 2, never with the rates of the
term named (the fee and the total are what the handler's double arithmetic gives for that
rate). -/
theorem createLoan_foreign_term_falls_back (db : Db) (userId : Nat) (req : CreateLoanReq)
    (now : Int) (lenderId termId : Nat) (hlender : req.lenderId = some lenderId)
    (hamount : req.amount ≠ 0) (hdays : req.paybackDays ≠ 0)
    (hrel : hasConfirmedRelationship db lenderId userId)
    (hterm : req.lenderTermId = some termId)
    (hforeign : ∀ t ∈ db.lenderTerms, t.id = termId → t.lenderId ≠ lenderId) :
    (createLoan db userId req now).2.code = 201
      ∧ ∃ loan, (createLoan db userId req now).1.loans = db.loans ++ [loan]
        ∧ loan.lenderTermId = none
        ∧ loan.feeAmount = fmul (fdiv req.amount 10) (if req.paybackDays ≤ 7 then 1 else 2)
        ∧ loan.totalPayable = fadd req.amount loan.feeAmount := by
  have heq := createLoan_of_valid db userId req now lenderId hlender hamount hdays hrel
  have hnone : lenderTermOf db lenderId req.lenderTermId = none := by
    simp only [lenderTermOf, hterm]
    rw [List.find?_eq_none]
    intro t ht hc
    simp only [Bool.and_eq_true, beq_iff_eq] at hc
    exact hforeign t ht hc.1 hc.2
  refine ⟨by rw [heq], loanOf db userId lenderId req now, by rw [heq], ?_, ?_, rfl⟩
  · simp [loanOf, hnone]
  · simp only [loanOf, hnone, feeAmountOf]

/-- Witness of C15 (amended): the request with the term of lender 11. -/
theorem createLoan_foreign_term_falls_back_witness :
    hasConfirmedRelationship demoDbWithTerms 10 20
      ∧ (∀ t ∈ demoDbWithTerms.lenderTerms, t.id = 5 → t.lenderId ≠ 10)
      ∧ (createLoan demoDbWithTerms 20 (reqLoanWithTerm (some 5)) 0).2.code = 201
      ∧ ∃ loan, (createLoan demoDbWithTerms 20 (reqLoanWithTerm (some 5)) 0).1.loans
          = demoDbWithTerms.loans ++ [loan]
        ∧ loan.lenderTermId = none
        ∧ loan.feeAmount = fmul (fdiv (reqLoanWithTerm (some 5)).amount 10)
            (if (reqLoanWithTerm (some 5)).paybackDays ≤ 7 then 1 else 2)
        ∧ loan.totalPayable = fadd (reqLoanWithTerm (some 5)).amount loan.feeAmount :=
  ⟨by decide!, by decide!,
    createLoan_foreign_term_falls_back demoDbWithTerms 20 (reqLoanWithTerm (some 5)) 0 10 5 rfl
      (by decide!) (by decide!) (by decide!) rfl (by decide!)⟩

/-- C16: loan creation answers 400 and leaves the store as it was for every request that
has no `CONFIRMED` relationship between the stated lender and the requesting borrower
behind it (none at all, or a `BLOCKED` one); whenever it changes the loan table, such a
relationship exists and exactly one loan is appended, with status `PENDING`, health `GOOD`,
that lender and that borrower. -/
theorem createLoan_requires_confirmed_relationship (db : Db) (userId : Nat)
    (req : CreateLoanReq) (now : Int) :
    ((∀ lenderId, req.lenderId = some lenderId →
        ¬ hasConfirmedRelationship db lenderId userId) →
      createLoan db userId req now = (db, { code := 400 }))
      ∧ ((createLoan db userId req now).1.loans ≠ db.loans →
        ∃ lenderId loan, req.lenderId = some lenderId
          ∧ hasConfirmedRelationship db lenderId userId
          ∧ (createLoan db userId req now).1.loans = db.loans ++ [loan]
          ∧ loan.status = .PENDING ∧ loan.health = .GOOD
          ∧ loan.lenderId = lenderId ∧ loan.borrowerId = userId) := by
  constructor
  · intro hno
    by_contra hne
    obtain ⟨lenderId, hl, _, _, hrel⟩ := createLoan_valid_of_not_400 db userId req now hne
    exact hno lenderId hl hrel
  · intro hchg
    have hne : createLoan db userId req now ≠ (db, { code := 400 }) := by
      intro hc; rw [hc] at hchg; exact hchg rfl
    obtain ⟨lenderId, hl, ha, hd, hrel⟩ := createLoan_valid_of_not_400 db userId req now hne
    have heq := createLoan_of_valid db userId req now lenderId hl ha hd hrel
    exact ⟨lenderId, loanOf db userId lenderId req now, hl, hrel, by rw [heq], rfl, rfl, rfl,
      rfl⟩

/-- Witness of C16: with the relationship blocked the request is answered 400 and nothing
is stored; with the relationship confirmed a `PENDING`, `GOOD` loan is appended. -/
theorem createLoan_requires_confirmed_relationship_witness :
    (∀ lenderId, (reqLoanWithTerm none).lenderId = some lenderId →
        ¬ hasConfirmedRelationship blockedDb lenderId 20)
      ∧ createLoan blockedDb 20 (reqLoanWithTerm none) 0 = (blockedDb, { code := 400 })
      ∧ (createLoan demoDb 20 (reqLoanWithTerm none) 0).1.loans ≠ demoDb.loans
      ∧ ∃ lenderId loan, (reqLoanWithTerm none).lenderId = some lenderId
          ∧ hasConfirmedRelationship demoDb lenderId 20
          ∧ (createLoan demoDb 20 (reqLoanWithTerm none) 0).1.loans = demoDb.loans ++ [loan]
          ∧ loan.status = .PENDING ∧ loan.health = .GOOD
          ∧ loan.lenderId = lenderId ∧ loan.borrowerId = 20 :=
  ⟨by intro lenderId h; cases h; decide!,
    (createLoan_requires_confirmed_relationship blockedDb 20 (reqLoanWithTerm none) 0).1
      (by intro lenderId h; cases h; decide!),
    by decide!,
    (createLoan_requires_confirmed_relationship demoDb 20 (reqLoanWithTerm none) 0).2
      (by decide!)⟩

/-! ## C13: a failed remote confirmation -/

/-- C13, as stated, fails: after `opsOneRepayment` payment 1 has `transferStatus = PENDING`;
the intent retrieved by confirm-stripe has status `requires_payment_method`, the call is
answered 400 and the payment still has `transferStatus = PENDING`, not `FAILED`; the same
after a PayPal execution that is not approved. -/
theorem confirm_failure_does_not_mark_failed :
    confirmStripePayment (.intent "requires_payment_method") = false
      ∧ (confirmStripe (run schemaWithActive demoDb opsOneRepayment) reqStripe
          (confirmStripePayment (.intent "requires_payment_method"))).2.code = 400
      ∧ (findPayment (confirmStripe (run schemaWithActive demoDb opsOneRepayment) reqStripe
          (confirmStripePayment (.intent "requires_payment_method"))).1 1).map
          (fun p => p.transferStatus) = some .PENDING
      ∧ executePayPalPayment (.result "failed") = false
      ∧ (findPayment (confirmPaypal (run schemaWithActive demoDb opsOneRepayment) reqPaypal
          (executePayPalPayment (.result "failed")) payoutOk).1 1).map
          (fun p => p.transferStatus) = some .PENDING := by
  decide!

/-- C13 (amended): `confirmStripePayment` reports success exactly when the retrieval
returned an intent with status `succeeded`, `executePayPalPayment` exactly when the
execution returned a result with state `approved`; for every request where the remote
confirmation is not a success, confirm-stripe and confirm-paypal answer 400 and leave the
whole store (the payment, its `transferStatus` included, and the loan) as it was. -/
theorem confirm_failure_leaves_store (db : Db) (reqS : ConfirmStripeReq)
    (reqP : ConfirmPaypalReq) (r : IntentRetrieval) (e : PaypalExecution)
    (payout : PayoutResult) :
    (confirmStripePayment r = true ↔ r = .intent "succeeded")
      ∧ (confirmStripePayment r = false →
          confirmStripe db reqS (confirmStripePayment r) = (db, { code := 400 }))
      ∧ (executePayPalPayment e = true ↔ e = .result "approved")
      ∧ (executePayPalPayment e = false →
          confirmPaypal db reqP (executePayPalPayment e) payout = (db, { code := 400 })) := by
  refine ⟨?_, ?_, ?_, ?_⟩
  · cases r with
    | threw => simp [confirmStripePayment]
    | intent s => simp [confirmStripePayment]
  · intro h
    simp [confirmStripe, h]
  · cases e with
    | threw => simp [executePayPalPayment]
    | notOk => simp [executePayPalPayment]
    | result s => simp [executePayPalPayment]
  · intro h
    simp [confirmPaypal, h]

/-- Witness of C13 (amended): the retrieval throws, the PayPal execution answers with an
error response. -/
theorem confirm_failure_leaves_store_witness :
    confirmStripePayment .threw = false
      ∧ confirmStripe (run schemaWithActive demoDb opsOneRepayment) reqStripe
          (confirmStripePayment .threw)
          = (run schemaWithActive demoDb opsOneRepayment, { code := 400 })
      ∧ executePayPalPayment .notOk = false
      ∧ confirmPaypal (run schemaWithActive demoDb opsOneRepayment) reqPaypal
          (executePayPalPayment .notOk) payoutOk
          = (run schemaWithActive demoDb opsOneRepayment, { code := 400 }) :=
  ⟨rfl,
    (confirm_failure_leaves_store (run schemaWithActive demoDb opsOneRepayment) reqStripe
      reqPaypal .threw .notOk payoutOk).2.1 rfl,
    rfl,
    (confirm_failure_leaves_store (run schemaWithActive demoDb opsOneRepayment) reqStripe
      reqPaypal .threw .notOk payoutOk).2.2.2 rfl⟩

/-! ## C12: writes of `FUNDED` -/

theorem find?_map_of_key {α : Type} (key : α → Nat) (f : α → α)
    (hf : ∀ a, key (f a) = key a) (id : Nat) (xs : List α) :
    (xs.map f).find? (fun a => key a == id) = (xs.find? (fun a => key a == id)).map f := by
  induction xs with
  | nil => rfl
  | cons x xs ih =>
    by_cases hx : key x = id
    · simp [List.find?_cons, hx, hf]
    · have hb : (key x == id) = false := by simpa using hx
      have hb' : (key (f x) == id) = false := by rw [hf]; exact hb
      simp only [List.map_cons, List.find?_cons, hb, hb', ih]

theorem findLoan_setLoanStatus_any (db : Db) (x id : Nat) (s : LoanStatus) :
    findLoan (setLoanStatus db x s) id
      = (findLoan db id).map (fun l => if l.id = x then { l with status := s } else l) := by
  unfold findLoan setLoanStatus
  exact find?_map_of_key (fun l => l.id)
    (fun l => if l.id = x then { l with status := s } else l)
    (fun l => by dsimp only; split <;> rfl) id db.loans

theorem status_after_setLoanStatus {db : Db} {id : Nat} {loan : Loan} (s : LoanStatus)
    (hloan : findLoan db id = some loan) :
    (findLoan (setLoanStatus db id s) id).map (fun l => l.status) = some s := by
  rw [findLoan_setLoanStatus, hloan]; rfl

theorem settleFromSnapshot_lender (db0 db : Db) (payment : Payment) (loan : Loan)
    (hloan : findLoan db0 payment.loanId = some loan)
    (hpayer : payment.payerRole = Role.LENDER) :
    settleFromSnapshot db0 db payment
      = (setLoanStatus db payment.loanId .FUNDED, { code := 200 }) := by
  simp only [settleFromSnapshot, hloan, hpayer, settleLoan_lender, findLoan_id hloan]

theorem confirmStripe_lender (db : Db) (req : ConfirmStripeReq) (payment : Payment)
    (loan : Loan) (hfind : findPayment db req.paymentId = some payment)
    (hloan : findLoan db payment.loanId = some loan)
    (hpayer : payment.payerRole = Role.LENDER) :
    (findLoan (confirmStripe db req true).1 payment.loanId).map (fun l => l.status)
      = some .FUNDED := by
  simp only [confirmStripe, hfind, hloan, if_true, Option.isSome_some, Bool.true_eq_false,
    and_false, if_false, settleFromSnapshot_lender db _ payment loan hloan hpayer]
  exact status_after_setLoanStatus .FUNDED hloan

theorem confirmCashapp_lender (db : Db) (req : ConfirmCashappReq) (payment : Payment)
    (loan : Loan) (hfind : findPayment db req.paymentId = some payment)
    (hstatus : payment.transferStatus = TransferStatus.COMPLETED)
    (hloan : findLoan db payment.loanId = some loan)
    (hpayer : payment.payerRole = Role.LENDER) :
    (findLoan (confirmCashapp db req).1 payment.loanId).map (fun l => l.status)
      = some .FUNDED := by
  simp only [confirmCashapp, hfind, hstatus, hloan, ne_eq, not_true_eq_false, if_false,
    Option.isSome_some, Bool.true_eq_false,
    settleFromSnapshot_lender db _ payment loan hloan hpayer]
  exact status_after_setLoanStatus .FUNDED hloan

theorem confirmPaypal_lender (db : Db) (req : ConfirmPaypalReq) (payout : PayoutResult)
    (payment : Payment) (loan : Loan)
    (hfind : findPayment db req.dbPaymentId = some payment)
    (hloan : findLoan db payment.loanId = some loan)
    (hpayer : payment.payerRole = Role.LENDER)
    (hcode : (confirmPaypal db req true payout).2.code = 200) :
    (findLoan (confirmPaypal db req true payout).1 payment.loanId).map (fun l => l.status)
      = some .FUNDED := by
  have hs := fun d => settleFromSnapshot_lender db d payment loan hloan hpayer
  simp only [confirmPaypal, hfind, if_true, hpayer, true_and, reduceCtorEq, false_and,
    if_false, hs] at hcode ⊢
  split at hcode
  · rename_i h1
    simp only [h1, if_true] at hcode ⊢
    split at hcode
    · rename_i h2
      simp only [h2, if_true] at hcode ⊢
      split at hcode
      · rename_i h3
        simp only [h3, if_true]
        exact status_after_setLoanStatus .FUNDED hloan
      · cases hcode
    · cases hcode
  · rename_i h1
    simp only [h1, if_false]
    exact status_after_setLoanStatus .FUNDED hloan

/-- The loan rows after `confirmManualPayment`: as before, or one id set to `ACTIVE`, or one
id set to `COMPLETED`. -/
theorem confirmManualPayment_loans_cases (sch : Schema) (db : Db) (req : ConfirmManualReq) :
    (confirmManualPayment sch db req).1.loans = db.loans
      ∨ ∃ x s, (s = LoanStatus.ACTIVE ∨ s = LoanStatus.COMPLETED)
          ∧ (confirmManualPayment sch db req).1.loans = (setLoanStatus db x s).loans := by
  unfold confirmManualPayment
  split
  · left; rfl
  · rename_i pid _
    split
    · left; rfl
    · rename_i payment _
      dsimp only
      by_cases hL : payment.payerRole = Role.LENDER
      · have hrep : ∀ d, repaymentStep sch d payment req (buildUpdateData payment req)
            = some d := by
          intro d; simp [repaymentStep, hL]
        cases hf : fundingStep sch (updatePayment db pid
            (applyUpdate (buildUpdateData payment req))) payment req with
        | none => left; rfl
        | some db2 =>
          simp only [hrep]
          have hl2 : db2.loans = db.loans
              ∨ db2.loans = (setLoanStatus db payment.loanId .ACTIVE).loans := by
            unfold fundingStep at hf
            split at hf
            · split at hf
              · unfold loanUpdateStatus at hf
                split at hf
                · cases hf; right; rfl
                · cases hf
              · cases hf; left; rfl
            · cases hf; left; rfl
          rcases hl2 with h | h
          · left; split <;> exact h
          · right
            exact ⟨payment.loanId, .ACTIVE, Or.inl rfl, by split <;> exact h⟩
      · have hfund : ∀ d, fundingStep sch d payment req = some d := by
          intro d; simp [fundingStep, hL]
        simp only [hfund]
        cases hr : repaymentStep sch (updatePayment db pid
            (applyUpdate (buildUpdateData payment req))) payment req
            (buildUpdateData payment req) with
        | none => left; rfl
        | some db3 =>
          simp only [hr]
          have hl3 : db3.loans = db.loans
              ∨ db3.loans = (setLoanStatus db payment.loanId .COMPLETED).loans := by
            unfold repaymentStep at hr
            split at hr
            · split at hr
              · split at hr
                · cases hr
                · dsimp only at hr
                  split at hr
                  · unfold loanUpdateStatus at hr
                    split at hr
                    · cases hr; right; rfl
                    · cases hr
                  · cases hr; left; rfl
              · cases hr; left; rfl
            · cases hr; left; rfl
          rcases hl3 with h | h
          · left; split <;> exact h
          · right
            exact ⟨payment.loanId, .COMPLETED, Or.inr rfl, by split <;> exact h⟩

theorem confirmManualPayment_never_funds (sch : Schema) (db : Db) (req : ConfirmManualReq)
    (id : Nat) (l' : Loan)
    (hafter : findLoan (confirmManualPayment sch db req).1 id = some l')
    (hfunded : l'.status = LoanStatus.FUNDED) :
    ∃ l, findLoan db id = some l ∧ l.status = LoanStatus.FUNDED := by
  rcases confirmManualPayment_loans_cases sch db req with h | ⟨x, s, hs, h⟩
  · refine ⟨l', ?_, hfunded⟩
    unfold findLoan at hafter ⊢
    rw [h] at hafter; exact hafter
  · have hafter' : findLoan (setLoanStatus db x s) id = some l' := by
      unfold findLoan at hafter ⊢
      rw [h] at hafter; exact hafter
    rw [findLoan_setLoanStatus_any] at hafter'
    cases hl : findLoan db id with
    | none => rw [hl] at hafter'; cases hafter'
    | some l =>
      rw [hl] at hafter'
      simp only [Option.map_some', Option.some.injEq] at hafter'
      by_cases hx : l.id = x
      · rw [if_pos hx] at hafter'
        rw [← hafter'] at hfunded
        rcases hs with hs | hs <;> rw [hs] at hfunded <;> cases hfunded
      · rw [if_neg hx] at hafter'
        exact ⟨l, rfl, by rw [hafter']; exact hfunded⟩

/-- C12 (divergence): loan 1 is `COMPLETED` after `opsFullRepayment` and `FUNDED` again
after the lender initiates another Zelle funding payment; it is `OVERDUE` after the sweep
and `FUNDED` after confirm-stripe of the funding payment; it is `DENIED` and then `FUNDED`
after an internal-wallet funding payment. The lender's fund endpoint, which writes the same
status, answers 400 for the completed loan and leaves it `COMPLETED`. -/
theorem funded_written_over_terminal_status :
    (run schemaWithActive demoDb opsFullRepayment).loans.map (fun l => l.status)
        = [.COMPLETED]
      ∧ (run schemaWithActive demoDb opsFundingAfterCompletion).loans.map (fun l => l.status)
          = [.FUNDED]
      ∧ (run schemaWithActive demoDb (opsStripeAfterOverdue.take 3)).loans.map
          (fun l => l.status) = [.OVERDUE]
      ∧ (run schemaWithActive demoDb opsStripeAfterOverdue).loans.map (fun l => l.status)
          = [.FUNDED]
      ∧ (run schemaWithActive demoDb (opsWalletAfterDenial.take 2)).loans.map
          (fun l => l.status) = [.DENIED]
      ∧ (run schemaWithActive demoDb opsWalletAfterDenial).loans.map (fun l => l.status)
          = [.FUNDED]
      ∧ (fundLoan (run schemaWithActive demoDb opsFullRepayment) 10 1).2.code = 400
      ∧ (fundLoan (run schemaWithActive demoDb opsFullRepayment) 10 1).1.loans.map
          (fun l => l.status) = [.COMPLETED] :=
  ⟨by decide!, by decide!, by decide!, by decide!, by decide!, by decide!, by decide!,
    by decide!⟩

/-! ## C11: internal-wallet repayments one after the other -/

theorem totalRepaidOf_eq_zero_of_none (ps : List Payment)
    (h : ∀ p ∈ ps, isConfirmedRepayment p = false) : totalRepaidOf ps = 0 := by
  unfold totalRepaidOf
  have : ps.filter isConfirmedRepayment = [] := by
    rw [List.filter_eq_nil_iff]
    intro p hp
    simp [h p hp]
  rw [this]; rfl

/-- The aggregate after a confirmed borrower→lender payment is appended: the aggregate
before and the amount, added as doubles. -/
theorem totalRepaidOf_append_repayment (ps : List Payment) (p : Payment)
    (h : isConfirmedRepayment p = true) :
    totalRepaidOf (ps ++ [p]) = fadd (totalRepaidOf ps) p.amount := by
  unfold totalRepaidOf
  rw [List.filter_append, List.foldl_append]
  simp [List.filter_cons, h]

theorem paymentsOfLoan_append (db : Db) (p : Payment) :
    paymentsOfLoan { db with payments := db.payments ++ [p] } p.loanId
      = paymentsOfLoan db p.loanId ++ [p] := by
  unfold paymentsOfLoan
  simp [List.filter_append, List.filter_cons]

/-- One internal-wallet repayment: the loan found under the id becomes `COMPLETED` when the
aggregate read before plus the amount (a double addition) reaches `totalPayable` and is left
as it was otherwise; the aggregate afterwards is the aggregate before plus the amount. -/
theorem walletRepayment_step (sch : Schema) (db : Db) (loanId : Nat) (a : ℚ)
    (remote : RemoteInit) (loan : Loan)
    (hB : sch.paymentRoleOk Role.BORROWER = true) (hL : sch.paymentRoleOk Role.LENDER = true)
    (hloan : findLoan db loanId = some loan) :
    findLoan (step sch db (.initiatePayment (walletRepaymentReq loanId a) remote)) loanId
        = some (if fadd (totalRepaidOf (paymentsOfLoan db loanId)) a ≥ loan.totalPayable
            then { loan with status := .COMPLETED } else loan)
      ∧ totalRepaidOf (paymentsOfLoan
          (step sch db (.initiatePayment (walletRepaymentReq loanId a) remote)) loanId)
          = fadd (totalRepaidOf (paymentsOfLoan db loanId)) a := by
  have hid := findLoan_id hloan
  subst hid
  have h := initiatePayment_wallet sch db (walletRepaymentReq loan.id a) remote loan hloan hB hL
    rfl
  have hup := updatePayment_appended db (newPayment db (walletRepaymentReq loan.id a) none none)
    (fun p => { p with confirmed := true, transferStatus := .COMPLETED })
    (newPayment_id_fresh db (walletRepaymentReq loan.id a) none none)
  have hreq : (walletRepaymentReq loan.id a).payerRole = Role.BORROWER := rfl
  have hlid : (walletRepaymentReq loan.id a).loanId = loan.id := rfl
  have hamt : (walletRepaymentReq loan.id a).amount = a := rfl
  simp only [step, h]
  rw [hup, hreq, hlid, hamt, settleLoan_borrower]
  have hsum : totalRepaidOf (paymentsOfLoan { db with payments := db.payments ++
      [(fun p : Payment => { p with confirmed := true, transferStatus := .COMPLETED })
        (newPayment db (walletRepaymentReq loan.id a) none none)] } loan.id)
      = fadd (totalRepaidOf (paymentsOfLoan db loan.id)) a := by
    have hp := paymentsOfLoan_append db
      ((fun p : Payment => { p with confirmed := true, transferStatus := .COMPLETED })
        (newPayment db (walletRepaymentReq loan.id a) none none))
    have hl : ((fun p : Payment => { p with confirmed := true, transferStatus := .COMPLETED })
        (newPayment db (walletRepaymentReq loan.id a) none none)).loanId = loan.id := rfl
    rw [hl] at hp
    rw [hp, totalRepaidOf_append_repayment _ _ (by rfl)]
    rfl
  constructor
  · split
    · rw [findLoan_setLoanStatus]
      have : findLoan { db with payments := db.payments ++
          [(fun p : Payment => { p with confirmed := true, transferStatus := .COMPLETED })
            (newPayment db (walletRepaymentReq loan.id a) none none)] } loan.id
          = some loan := hloan
      rw [this]; rfl
    · exact hloan
  · split
    · exact hsum
    · exact hsum

/-- A sequence of internal-wallet repayments, from any store: the loan ends `COMPLETED`
exactly when it was `COMPLETED` or the aggregate at the start plus some non-empty prefix of
the amounts, added one after the other as doubles, reaches `totalPayable`; otherwise its
status is the one at the start. -/
theorem walletRepayments_run (sch : Schema) (loanId : Nat) (remote : RemoteInit)
    (hB : sch.paymentRoleOk Role.BORROWER = true) (hL : sch.paymentRoleOk Role.LENDER = true) :
    ∀ (amounts : List ℚ) (db : Db) (loan : Loan), findLoan db loanId = some loan →
      ∃ l, findLoan (run sch db (walletRepayments loanId remote amounts)) loanId = some l
        ∧ l.totalPayable = loan.totalPayable
        ∧ (l.status = .COMPLETED ↔ loan.status = .COMPLETED
            ∨ ∃ j, 0 < j ∧ j ≤ amounts.length
              ∧ loan.totalPayable
                ≤ (amounts.take j).foldl fadd (totalRepaidOf (paymentsOfLoan db loanId)))
        ∧ (l.status ≠ .COMPLETED → l.status = loan.status) := by
  intro amounts
  induction amounts with
  | nil =>
    intro db loan hloan
    refine ⟨loan, hloan, rfl, ?_, fun _ => rfl⟩
    constructor
    · intro h; exact Or.inl h
    · rintro (h | ⟨j, hj, hle, _⟩)
      · exact h
      · simp at hle; omega
  | cons a as ih =>
    intro db loan hloan
    obtain ⟨hfind1, hsum1⟩ := walletRepayment_step sch db loanId a remote loan hB hL hloan
    obtain ⟨l, hl, htp, hiff, hkeep⟩ := ih _ _ hfind1
    have hrun : run sch db (walletRepayments loanId remote (a :: as))
        = run sch (step sch db (.initiatePayment (walletRepaymentReq loanId a) remote))
            (walletRepayments loanId remote as) := rfl
    rw [hrun]
    rw [hsum1] at hiff
    by_cases hge : fadd (totalRepaidOf (paymentsOfLoan db loanId)) a ≥ loan.totalPayable
    · rw [if_pos hge] at htp hiff hkeep
      have hc : l.status = .COMPLETED := hiff.mpr (Or.inl rfl)
      refine ⟨l, hl, htp, ?_, fun hne => absurd hc hne⟩
      constructor
      · intro _
        right
        exact ⟨1, Nat.one_pos, by simp, by simpa using hge⟩
      · intro _; exact hc
    · rw [if_neg hge] at htp hiff hkeep
      refine ⟨l, hl, htp, ?_, hkeep⟩
      rw [hiff]
      constructor
      · rintro (h | ⟨j, hj, hle, hcov⟩)
        · exact Or.inl h
        · right
          refine ⟨j + 1, Nat.succ_pos j, by simpa using hle, ?_⟩
          simpa only [List.take_succ_cons, List.foldl_cons] using hcov
      · rintro (h | ⟨j, hj, hle, hcov⟩)
        · exact Or.inl h
        · right
          obtain ⟨i, rfl⟩ : ∃ i, j = i + 1 := ⟨j - 1, by omega⟩
          simp only [List.take_succ_cons, List.foldl_cons] at hcov
          have hi : 0 < i := by
            by_contra h0
            have : i = 0 := by omega
            subst this
            simp only [List.take_zero, List.foldl_nil] at hcov
            exact hge hcov
          exact ⟨i, hi, by simpa using hle, hcov⟩

/-- Counterexample to C11. A loan the borrower has marked completed is `COMPLETED` after a
first wallet repayment of 30 on `totalPayable = 55`. On a `FUNDED` loan, repayments of 30
and of the double `24.999999999999996` complete the loan at the second request although
the two amounts sum to less than 55: their double sum is 55. And repayments of the doubles
that `44.4`, `5.3` and `5.3` denote leave the loan `FUNDED` although these decimal amounts
sum to 55: their double sum is below 55. -/
theorem walletRepayments_completed_off_the_sum :
    (findLoan (run schemaWithActive demoDb opsMarkCompleted) 1).map
        (fun l => (l.totalPayable, l.status)) = some (55, .COMPLETED)
      ∧ (∀ p ∈ paymentsOfLoan (run schemaWithActive demoDb opsMarkCompleted) 1,
          isConfirmedRepayment p = false)
      ∧ (findLoan (run schemaWithActive demoDb opsWalletAfterMarkCompleted) 1).map
          (fun l => (l.totalPayable, l.status)) = some (55, .COMPLETED)
      ∧ (30 : ℚ) < 55
      ∧ (findLoan (run schemaWithActive (storeOf .FUNDED [])
          (walletRepayments 1 remoteFailure [30, justBelow25])) 1).map
          (fun l => (l.totalPayable, l.status)) = some (55, .COMPLETED)
      ∧ 30 + justBelow25 < 55
      ∧ fadd (fadd 0 30) justBelow25 = 55
      ∧ (findLoan (run schemaWithActive (storeOf .FUNDED [])
          (walletRepayments 1 remoteFailure
            [roundDouble 44.4, roundDouble 5.3, roundDouble 5.3])) 1).map
          (fun l => (l.totalPayable, l.status)) = some (55, .FUNDED)
      ∧ (44.4 + 5.3 + 5.3 : ℚ) = 55
      ∧ fadd (fadd (fadd 0 (roundDouble 44.4)) (roundDouble 5.3)) (roundDouble 5.3) < 55 :=
  ⟨by decide!, by decide!, by decide!, by decide!, by decide!, by decide!, by decide!,
    by decide!, by norm_num, by decide!⟩

/-- C11 (amended): for a loan that is not `COMPLETED` and has no confirmed repayment, and
every sequence of `INTERNAL_WALLET` requests with payer `BORROWER` and receiver `LENDER`
handled one after the other (the payment table accepting the two roles), after the first `k`
requests the loan is `COMPLETED` exactly when the cumulative sum of the amounts, each amount
added to the sum so far in double arithmetic, has reached `totalPayable` at one of the
requests `1..k`, and has its initial status otherwise: it becomes `COMPLETED` at the first
request at which that sum reaches `totalPayable` and not before. -/
theorem walletRepayments_complete_at_first_double_cover (sch : Schema) (db : Db)
    (loanId : Nat) (loan : Loan) (remote : RemoteInit) (amounts : List ℚ) (k : Nat)
    (hB : sch.paymentRoleOk Role.BORROWER = true) (hL : sch.paymentRoleOk Role.LENDER = true)
    (hloan : findLoan db loanId = some loan) (hstatus : loan.status ≠ .COMPLETED)
    (hnone : ∀ p ∈ paymentsOfLoan db loanId, isConfirmedRepayment p = false)
    (hk : k ≤ amounts.length) :
    ∃ l, findLoan (run sch db (walletRepayments loanId remote (amounts.take k))) loanId
        = some l
      ∧ (l.status = .COMPLETED ↔
          ∃ j, 0 < j ∧ j ≤ k ∧ loan.totalPayable ≤ (amounts.take j).foldl fadd 0)
      ∧ (l.status ≠ .COMPLETED → l.status = loan.status) := by
  obtain ⟨l, hl, _, hiff, hkeep⟩ :=
    walletRepayments_run sch loanId remote hB hL (amounts.take k) db loan hloan
  refine ⟨l, hl, ?_, hkeep⟩
  rw [hiff, totalRepaidOf_eq_zero_of_none _ hnone]
  have hlen : (amounts.take k).length = k := by simp [hk]
  constructor
  · rintro (h | ⟨j, hj, hle, hcov⟩)
    · exact absurd h hstatus
    · rw [hlen] at hle
      refine ⟨j, hj, hle, ?_⟩
      rw [List.take_take, Nat.min_eq_left hle] at hcov
      exact hcov
  · rintro ⟨j, hj, hle, hcov⟩
    right
    refine ⟨j, hj, by rw [hlen]; exact hle, ?_⟩
    rw [List.take_take, Nat.min_eq_left hle]
    exact hcov

/-- Witness of C11 (amended): `totalPayable = 55`, repayments of 30 then 25: the loan is
still `FUNDED` after the first and `COMPLETED` after the second. -/
theorem walletRepayments_complete_at_first_double_cover_witness :
    findLoan (storeOf .FUNDED []) 1 = some (loanRow .FUNDED)
      ∧ (loanRow .FUNDED).totalPayable = 55
      ∧ (findLoan (run schemaWithActive (storeOf .FUNDED [])
          (walletRepayments 1 remoteFailure ([30, 25].take 1))) 1).map (fun l => l.status)
          = some .FUNDED
      ∧ (findLoan (run schemaWithActive (storeOf .FUNDED [])
          (walletRepayments 1 remoteFailure ([30, 25].take 2))) 1).map (fun l => l.status)
          = some .COMPLETED
      ∧ ∃ l, findLoan (run schemaWithActive (storeOf .FUNDED [])
            (walletRepayments 1 remoteFailure ([30, 25].take 2))) 1 = some l
          ∧ (l.status = .COMPLETED ↔
              ∃ j, 0 < j ∧ j ≤ 2
                ∧ (loanRow .FUNDED).totalPayable ≤ (([30, 25] : List ℚ).take j).foldl fadd 0)
          ∧ (l.status ≠ .COMPLETED → l.status = (loanRow .FUNDED).status) :=
  ⟨rfl, rfl, by decide!, by decide!,
    walletRepayments_complete_at_first_double_cover schemaWithActive (storeOf .FUNDED []) 1
      (loanRow .FUNDED) remoteFailure [30, 25] 2 rfl rfl rfl (by decide)
      (by intro p hp; cases hp) (by decide)⟩

/-! ## The sweep loop and the sweep as one pass over the loans -/

theorem sweepLoop_fold (now : Int) (found : List Loan) (db : Db) :
    found.foldl (fun d loan =>
        setStatusAndHealth d loan.id .OVERDUE (healthBand (daysLateOf now loan))) db
      = { db with loans := sweepUpdates now found db.loans } := by
  induction found generalizing db with
  | nil => rfl
  | cons s rest ih =>
    simp only [List.foldl_cons, sweepUpdates]
    rw [ih]
    rfl

theorem sweepUpdates_cons_of_not_found (now : Int) (found : List Loan) (x : Loan)
    (loans : List Loan) (h : ∀ s ∈ found, s.id ≠ x.id) :
    sweepUpdates now found (x :: loans) = x :: sweepUpdates now found loans := by
  induction found generalizing loans with
  | nil => rfl
  | cons s rest ih =>
    have hs : x.id ≠ s.id := fun e => h s (List.mem_cons_self _ _) e.symm
    simp only [sweepUpdates, List.foldl_cons, List.map_cons, if_neg hs]
    exact ih _ (fun r hr => h r (List.mem_cons_of_mem _ hr))

theorem sweepUpdates_eq_map (now : Int) (loans : List Loan)
    (hnd : (loans.map (fun (l : Loan) => l.id)).Nodup) :
    sweepUpdates now (loans.filter (fun l => decide (sweepSelects now l))) loans
      = loans.map (fun l =>
          if l.status = LoanStatus.FUNDED ∧ l.paybackDate < now then
            { l with status := .OVERDUE, health := healthBand (daysLateOf now l) }
          else l) := by
  induction loans with
  | nil => rfl
  | cons a t ih =>
    simp only [List.map_cons, List.nodup_cons] at hnd
    have iht := ih hnd.2
    have hfresh : ∀ s ∈ t.filter (fun l => decide (sweepSelects now l)), s.id ≠ a.id := by
      intro s hs e
      apply hnd.1
      rw [← e]
      exact List.mem_map_of_mem _ (List.mem_of_mem_filter hs)
    by_cases hsel : sweepSelects now a
    · have hd : decide (sweepSelects now a) = true := decide_eq_true hsel
      have hsame : t.map (fun l =>
          if l.id = a.id then
            { l with status := LoanStatus.OVERDUE, health := healthBand (daysLateOf now a) }
          else l) = t := by
        conv_rhs => rw [← List.map_id t]
        apply List.map_congr_left
        intro l hl
        have : l.id ≠ a.id := fun e => hnd.1 (by rw [← e]; exact List.mem_map_of_mem _ hl)
        simp [this]
      have hfil : (a :: t).filter (fun l => decide (sweepSelects now l))
          = a :: t.filter (fun l => decide (sweepSelects now l)) := by
        simp [List.filter_cons, hsel]
      rw [hfil]
      simp only [sweepUpdates, List.foldl_cons, List.map_cons, if_true]
      rw [hsame]
      have := sweepUpdates_cons_of_not_found now
        (t.filter (fun l => decide (sweepSelects now l)))
        { a with status := LoanStatus.OVERDUE, health := healthBand (daysLateOf now a) } t hfresh
      simp only [sweepUpdates] at this iht
      rw [this, iht]
      have hsel2 : a.status = LoanStatus.FUNDED ∧ a.paybackDate < now := hsel
      rw [if_pos hsel2]
    · have hd : ¬ decide (sweepSelects now a) = true := by simpa using hsel
      have hfil : (a :: t).filter (fun l => decide (sweepSelects now l))
          = t.filter (fun l => decide (sweepSelects now l)) := by
        simp [List.filter_cons, hsel]
      rw [hfil, sweepUpdates_cons_of_not_found now _ a t hfresh, iht]
      have hsel2 : ¬ (a.status = LoanStatus.FUNDED ∧ a.paybackDate < now) := hsel
      simp only [List.map_cons, if_neg hsel2]

/-- The ids of the loans being a primary key, the loop of updates by id is one pass over the
loans. -/
theorem overdueSweepLoop_eq (db : Db) (now : Int) (hnd : loanIdsUnique db) :
    overdueSweepLoop db now = overdueSweep db now := by
  unfold overdueSweepLoop overdueSweep
  rw [sweepLoop_fold, sweepUpdates_eq_map now db.loans hnd]

/-! ## C21, C22, C23: the overdue sweep -/

theorem mem_zip_map {α : Type} (f : α → α) (xs : List α) (p : α × α)
    (h : p ∈ xs.zip (xs.map f)) : p.1 ∈ xs ∧ p.2 = f p.1 := by
  induction xs with
  | nil => simp at h
  | cons x xs ih =>
    simp only [List.map_cons, List.zip_cons_cons, List.mem_cons] at h
    rcases h with rfl | h
    · exact ⟨List.mem_cons_self _ _, rfl⟩
    · exact ⟨List.mem_cons_of_mem _ (ih h).1, (ih h).2⟩

theorem msPerDay_pos : 0 < msPerDay := by decide

theorem daysLateOf_bounds (now : Int) (l : Loan) :
    daysLateOf now l * msPerDay ≤ now - l.paybackDate
      ∧ now - l.paybackDate < (daysLateOf now l + 1) * msPerDay := by
  unfold daysLateOf
  rw [Int.fdiv_eq_ediv _ (le_of_lt msPerDay_pos)]
  exact ⟨Int.ediv_mul_le _ (ne_of_gt msPerDay_pos), Int.lt_ediv_add_one_mul_self _ msPerDay_pos⟩

/-- The pairs (row before, row after) of one sweep run. -/
theorem overdueSweep_pair (db : Db) (now : Int) (p : Loan × Loan)
    (h : p ∈ db.loans.zip (overdueSweep db now).loans) :
    p.1 ∈ db.loans
      ∧ p.2 = if sweepSelects now p.1 then
          { p.1 with status := .OVERDUE, health := healthBand (daysLateOf now p.1) }
        else p.1 := by
  have hmap : (overdueSweep db now).loans = db.loans.map (fun l =>
      if sweepSelects now l then
        { l with status := .OVERDUE, health := healthBand (daysLateOf now l) }
      else l) := rfl
  rw [hmap] at h
  exact mem_zip_map (fun l =>
      if sweepSelects now l then
        { l with status := .OVERDUE, health := healthBand (daysLateOf now l) }
      else l) db.loans p h

/-- C21: one run of the overdue sweep (the loop of updates by id is one pass over the loans,
their ids being a primary key) keeps the number of loans and the payments, and changes
exactly the loans with `status = FUNDED` and `paybackDate < now`: each of them gets
`status = OVERDUE` and the health `DEFAULTED` if `daysLate > 30`, `FAILING` if
`14 < daysLate <= 30`, `BEHIND` otherwise, where `daysLate` is the whole number of days in
`now - paybackDate` (rounded down), all other columns kept; every other loan is left as it
was. -/
theorem overdueSweep_changes_exactly_past_due (db : Db) (now : Int) :
    (loanIdsUnique db → overdueSweepLoop db now = overdueSweep db now)
      ∧ (overdueSweep db now).loans.length = db.loans.length
      ∧ (overdueSweep db now).payments = db.payments
      ∧ ∀ p ∈ db.loans.zip (overdueSweep db now).loans,
          (p.1.status = .FUNDED ∧ p.1.paybackDate < now →
            ∃ (daysLate : Int) (health : LoanHealth),
              daysLate * msPerDay ≤ now - p.1.paybackDate
                ∧ now - p.1.paybackDate < (daysLate + 1) * msPerDay
                ∧ (30 < daysLate → health = .DEFAULTED)
                ∧ (14 < daysLate ∧ daysLate ≤ 30 → health = .FAILING)
                ∧ (daysLate ≤ 14 → health = .BEHIND)
                ∧ p.2 = { p.1 with status := .OVERDUE, health := health })
            ∧ (¬ (p.1.status = .FUNDED ∧ p.1.paybackDate < now) → p.2 = p.1) := by
  refine ⟨overdueSweepLoop_eq db now, by simp [overdueSweep], rfl, ?_⟩
  intro p hp
  obtain ⟨_, h2⟩ := overdueSweep_pair db now p hp
  constructor
  · intro hsel
    have hs : sweepSelects now p.1 := hsel
    rw [if_pos hs] at h2
    refine ⟨daysLateOf now p.1, healthBand (daysLateOf now p.1),
      (daysLateOf_bounds now p.1).1, (daysLateOf_bounds now p.1).2, ?_, ?_, ?_, h2⟩
    · intro h; simp [healthBand, h]
    · intro h
      have : ¬ daysLateOf now p.1 > 30 := by omega
      simp [healthBand, this, h.1]
    · intro h
      have h1 : ¬ daysLateOf now p.1 > 30 := by omega
      have h2 : ¬ daysLateOf now p.1 > 14 := by omega
      simp [healthBand, h1, h2]
  · intro hsel
    have hs : ¬ sweepSelects now p.1 := hsel
    rw [if_neg hs] at h2
    exact h2

/-- Witness of C21: loan 1 is `FUNDED` with payback date at day 7; the sweep at day 27 (20
days late) makes it `OVERDUE` with health `FAILING`; a `PENDING` loan is left as it is. -/
theorem overdueSweep_changes_exactly_past_due_witness :
    loanIdsUnique (storeWith .FUNDED .GOOD)
      ∧ overdueSweepLoop (storeWith .FUNDED .GOOD) (27 * msPerDay)
          = overdueSweep (storeWith .FUNDED .GOOD) (27 * msPerDay)
      ∧ statusAndHealth (overdueSweep (storeWith .FUNDED .GOOD) (27 * msPerDay))
          = [(.OVERDUE, .FAILING)]
      ∧ (overdueSweep (storeWith .PENDING .GOOD) (27 * msPerDay)).loans
          = (storeWith .PENDING .GOOD).loans
      ∧ (loanRowWith .FUNDED .GOOD, loanRowWith .OVERDUE .FAILING)
          ∈ (storeWith .FUNDED .GOOD).loans.zip
              (overdueSweep (storeWith .FUNDED .GOOD) (27 * msPerDay)).loans
      ∧ ∃ (daysLate : Int) (health : LoanHealth),
          daysLate * msPerDay ≤ 27 * msPerDay - (loanRowWith .FUNDED .GOOD).paybackDate
            ∧ 27 * msPerDay - (loanRowWith .FUNDED .GOOD).paybackDate < (daysLate + 1) * msPerDay
            ∧ (30 < daysLate → health = .DEFAULTED)
            ∧ (14 < daysLate ∧ daysLate ≤ 30 → health = .FAILING)
            ∧ (daysLate ≤ 14 → health = .BEHIND)
            ∧ loanRowWith .OVERDUE .FAILING
                = { loanRowWith .FUNDED .GOOD with status := .OVERDUE, health := health } :=
  ⟨by decide,
    (overdueSweep_changes_exactly_past_due (storeWith .FUNDED .GOOD) (27 * msPerDay)).1
      (by decide),
    by decide!, by decide!, by decide!,
    ((overdueSweep_changes_exactly_past_due (storeWith .FUNDED .GOOD) (27 * msPerDay)).2.2.2
      (loanRowWith .FUNDED .GOOD, loanRowWith .OVERDUE .FAILING) (by decide!)).1
      ⟨rfl, by decide⟩⟩

theorem healthBand_rank_pos (d : Int) : 1 ≤ (healthBand d).rank := by
  unfold healthBand
  split
  · decide
  · split <;> decide

theorem healthBand_mono {d e : Int} (h : d ≤ e) : (healthBand d).rank ≤ (healthBand e).rank := by
  unfold healthBand
  by_cases h1 : d > 30
  · have h2 : e > 30 := by omega
    simp [h1, h2]
  · by_cases h3 : d > 14
    · by_cases h2 : e > 30
      · simp [h1, h2, h3, LoanHealth.rank]
      · have h4 : e > 14 := by omega
        simp [h1, h2, h3, h4]
    · by_cases h2 : e > 30
      · simp [h1, h2, h3, LoanHealth.rank]
      · by_cases h4 : e > 14
        · simp [h1, h2, h3, h4, LoanHealth.rank]
        · simp [h1, h2, h3, h4]

theorem daysLateOf_mono (l : Loan) {earlier now : Int} (h : earlier ≤ now) :
    daysLateOf earlier l ≤ daysLateOf now l := by
  unfold daysLateOf
  rw [Int.fdiv_eq_ediv _ (le_of_lt msPerDay_pos), Int.fdiv_eq_ediv _ (le_of_lt msPerDay_pos)]
  exact Int.ediv_le_ediv msPerDay_pos (by omega)

/-- Counterexample to C22: a `FUNDED` loan whose stored health is `DEFAULTED` (the
administrator's loan update stores any status and health) is one day past its payback date;
the sweep writes the band of its days late, `BEHIND`, which is a better health than
before. -/
theorem overdueSweep_can_improve_health :
    statusAndHealth (storeWith .FUNDED .DEFAULTED) = [(.FUNDED, .DEFAULTED)]
      ∧ statusAndHealth (overdueSweep (storeWith .FUNDED .DEFAULTED) (8 * msPerDay))
          = [(.OVERDUE, .BEHIND)]
      ∧ LoanHealth.BEHIND.rank < LoanHealth.DEFAULTED.rank := by
  decide!

/-- C22 (amended): one run of the sweep leaves the health of every loan it does not select
(status other than `FUNDED`, or payback date not passed) as it was, and sets the health of a
selected loan to the band of its days late, which is `BEHIND` or worse; so the health after
the run is at least the health before whenever the loan is not selected, or its health before
was `GOOD` or `BEHIND`, or its health before was the band of its days late at an earlier
time. -/
theorem overdueSweep_health_not_improved_of (db : Db) (now : Int) :
    ∀ p ∈ db.loans.zip (overdueSweep db now).loans,
      (¬ sweepSelects now p.1 → p.2.health = p.1.health)
        ∧ (sweepSelects now p.1 →
            p.2.health = healthBand (daysLateOf now p.1)
              ∧ LoanHealth.BEHIND.rank ≤ p.2.health.rank)
        ∧ (¬ sweepSelects now p.1 ∨ p.1.health = .GOOD ∨ p.1.health = .BEHIND →
            p.1.health.rank ≤ p.2.health.rank)
        ∧ (∀ earlier : Int, earlier ≤ now → p.1.health = healthBand (daysLateOf earlier p.1) →
            p.1.health.rank ≤ p.2.health.rank) := by
  intro p hp
  obtain ⟨_, h2⟩ := overdueSweep_pair db now p hp
  by_cases hs : sweepSelects now p.1
  · rw [if_pos hs] at h2
    have hh : p.2.health = healthBand (daysLateOf now p.1) := by rw [h2]
    have hpos : 1 ≤ p.2.health.rank := by rw [hh]; exact healthBand_rank_pos _
    refine ⟨fun hn => absurd hs hn, fun _ => ⟨hh, hpos⟩, ?_, ?_⟩
    · rintro (hn | hg | hb)
      · exact absurd hs hn
      · rw [hg]; exact Nat.zero_le _
      · rw [hb]; exact hpos
    · intro earlier hle he
      rw [he, hh]
      exact healthBand_mono (daysLateOf_mono p.1 hle)
  · rw [if_neg hs] at h2
    refine ⟨fun _ => by rw [h2], fun h => absurd h hs, fun _ => by rw [h2], ?_⟩
    intro _ _ _
    rw [h2]

/-- Witness of C22 (amended): loan 1, `FUNDED` with health `GOOD`, is 20 days late at the
run and gets the health `FAILING`, which is not better than `GOOD`. -/
theorem overdueSweep_health_not_improved_of_witness :
    (loanRowWith .FUNDED .GOOD, loanRowWith .OVERDUE .FAILING)
        ∈ (storeWith .FUNDED .GOOD).loans.zip
            (overdueSweep (storeWith .FUNDED .GOOD) (27 * msPerDay)).loans
      ∧ sweepSelects (27 * msPerDay) (loanRowWith .FUNDED .GOOD)
      ∧ (loanRowWith .FUNDED .GOOD).health.rank ≤ (loanRowWith .OVERDUE .FAILING).health.rank :=
  ⟨by decide!, by decide!,
    (overdueSweep_health_not_improved_of (storeWith .FUNDED .GOOD) (27 * msPerDay)
      (loanRowWith .FUNDED .GOOD, loanRowWith .OVERDUE .FAILING) (by decide!)).2.2.1
      (Or.inr (Or.inl rfl))⟩

/-- C23 (divergence): loan 1 is funded and found overdue by the sweep one day after its
payback date (health `BEHIND`); the runs at 20 days late and at 40 days late leave its health
`BEHIND`, although the bands of these days late are `FAILING` and `DEFAULTED`: the sweep
selects only `FUNDED` loans and never writes to a loan that is already `OVERDUE`. -/
theorem overdueSweep_leaves_overdue_health :
    statusAndHealth (run schemaWithActive demoDb opsOverdueAfterOneDay) = [(.OVERDUE, .BEHIND)]
      ∧ statusAndHealth (run schemaWithActive demoDb
            (opsOverdueAfterOneDay ++ [.overdueSweep (27 * msPerDay)]))
          = [(.OVERDUE, .BEHIND)]
      ∧ statusAndHealth (run schemaWithActive demoDb
            (opsOverdueAfterOneDay ++ [.overdueSweep (27 * msPerDay),
              .overdueSweep (47 * msPerDay)]))
          = [(.OVERDUE, .BEHIND)]
      ∧ (loanRow .OVERDUE).paybackDate = 7 * msPerDay
      ∧ healthBand (daysLateOf (27 * msPerDay) (loanRow .OVERDUE)) = .FAILING
      ∧ healthBand (daysLateOf (47 * msPerDay) (loanRow .OVERDUE)) = .DEFAULTED := by
  decide!

/-! ## C29: confirm-cashapp; C30: an unrecognised confirmer -/

/-- C29 (divergence): loan 1 (`totalPayable = 55`) is funded; the borrower repays 30 and the
lender confirms it, so the confirmed borrower→lender payments sum to 30 and the loan stays
`FUNDED`. A confirm-cashapp call for that payment compares `30 + 30 = 60` with 55 and sets
the loan to `COMPLETED`, the confirmed sum being 30 still. -/
theorem confirmCashapp_counts_confirmed_repayment_twice :
    (run schemaWithActive cashappDb opsCashappRepaymentConfirmed).loans.map
        (fun l => (l.totalPayable, l.status)) = [(55, .FUNDED)]
      ∧ (run schemaWithActive cashappDb opsCashappRepaymentConfirmed).payments.map
          (fun p => (p.id, p.amount, p.payerRole, p.receiverRole, p.confirmed, p.transferStatus))
          = [(1, 50, .LENDER, .BORROWER, false, .PENDING),
             (2, 30, .BORROWER, .LENDER, true, .COMPLETED)]
      ∧ totalRepaidOf (paymentsOfLoan
          (run schemaWithActive cashappDb opsCashappRepaymentConfirmed) 1) = 30
      ∧ (confirmCashapp (run schemaWithActive cashappDb opsCashappRepaymentConfirmed)
          reqCashapp).2.code = 200
      ∧ (confirmCashapp (run schemaWithActive cashappDb opsCashappRepaymentConfirmed)
          reqCashapp).1.loans.map (fun l => (l.totalPayable, l.status)) = [(55, .COMPLETED)]
      ∧ totalRepaidOf (paymentsOfLoan (confirmCashapp
          (run schemaWithActive cashappDb opsCashappRepaymentConfirmed) reqCashapp).1 1) = 30 :=
  ⟨by decide!, by decide!, by decide!, by decide!, by decide!, by decide!⟩

/-- Counterexample to C30: the confirmer role of the request is `"ADMIN"`. With
`confirmed = false` the repayment the lender had confirmed becomes `DISPUTED` with
`confirmed = false`; with `confirmed = true` the funding payment whose `lenderConfirmed` is
stored true becomes `CONFIRMED`, `confirmed = true`, `COMPLETED`. -/
theorem confirmManualPayment_unrecognised_role_changes_settlement :
    (findPayment storeLenderConfirmed 1).map settlementFields
        = some (true, .COMPLETED, .CONFIRMED, true, false)
      ∧ (findPayment (confirmManualPayment schemaWithActive storeLenderConfirmed
          (reqConfirm 1 false (.OTHER "ADMIN"))).1 1).map settlementFields
          = some (false, .COMPLETED, .DISPUTED, true, false)
      ∧ (findPayment storePayerConfirmed 1).map settlementFields
          = some (false, .PENDING, .PENDING_CONFIRMATION, true, false)
      ∧ (findPayment (confirmManualPayment schemaWithActive storePayerConfirmed
          (reqConfirm 1 true (.OTHER "ADMIN"))).1 1).map settlementFields
          = some (true, .COMPLETED, .CONFIRMED, true, false) :=
  ⟨by decide!, by decide!, by decide!, by decide!⟩

theorem fundingStep_of_unrecognised (sch : Schema) (db : Db) (payment : Payment)
    (req : ConfirmManualReq) (hrole : req.userRole.unrecognised) :
    fundingStep sch db payment req = some db := by
  unfold fundingStep
  split
  · rw [if_neg hrole.2]
  · rfl

theorem repaymentStep_of_unrecognised (sch : Schema) (db : Db) (payment : Payment)
    (req : ConfirmManualReq) (u : UpdateData) (hrole : req.userRole.unrecognised) :
    repaymentStep sch db payment req u = some db := by
  unfold repaymentStep
  split
  · rw [if_neg (fun h => hrole.1 h.1)]
  · rfl

/-- C30 (amended): for a request whose `userRole` is neither `LENDER` nor `BORROWER` and
whose payment exists, `confirmManualPayment` leaves `lenderConfirmed` and `borrowerConfirmed`
of the payment and every loan as they were; with `confirmed = false` it writes
`manualConfirmationStatus = DISPUTED` and `confirmed = false` and keeps `transferStatus`;
with `confirmed = true` and the stored `lenderConfirmed` true it writes `CONFIRMED`,
`confirmed = true` and `transferStatus = COMPLETED`; with `confirmed = true` and the stored
`lenderConfirmed` not true all five settlement fields are the same after the call as
before it. -/
theorem confirmManualPayment_unrecognised_role_effect (sch : Schema) (db : Db)
    (req : ConfirmManualReq) (pid : Nat) (payment : Payment)
    (hid : req.paymentId = some pid) (hfind : findPayment db pid = some payment)
    (hrole : req.userRole.unrecognised) :
    (confirmManualPayment sch db req).1.loans = db.loans
      ∧ ∃ p, findPayment (confirmManualPayment sch db req).1 pid = some p
          ∧ p.lenderConfirmed = payment.lenderConfirmed
          ∧ p.borrowerConfirmed = payment.borrowerConfirmed
          ∧ (req.confirmed = false →
              p.manualConfirmationStatus = .DISPUTED ∧ p.confirmed = false
                ∧ p.transferStatus = payment.transferStatus)
          ∧ (req.confirmed = true → payment.lenderConfirmed = true →
              p.manualConfirmationStatus = .CONFIRMED ∧ p.confirmed = true
                ∧ p.transferStatus = .COMPLETED)
          ∧ (req.confirmed = true → payment.lenderConfirmed = false →
              settlementFields p = settlementFields payment) := by
  obtain ⟨hl, hb⟩ := hrole
  have hother : otherUserConfirmed payment req.userRole = payment.lenderConfirmed := by
    unfold otherUserConfirmed; rw [if_neg hl]
  constructor
  · unfold confirmManualPayment
    simp only [hid, hfind]
    rw [fundingStep_of_unrecognised sch _ payment req ⟨hl, hb⟩]
    simp only
    rw [repaymentStep_of_unrecognised sch _ payment req _ ⟨hl, hb⟩]
    simp only
    split <;> exact updatePayment_loans _ _ _
  · refine ⟨_, findPayment_confirmManualPayment sch db req pid payment hid hfind, ?_, ?_, ?_, ?_, ?_⟩
    · unfold buildUpdateData applyUpdate
      simp only [if_neg hl, if_neg hb, hother]
      split_ifs <;> rfl
    · unfold buildUpdateData applyUpdate
      simp only [if_neg hl, if_neg hb, hother]
      split_ifs <;> rfl
    · intro hc
      unfold buildUpdateData applyUpdate
      simp only [if_neg hl, if_neg hb, hother, hc, if_true]
      exact ⟨rfl, rfl, rfl⟩
    · intro hc hlc
      unfold buildUpdateData applyUpdate
      simp only [if_neg hl, if_neg hb, hother, hc, hlc, if_true]
      simp
    · intro hc hlc
      unfold buildUpdateData applyUpdate settlementFields
      simp only [if_neg hl, if_neg hb, hother, hc, hlc]
      simp [hl, hb]

/-- Witness of C30 (amended): the role `"ADMIN"` confirms the repayment that awaits
confirmation and whose `lenderConfirmed` is false; its settlement fields stay as they
were. -/
theorem confirmManualPayment_unrecognised_role_effect_witness :
    (reqConfirm 1 true (.OTHER "ADMIN")).paymentId = some 1
      ∧ findPayment storeRepaymentPending 1 = some rowRepaymentPending
      ∧ (Role.OTHER "ADMIN").unrecognised
      ∧ (confirmManualPayment schemaWithActive storeRepaymentPending
          (reqConfirm 1 true (.OTHER "ADMIN"))).1.loans = storeRepaymentPending.loans
      ∧ ∃ p, findPayment (confirmManualPayment schemaWithActive storeRepaymentPending
          (reqConfirm 1 true (.OTHER "ADMIN"))).1 1 = some p
          ∧ settlementFields p = settlementFields rowRepaymentPending :=
  ⟨rfl, rfl, by decide,
    (confirmManualPayment_unrecognised_role_effect schemaWithActive storeRepaymentPending
      (reqConfirm 1 true (.OTHER "ADMIN")) 1 rowRepaymentPending rfl rfl (by decide)).1,
    (confirmManualPayment_unrecognised_role_effect schemaWithActive storeRepaymentPending
      (reqConfirm 1 true (.OTHER "ADMIN")) 1 rowRepaymentPending rfl rfl (by decide)).2.elim
      (fun p hp => ⟨p, hp.1, hp.2.2.2.2.2 rfl rfl⟩)⟩

/-! ## C26: the confirmation note -/

theorem dropWhile_eq_self_of_head {α : Type} (p : α → Bool) (l : List α)
    (h : ∀ c, l.head? = some c → p c = false) : l.dropWhile p = l := by
  cases l with
  | nil => rfl
  | cons c t =>
    have hc : p c = false := h c rfl
    simp [List.dropWhile_cons, hc]

/-- The model of `trim` returns a text that neither begins nor ends with white space as it
is. -/
theorem jsTrim_eq_self (s : String) (hs : startsWithJsSpace s = false)
    (he : endsWithJsSpace s = false) : jsTrim s = s := by
  unfold jsTrim
  have h1 : s.toList.dropWhile isJsSpace = s.toList := by
    apply dropWhile_eq_self_of_head
    intro c hc
    unfold startsWithJsSpace at hs
    rw [hc] at hs
    exact hs
  have h2 : s.toList.reverse.dropWhile isJsSpace = s.toList.reverse := by
    apply dropWhile_eq_self_of_head
    intro c hc
    unfold endsWithJsSpace at he
    rw [List.head?_reverse] at hc
    rw [hc] at he
    exact he
  rw [h1, h2, List.reverse_reverse]
  rfl

theorem buildUpdateData_confirmationNote (payment : Payment) (req : ConfirmManualReq) :
    (applyUpdate (buildUpdateData payment req) payment).confirmationNote
      = if truthy req.note = true then
          some (jsTrim ((payment.confirmationNote.getD "") ++ "\n" ++ req.userRole.text
            ++ ": " ++ req.note.getD ""))
        else payment.confirmationNote := by
  unfold applyUpdate buildUpdateData
  dsimp only
  split_ifs <;> rfl

theorem startsWithJsSpace_append (s t : String) (hne : s ≠ "")
    (hs : startsWithJsSpace s = false) : startsWithJsSpace (s ++ t) = false := by
  unfold startsWithJsSpace at *
  have hl : s.toList ≠ [] := by
    intro h
    apply hne
    exact String.ext h
  rw [String.toList, String.data_append]
  cases hd : s.data with
  | nil => exact absurd hd hl
  | cons c r =>
    rw [String.toList, hd] at hs
    simpa using hs

theorem endsWithJsSpace_append (s t : String) (hne : t ≠ "")
    (hs : endsWithJsSpace t = false) : endsWithJsSpace (s ++ t) = false := by
  unfold endsWithJsSpace at *
  have hl : t.data ≠ [] := by
    intro h
    apply hne
    exact String.ext h
  rw [String.toList, String.data_append, List.getLast?_append_of_ne_nil _ hl]
  exact hs

/-- Counterexample to C26: the borrower's proof stored the note `" sent via app"` (with a
leading blank) on payment 1; the lender confirms with the note `"received"`. The stored note
is `"sent via app\nLENDER: received"`: the first character of the previous note is lost. -/
theorem confirmManualPayment_note_loses_leading_blank :
    (findPayment (run schemaWithActive demoDb opsProofWithIndentedNote) 1).map
        (fun p => p.confirmationNote) = some (some " sent via app")
      ∧ (findPayment (confirmManualPayment schemaWithActive
          (run schemaWithActive demoDb opsProofWithIndentedNote)
          (reqConfirmNote 1 true .LENDER "received")).1 1).map (fun p => p.confirmationNote)
          = some (some "sent via app\nLENDER: received")
      ∧ "sent via app\nLENDER: received" ≠ " sent via app" ++ "\n" ++ "LENDER: received" :=
  ⟨by decide!, by decide!, by decide!⟩

/-- C26 (amended): for an existing payment and a non-empty note, `confirmManualPayment`
stores as `confirmationNote` the previous note (nothing when there was none), a line break
and the text `<userRole>: <note>`, with the white space at both ends of the whole removed;
when the previous note is non-empty and does not begin with white space and the note does
not end with white space, that is the previous note in full followed by the line break and
`<userRole>: <note>`; when no note (or an empty one) is supplied the `confirmationNote` is
unchanged. -/
theorem confirmManualPayment_note_appended (sch : Schema) (db : Db) (req : ConfirmManualReq)
    (pid : Nat) (payment : Payment)
    (hid : req.paymentId = some pid) (hfind : findPayment db pid = some payment) :
    ∃ p, findPayment (confirmManualPayment sch db req).1 pid = some p
      ∧ (∀ note, req.note = some note → note ≠ "" →
          p.confirmationNote = some (jsTrim ((payment.confirmationNote.getD "") ++ "\n"
            ++ req.userRole.text ++ ": " ++ note)))
      ∧ (∀ note previous, req.note = some note → note ≠ "" →
          payment.confirmationNote = some previous → previous ≠ "" →
          startsWithJsSpace previous = false → endsWithJsSpace note = false →
          p.confirmationNote = some (previous ++ "\n" ++ req.userRole.text ++ ": " ++ note))
      ∧ (req.note = none ∨ req.note = some "" →
          p.confirmationNote = payment.confirmationNote) := by
  refine ⟨_, findPayment_confirmManualPayment sch db req pid payment hid hfind, ?_, ?_, ?_⟩
  · intro note hn hne
    have ht : truthy req.note = true := by simp [truthy, hn, hne]
    rw [buildUpdateData_confirmationNote, if_pos ht, hn]
    rfl
  · intro note previous hn hne hp hpne hs he
    have ht : truthy req.note = true := by simp [truthy, hn, hne]
    have htrim : jsTrim (previous ++ "\n" ++ req.userRole.text ++ ": " ++ note)
        = previous ++ "\n" ++ req.userRole.text ++ ": " ++ note := by
      apply jsTrim_eq_self
      · rw [String.append_assoc, String.append_assoc, String.append_assoc]
        exact startsWithJsSpace_append _ _ hpne hs
      · exact endsWithJsSpace_append _ _ hne he
    have : (applyUpdate (buildUpdateData payment req) payment).confirmationNote
        = some (jsTrim ((payment.confirmationNote.getD "") ++ "\n"
            ++ req.userRole.text ++ ": " ++ note)) := by
      rw [buildUpdateData_confirmationNote, if_pos ht, hn]
      rfl
    rw [this, hp]
    simp only [Option.getD_some]
    rw [htrim]
  · intro hn
    have ht : truthy req.note = false := by
      rcases hn with hn | hn <;> simp [truthy, hn]
    rw [buildUpdateData_confirmationNote, ht]
    rfl

/-- Witness of C26 (amended): payment 1 carries the note `"sent via app"`; the lender
confirms with the note `"received"`. -/
theorem confirmManualPayment_note_appended_witness :
    (reqConfirmNote 1 true .LENDER "received").paymentId = some 1
      ∧ findPayment (storeOf .FUNDED
          [{ rowRepaymentPending with confirmationNote := some "sent via app" }]) 1
          = some { rowRepaymentPending with confirmationNote := some "sent via app" }
      ∧ ∃ p, findPayment (confirmManualPayment schemaWithActive (storeOf .FUNDED
            [{ rowRepaymentPending with confirmationNote := some "sent via app" }])
            (reqConfirmNote 1 true .LENDER "received")).1 1 = some p
          ∧ p.confirmationNote = some ("sent via app" ++ "\n" ++ "LENDER" ++ ": " ++ "received") :=
  ⟨rfl, rfl,
    (confirmManualPayment_note_appended schemaWithActive (storeOf .FUNDED
        [{ rowRepaymentPending with confirmationNote := some "sent via app" }])
      (reqConfirmNote 1 true .LENDER "received") 1
      { rowRepaymentPending with confirmationNote := some "sent via app" } rfl rfl).elim
      (fun p hp => ⟨p, hp.1,
        hp.2.2.1 "received" "sent via app" rfl (by decide) rfl (by decide) (by decide!)
          (by decide!)⟩)⟩

/-! ## C27: submitManualProof -/

theorem orElseJs_spec (submitted previous : Option String) :
    StoresOrKeeps submitted previous (orElseJs submitted previous) := by
  unfold StoresOrKeeps orElseJs
  constructor
  · intro t ht hne
    have : truthy submitted = true := by simp [truthy, ht, hne]
    rw [if_pos this, ht]
  · intro h
    have : ¬ truthy submitted = true := by
      rcases h with h | h <;> simp [truthy, h]
    rw [if_neg this]

theorem orElseJs_idem (a b : Option String) : orElseJs a (orElseJs a b) = orElseJs a b := by
  unfold orElseJs
  split_ifs <;> rfl

theorem updatePayment_twice (db : Db) (id : Nat) (f : Payment → Payment)
    (hid : ∀ p, (f p).id = p.id) (hidem : ∀ p, f (f p) = f p) :
    updatePayment (updatePayment db id f) id f = updatePayment db id f := by
  unfold updatePayment
  simp only [List.map_map]
  congr 1
  apply List.map_congr_left
  intro p _
  simp only [Function.comp]
  by_cases h : p.id = id
  · have h2 : (f p).id = id := by rw [hid, h]
    rw [if_pos h, if_pos h2, hidem]
  · rw [if_neg h, if_neg h]

/-- Counterexample to C27: payment 1 carries an earlier proof (transaction id `"T-1"`, a note
and a screenshot); a submission with transaction id `"T-2"` and neither note nor screenshot
stores `"T-2"` and keeps the earlier note and screenshot, so the proof fields are not
exactly the submitted values. -/
theorem submitManualProof_keeps_earlier_fields :
    (findPayment storeWithProof 1).map proofFields
        = some (some "T-1", some "sent via app", some "uploads/a.png", .PENDING_CONFIRMATION)
      ∧ (submitManualProof storeWithProof (reqProof (some "T-2") none none)).2.code = 200
      ∧ (findPayment (submitManualProof storeWithProof (reqProof (some "T-2") none none)).1
          1).map proofFields
          = some (some "T-2", some "sent via app", some "uploads/a.png", .PENDING_CONFIRMATION)
      ∧ (findPayment (submitManualProof storeWithProof (reqProof (some "T-2") none none)).1
          1).map proofFields
          ≠ some (some "T-2", none, none, .PENDING_CONFIRMATION) :=
  ⟨by decide!, by decide!, by decide!, by decide!⟩

/-- C27 (amended): for an existing payment and every submission, `submitManualProof` stores
in each proof field (`cashAppTransactionId`, `confirmationNote`, `confirmationScreenshot`) the
submitted value when it is a non-empty text and keeps the field's earlier value when the
submitted value is absent or empty, and sets `manualConfirmationStatus =
PENDING_CONFIRMATION`; when all three submitted values are non-empty the proof fields are
exactly the submitted values; submitting the same proof twice leaves the store as after
submitting it once. -/
theorem submitManualProof_stores_submitted_or_previous (db : Db) (req : SubmitProofReq)
    (pid : Nat) (payment : Payment)
    (hid : req.paymentId = some pid) (hfind : findPayment db pid = some payment) :
    (∃ p, findPayment (submitManualProof db req).1 pid = some p
        ∧ StoresOrKeeps req.transactionId payment.cashAppTransactionId p.cashAppTransactionId
        ∧ StoresOrKeeps req.note payment.confirmationNote p.confirmationNote
        ∧ StoresOrKeeps req.screenshotPath payment.confirmationScreenshot
            p.confirmationScreenshot
        ∧ p.manualConfirmationStatus = .PENDING_CONFIRMATION
        ∧ (truthy req.transactionId = true → truthy req.note = true →
            truthy req.screenshotPath = true →
            proofFields p
              = (req.transactionId, req.note, req.screenshotPath, .PENDING_CONFIRMATION)))
      ∧ (submitManualProof (submitManualProof db req).1 req).1 = (submitManualProof db req).1 := by
  have hdb : (submitManualProof db req).1 = updatePayment db pid (fun p =>
      { p with
        cashAppTransactionId := orElseJs req.transactionId payment.cashAppTransactionId
        confirmationNote := orElseJs req.note payment.confirmationNote
        confirmationScreenshot := orElseJs req.screenshotPath payment.confirmationScreenshot
        manualConfirmationStatus := .PENDING_CONFIRMATION }) := by
    unfold submitManualProof
    simp only [hid, hfind]
    split <;> rfl
  have hfind1 : findPayment (submitManualProof db req).1 pid = some
      { payment with
        cashAppTransactionId := orElseJs req.transactionId payment.cashAppTransactionId
        confirmationNote := orElseJs req.note payment.confirmationNote
        confirmationScreenshot := orElseJs req.screenshotPath payment.confirmationScreenshot
        manualConfirmationStatus := .PENDING_CONFIRMATION } := by
    have key : ∀ g : Payment → Payment, (∀ p, (g p).id = p.id) →
        findPayment (updatePayment db pid g) pid = some (g payment) := by
      intro g hg
      rw [findPayment_updatePayment db pid g hg, hfind]
      rfl
    rw [hdb]
    exact key _ (fun _ => rfl)
  refine ⟨⟨_, hfind1, orElseJs_spec _ _, orElseJs_spec _ _, orElseJs_spec _ _, rfl, ?_⟩, ?_⟩
  · intro h1 h2 h3
    simp only [proofFields, orElseJs, h1, h2, h3, if_true]
  · have hsecond : (submitManualProof (submitManualProof db req).1 req).1
        = updatePayment (submitManualProof db req).1 pid (fun p =>
          { p with
            cashAppTransactionId := orElseJs req.transactionId
              (orElseJs req.transactionId payment.cashAppTransactionId)
            confirmationNote := orElseJs req.note (orElseJs req.note payment.confirmationNote)
            confirmationScreenshot := orElseJs req.screenshotPath
              (orElseJs req.screenshotPath payment.confirmationScreenshot)
            manualConfirmationStatus := .PENDING_CONFIRMATION }) := by
      generalize hd : (submitManualProof db req).1 = d at hfind1 ⊢
      unfold submitManualProof
      simp only [hid, hfind1]
      split <;> rfl
    rw [hsecond]
    simp only [orElseJs_idem]
    rw [hdb]
    exact updatePayment_twice db pid _ (fun _ => rfl) (fun _ => rfl)

/-- Witness of C27 (amended): the submission `("T-2", no note, no screenshot)` for payment 1,
which carries an earlier proof. -/
theorem submitManualProof_stores_submitted_or_previous_witness :
    (reqProof (some "T-2") none none).paymentId = some 1
      ∧ findPayment storeWithProof 1 = some rowWithProof
      ∧ (submitManualProof (submitManualProof storeWithProof
          (reqProof (some "T-2") none none)).1 (reqProof (some "T-2") none none)).1
          = (submitManualProof storeWithProof (reqProof (some "T-2") none none)).1 :=
  ⟨rfl, rfl,
    (submitManualProof_stores_submitted_or_previous storeWithProof
      (reqProof (some "T-2") none none) 1 rowWithProof rfl rfl).2⟩

/-! ## C25: the roles of a created payment -/

/-- The payments after initiate payment: those before, or those before and one new row with
the roles of the request. -/
theorem initiatePayment_payments_cases (sch : Schema) (db : Db) (req : InitiateReq)
    (remote : RemoteInit) :
    (initiatePayment sch db req remote).1.payments = db.payments
      ∨ ∃ p, (initiatePayment sch db req remote).1.payments = db.payments ++ [p]
          ∧ p.payerRole = req.payerRole ∧ p.receiverRole = req.receiverRole
          ∧ sch.paymentRoleOk req.payerRole = true
          ∧ sch.paymentRoleOk req.receiverRole = true := by
  unfold initiatePayment
  split
  · left; rfl
  · rename_i loan _
    split
    · left; rfl
    · rename_i f t _
      by_cases hs : sch.paymentRoleOk req.payerRole = false ∨ sch.paymentRoleOk req.receiverRole = false
      · rw [if_pos hs]; left; rfl
      · rw [if_neg hs]
        have hp : sch.paymentRoleOk req.payerRole = true := by
          cases h : sch.paymentRoleOk req.payerRole
          · exact absurd (Or.inl h) hs
          · rfl
        have hr : sch.paymentRoleOk req.receiverRole = true := by
          cases h : sch.paymentRoleOk req.receiverRole
          · exact absurd (Or.inr h) hs
          · rfl
        right
        have hw : (updatePayment { db with payments := db.payments ++ [newPayment db req f t] }
            (newPayment db req f t).id
            (fun p => { p with confirmed := true, transferStatus := .COMPLETED })).payments
            = db.payments ++ [{ newPayment db req f t with
                confirmed := true, transferStatus := .COMPLETED }] := by
          rw [updatePayment_appended db (newPayment db req f t) _ (newPayment_id_fresh db req f t)]
        dsimp only
        split_ifs
        all_goals first
          | exact ⟨newPayment db req f t, rfl, rfl, rfl, hp, hr⟩
          | exact ⟨{ newPayment db req f t with confirmed := true, transferStatus := .COMPLETED },
              by rw [settleLoan_payments, hw], rfl, rfl, hp, hr⟩

/-- Counterexample to C25: on the store with loan 1, a Zelle request whose payer and receiver
are both `LENDER` is answered 200 and creates a payment with these roles, also when the role
columns accept `LENDER` and `BORROWER` only; when the columns accept any text, a request with
the roles `"ADMIN"` and `"GUEST"` creates a payment with these roles. -/
theorem initiatePayment_accepts_equal_roles :
    (initiatePayment schemaRolesEnum (storeOf .PENDING []) reqZelleSameRole remoteFailure).2.code
        = 200
      ∧ rolesOfPayments (initiatePayment schemaRolesEnum (storeOf .PENDING [])
          reqZelleSameRole remoteFailure).1 = [(.LENDER, .LENDER)]
      ∧ (initiatePayment schemaWithActive (storeOf .PENDING []) reqZelleForeignRoles
          remoteFailure).2.code = 200
      ∧ rolesOfPayments (initiatePayment schemaWithActive (storeOf .PENDING [])
          reqZelleForeignRoles remoteFailure).1 = [(.OTHER "ADMIN", .OTHER "GUEST")] :=
  ⟨by decide!, by decide!, by decide!, by decide!⟩

/-- C25 (amended): initiate payment creates at most one payment, and a payment it creates
carries the `payerRole` and `receiverRole` of the request as given, both accepted by the
payment table; a request with a role the table does not accept creates no payment; the
handler compares neither role with the other or with `LENDER` and `BORROWER`: a Zelle or
CashApp request on an existing loan whose accounts resolve and whose roles the table accepts
creates the payment whatever the two roles are. The borrower's record-payment endpoint takes
no role from the request: a payment it creates has the roles the payment table gives to a
row created without them. -/
theorem initiatePayment_stores_request_roles (sch : Schema) (db : Db) (req : InitiateReq)
    (remote : RemoteInit) :
    ((initiatePayment sch db req remote).1.payments = db.payments
        ∨ ∃ p, (initiatePayment sch db req remote).1.payments = db.payments ++ [p]
            ∧ p.payerRole = req.payerRole ∧ p.receiverRole = req.receiverRole
            ∧ sch.paymentRoleOk req.payerRole = true
            ∧ sch.paymentRoleOk req.receiverRole = true)
      ∧ (sch.paymentRoleOk req.payerRole = false ∨ sch.paymentRoleOk req.receiverRole = false →
          (initiatePayment sch db req remote).1.payments = db.payments)
      ∧ (∀ loan f t, findLoan db req.loanId = some loan →
          resolveAccounts db loan req = .ok f t →
          req.method = PaymentMethod.CASHAPP ∨ req.method = PaymentMethod.ZELLE →
          sch.paymentRoleOk req.payerRole = true → sch.paymentRoleOk req.receiverRole = true →
          (initiatePayment sch db req remote).1.payments
            = db.payments ++ [newPayment db req f t])
      ∧ (∀ (blank : Option Payment) (userId id : Nat) (body : RecordPaymentReq),
          (recordPayment blank db userId id body).1.payments = db.payments
            ∨ ∃ row p, blank = some row
                ∧ (recordPayment blank db userId id body).1.payments = db.payments ++ [p]
                ∧ p.payerRole = row.payerRole ∧ p.receiverRole = row.receiverRole) := by
  refine ⟨initiatePayment_payments_cases sch db req remote, ?_, ?_, ?_⟩
  · intro hrej
    rcases initiatePayment_payments_cases sch db req remote with h | ⟨p, _, _, _, hp, hr⟩
    · exact h
    · rcases hrej with h | h
      · rw [h] at hp; cases hp
      · rw [h] at hr; cases hr
  · intro loan f t hloan hacc hm hp hr
    rw [initiatePayment_manual sch db req remote loan f t hloan hacc hp hr hm]
    split <;> rfl
  · intro blank userId id body
    unfold recordPayment
    split
    · split
      · left; rfl
      · split
        · left; rfl
        · split
          · left; rfl
          · split
            · left; rfl
            · rename_i row
              right
              exact ⟨row, _, rfl, rfl, rfl, rfl⟩
    · left; rfl

/-- Witness of C25 (amended): the Zelle request whose payer and receiver are both `LENDER`,
on the store with loan 1 and a payment table that accepts `LENDER` and `BORROWER` only. -/
theorem initiatePayment_stores_request_roles_witness :
    findLoan (storeOf .PENDING []) reqZelleSameRole.loanId = some (loanRow .PENDING)
      ∧ resolveAccounts (storeOf .PENDING []) (loanRow .PENDING) reqZelleSameRole = .ok none none
      ∧ schemaRolesEnum.paymentRoleOk reqZelleSameRole.payerRole = true
      ∧ schemaRolesEnum.paymentRoleOk reqZelleSameRole.receiverRole = true
      ∧ (initiatePayment schemaRolesEnum (storeOf .PENDING []) reqZelleSameRole
          remoteFailure).1.payments
          = (storeOf .PENDING []).payments
              ++ [newPayment (storeOf .PENDING []) reqZelleSameRole none none] :=
  ⟨rfl, by decide!, by decide!, by decide!,
    (initiatePayment_stores_request_roles schemaRolesEnum (storeOf .PENDING [])
      reqZelleSameRole remoteFailure).2.2.1 (loanRow .PENDING) none none rfl (by decide!)
      (Or.inr rfl) (by decide!) (by decide!)⟩

/-! ## C24: at most one default account for a user and type -/

theorem length_filter_map_le {α : Type} (p q : α → Bool) (f : α → α) (l : List α)
    (h : ∀ a ∈ l, p (f a) = true → q a = true) :
    ((l.map f).filter p).length ≤ (l.filter q).length := by
  induction l with
  | nil => simp
  | cons a t ih =>
    have iht := ih (fun b hb => h b (List.mem_cons_of_mem _ hb))
    have ha := h a (List.mem_cons_self _ _)
    simp only [List.map_cons, List.filter_cons]
    by_cases hp : p (f a) = true
    · rw [if_pos hp, if_pos (ha hp)]
      simp only [List.length_cons]
      omega
    · rw [if_neg hp]
      split
      · simp only [List.length_cons]; omega
      · exact iht

theorem length_filter_id_le_one (l : List PaymentAccount)
    (hnd : (l.map (fun a => a.id)).Nodup) (i : Nat) :
    (l.filter (fun a => a.id == i)).length ≤ 1 := by
  induction l with
  | nil => simp
  | cons a t ih =>
    simp only [List.map_cons, List.nodup_cons] at hnd
    have iht := ih hnd.2
    simp only [List.filter_cons]
    by_cases ha : (a.id == i) = true
    · rw [if_pos ha]
      have hnil : t.filter (fun b => b.id == i) = [] := by
        rw [List.filter_eq_nil_iff]
        intro b hb hbi
        apply hnd.1
        have h1 : a.id = i := by simpa using ha
        have h2 : b.id = i := by simpa using hbi
        rw [h1, ← h2]
        exact List.mem_map_of_mem _ hb
      rw [hnil]
      simp
    · rw [if_neg ha]
      exact iht

theorem account_eq_of_id (l : List PaymentAccount) (hnd : (l.map (fun a => a.id)).Nodup)
    {a b : PaymentAccount} (ha : a ∈ l) (hb : b ∈ l) (h : a.id = b.id) : a = b :=
  List.inj_on_of_nodup_map hnd ha hb h

theorem clearDefaults_ids (l : List PaymentAccount) (u : Nat) (ty : PaymentMethod)
    (keep : Option Nat) :
    (clearDefaults l u ty keep).map (fun a => a.id) = l.map (fun a => a.id) := by
  unfold clearDefaults
  rw [List.map_map]
  apply List.map_congr_left
  intro a _
  simp only [Function.comp]
  split <;> rfl

theorem clearDefaults_count_le (l : List PaymentAccount) (u : Nat) (ty : PaymentMethod)
    (keep : Option Nat) (user : Nat) (t : PaymentMethod) :
    ((clearDefaults l u ty keep).filter (isDefaultOf user t)).length
      ≤ (l.filter (isDefaultOf user t)).length := by
  unfold clearDefaults
  apply length_filter_map_le
  intro a _ hp
  split at hp
  · simp [isDefaultOf] at hp
  · exact hp

theorem clearDefaults_count_zero (l : List PaymentAccount) (u : Nat) (ty : PaymentMethod) :
    ((clearDefaults l u ty none).filter (isDefaultOf u ty)).length = 0 := by
  have h := length_filter_map_le (isDefaultOf u ty) (fun _ => false)
    (fun a => if a.userId = u ∧ a.accountType = ty ∧ some a.id ≠ none then
      { a with isDefault := false } else a) l (by
      intro a _ hp
      dsimp only at hp
      split at hp
      · simp [isDefaultOf] at hp
      · rename_i hn
        simp only [isDefaultOf, Bool.and_eq_true, beq_iff_eq] at hp
        exact absurd ⟨hp.1.1, hp.1.2, by simp⟩ hn)
  unfold clearDefaults
  simpa using h

theorem addPaymentAccount_default_count (db : Db) (caller : Nat) (req : AddAccountReq)
    (answer : StoreAnswer) (user : Nat) (ty : PaymentMethod)
    (h : defaultCount db user ty ≤ 1) :
    defaultCount (addPaymentAccount db caller req answer).1 user ty ≤ 1 := by
  unfold addPaymentAccount
  split
  · exact h
  · split
    · exact h
    · dsimp only
      have h1 : defaultCount (if req.isDefault = true then
          { db with paymentAccounts :=
              clearDefaults db.paymentAccounts caller req.accountType none }
          else db) user ty ≤ 1 := by
        split
        · exact le_trans (clearDefaults_count_le _ _ _ _ _ _) h
        · exact h
      cases answer with
      | uniqueViolation => exact h1
      | failure => exact h1
      | done =>
        simp only [defaultCount, List.filter_append, List.length_append]
        by_cases hd : req.isDefault = true
        · simp only [hd, if_true]
          by_cases hpair : caller = user ∧ req.accountType = ty
          · obtain ⟨rfl, rfl⟩ := hpair
            rw [clearDefaults_count_zero, Nat.zero_add]
            exact List.length_filter_le _ _
          · have hnew : isDefaultOf user ty
                { id := nextId ((clearDefaults db.paymentAccounts caller req.accountType
                    none).map (fun a => a.id))
                  userId := caller
                  accountType := req.accountType
                  isDefault := true
                  isVerified := false
                  cashAppHandle :=
                    if req.accountType = PaymentMethod.CASHAPP then req.cashAppHandle else none
                  paypalEmail :=
                    if req.accountType = PaymentMethod.PAYPAL then req.paypalEmail else none }
                = false := by
              simp only [isDefaultOf]
              by_cases hu : caller = user
              · have : req.accountType ≠ ty := fun ht => hpair ⟨hu, ht⟩
                simp [this]
              · simp [hu]
            simp only [List.filter_cons, hnew, List.filter_nil]
            have := clearDefaults_count_le db.paymentAccounts caller req.accountType none user ty
            simp only [defaultCount] at h
            simp
            omega
        · have hf : req.isDefault = false := by
            cases hq : req.isDefault
            · rfl
            · exact absurd hq hd
          simp only [hf, Bool.false_eq_true, if_false]
          simp only [defaultCount] at h
          simp [List.filter_cons, isDefaultOf]
          exact h

theorem addPaymentAccount_ids (db : Db) (caller : Nat) (req : AddAccountReq)
    (answer : StoreAnswer) (hids : accountIdsUnique db) :
    accountIdsUnique (addPaymentAccount db caller req answer).1 := by
  unfold addPaymentAccount
  split
  · exact hids
  · split
    · exact hids
    · dsimp only
      have h1 : accountIdsUnique (if req.isDefault = true then
          { db with paymentAccounts :=
              clearDefaults db.paymentAccounts caller req.accountType none }
          else db) := by
        split
        · unfold accountIdsUnique
          rw [clearDefaults_ids]
          exact hids
        · exact hids
      cases answer with
      | uniqueViolation => exact h1
      | failure => exact h1
      | done =>
        unfold accountIdsUnique at h1 ⊢
        simp only [List.map_append, List.map_cons, List.map_nil]
        rw [List.nodup_append]
        refine ⟨h1, List.nodup_singleton _, ?_⟩
        intro x hx hx2
        simp only [List.mem_singleton] at hx2
        rw [hx2] at hx
        exact nextId_not_mem _ hx

theorem updatePaymentAccount_default_count (db : Db) (caller id : Nat)
    (req : UpdateAccountReq) (hids : accountIdsUnique db) (user : Nat) (ty : PaymentMethod)
    (h : defaultCount db user ty ≤ 1) :
    defaultCount (updatePaymentAccount db caller id req).1 user ty ≤ 1 := by
  unfold updatePaymentAccount
  split
  · exact h
  · rename_i account hfind
    have hmem : account ∈ db.paymentAccounts := List.mem_of_find?_eq_some hfind
    have hprop := List.find?_some hfind
    simp only [Bool.and_eq_true, beq_iff_eq] at hprop
    obtain ⟨haid, hauser⟩ := hprop
    dsimp only
    unfold defaultCount
    dsimp only
    by_cases hd : req.isDefault = some true
    · rw [if_pos hd]
      unfold clearDefaults
      rw [List.map_map]
      by_cases hpair : caller = user ∧ account.accountType = ty
      · refine le_trans (length_filter_map_le (isDefaultOf user ty) (fun a => a.id == id) _ _ ?_)
          (length_filter_id_le_one _ hids id)
        intro a _ hp
        simp only [Function.comp] at hp
        by_cases hi : a.id = id
        · simpa using hi
        · exfalso
          have hk : (some a.id ≠ some id) := by simpa using hi
          by_cases hc : a.userId = caller ∧ a.accountType = account.accountType ∧ some a.id ≠ some id
          · rw [if_pos hc] at hp
            simp only at hp
            rw [if_neg hi] at hp
            simp [isDefaultOf] at hp
          · rw [if_neg hc] at hp
            rw [if_neg hi] at hp
            simp only [isDefaultOf, Bool.and_eq_true, beq_iff_eq] at hp
            apply hc
            exact ⟨by rw [hp.1.1, hpair.1], by rw [hp.1.2, hpair.2], hk⟩
      · refine le_trans (length_filter_map_le (isDefaultOf user ty) (isDefaultOf user ty) _ _ ?_) h
        intro a ha hp
        simp only [Function.comp] at hp
        by_cases hi : a.id = id
        · exfalso
          have hEq : a = account := account_eq_of_id _ hids ha hmem (by rw [hi, haid])
          have hk : ¬ (some a.id ≠ some id) := by simp [hi]
          have hc : ¬ (a.userId = caller ∧ a.accountType = account.accountType
              ∧ some a.id ≠ some id) := fun hc => hk hc.2.2
          rw [if_neg hc, if_pos hi] at hp
          simp only [isDefaultOf, Bool.and_eq_true, beq_iff_eq] at hp
          apply hpair
          rw [hEq] at hp
          exact ⟨by rw [← hauser]; exact hp.1.1, hp.1.2⟩
        · by_cases hc : a.userId = caller ∧ a.accountType = account.accountType
              ∧ some a.id ≠ some id
          · rw [if_pos hc] at hp
            simp only at hp
            rw [if_neg hi] at hp
            simp [isDefaultOf] at hp
          · rw [if_neg hc, if_neg hi] at hp
            exact hp
    · rw [if_neg hd]
      refine le_trans (length_filter_map_le (isDefaultOf user ty) (isDefaultOf user ty) _ _ ?_) h
      intro a _ hp
      by_cases hi : a.id = id
      · rw [if_pos hi] at hp
        cases hq : req.isDefault with
        | none =>
          rw [hq] at hp
          simpa [isDefaultOf] using hp
        | some b =>
          cases b with
          | true => exact absurd hq hd
          | false =>
            rw [hq] at hp
            simp [isDefaultOf] at hp
      · rw [if_neg hi] at hp
        exact hp

theorem updatePaymentAccount_ids (db : Db) (caller id : Nat) (req : UpdateAccountReq)
    (hids : accountIdsUnique db) : accountIdsUnique (updatePaymentAccount db caller id req).1 := by
  unfold updatePaymentAccount
  split
  · exact hids
  · rename_i account _
    unfold accountIdsUnique
    dsimp only
    have hmap : ∀ l : List PaymentAccount, (l.map (fun a =>
        if a.id = id then { a with isDefault := req.isDefault.getD a.isDefault } else a)).map
        (fun a => a.id) = l.map (fun a => a.id) := by
      intro l
      rw [List.map_map]
      apply List.map_congr_left
      intro a _
      simp only [Function.comp]
      split <;> rfl
    rw [hmap]
    split
    · rw [clearDefaults_ids]; exact hids
    · exact hids

theorem deletePaymentAccount_default_count (db : Db) (caller id : Nat) (answer : StoreAnswer)
    (user : Nat) (ty : PaymentMethod) (h : defaultCount db user ty ≤ 1) :
    defaultCount (deletePaymentAccount db caller id answer).1 user ty ≤ 1 := by
  unfold deletePaymentAccount
  split
  · exact h
  · cases answer with
    | done =>
      refine le_trans ?_ h
      unfold defaultCount
      dsimp only
      exact ((List.filter_sublist _).filter _).length_le
    | uniqueViolation => exact h
    | failure => exact h

theorem deletePaymentAccount_ids (db : Db) (caller id : Nat) (answer : StoreAnswer)
    (hids : accountIdsUnique db) :
    accountIdsUnique (deletePaymentAccount db caller id answer).1 := by
  unfold deletePaymentAccount
  split
  · exact hids
  · cases answer with
    | done =>
      unfold accountIdsUnique at hids ⊢
      dsimp only
      exact hids.sublist ((List.filter_sublist _).map _)
    | uniqueViolation => exact hids
    | failure => exact hids

/-- C24: the ids of the payment accounts being a primary key, for every user and account
type with at most one account marked default before a call, at most one is marked default
after an add (`POST`), an update (`PUT`) or a delete of a payment account by any caller,
whatever the request and whatever the store answers (so for every successful call too); the
ids stay a primary key. -/
theorem paymentAccount_default_stays_unique (db : Db) (hids : accountIdsUnique db)
    (user : Nat) (ty : PaymentMethod) (h : defaultCount db user ty ≤ 1) :
    (∀ caller req answer,
        defaultCount (addPaymentAccount db caller req answer).1 user ty ≤ 1
          ∧ accountIdsUnique (addPaymentAccount db caller req answer).1)
      ∧ (∀ caller id req,
          defaultCount (updatePaymentAccount db caller id req).1 user ty ≤ 1
            ∧ accountIdsUnique (updatePaymentAccount db caller id req).1)
      ∧ (∀ caller id answer,
          defaultCount (deletePaymentAccount db caller id answer).1 user ty ≤ 1
            ∧ accountIdsUnique (deletePaymentAccount db caller id answer).1) :=
  ⟨fun caller req answer =>
      ⟨addPaymentAccount_default_count db caller req answer user ty h,
        addPaymentAccount_ids db caller req answer hids⟩,
    fun caller id req =>
      ⟨updatePaymentAccount_default_count db caller id req hids user ty h,
        updatePaymentAccount_ids db caller id req hids⟩,
    fun caller id answer =>
      ⟨deletePaymentAccount_default_count db caller id answer user ty h,
        deletePaymentAccount_ids db caller id answer hids⟩⟩

/-- Witness of C24: lender 10 has one default PayPal account; adding a second PayPal account
as default leaves exactly one default (the new one), and so does marking account 1 default
again afterwards. -/
theorem paymentAccount_default_stays_unique_witness :
    accountIdsUnique demoDb
      ∧ defaultCount demoDb 10 .PAYPAL = 1
      ∧ (addPaymentAccount demoDb 10 reqAddDefaultPaypal .done).2.code = 200
      ∧ (addPaymentAccount demoDb 10 reqAddDefaultPaypal .done).1.paymentAccounts.map
          (fun a => (a.id, a.userId, a.isDefault)) = [(1, 10, false), (2, 20, true), (3, 10, true)]
      ∧ defaultCount (addPaymentAccount demoDb 10 reqAddDefaultPaypal .done).1 10 .PAYPAL ≤ 1
      ∧ (updatePaymentAccount (addPaymentAccount demoDb 10 reqAddDefaultPaypal .done).1 10 1
          { isDefault := some true }).1.paymentAccounts.map
          (fun a => (a.id, a.userId, a.isDefault)) = [(1, 10, true), (2, 20, true), (3, 10, false)] :=
  ⟨by decide, by decide, by decide!, by decide!,
    ((paymentAccount_default_stays_unique demoDb (by decide) 10 .PAYPAL (by decide)).1
      10 reqAddDefaultPaypal .done).1,
    by decide!⟩

/-! ## C28: two confirm-stripe handlers on one loan -/

/-- The four store operations of one handler, performed without another handler in
between, are the handler `confirmStripe`. -/
theorem runSchedule_alone (db : Db) (req : ConfirmStripeReq) (b : StripeTask) :
    runSchedule db (.start req) b [true, true, true, true]
      = ((confirmStripe db req true).1, .finished (confirmStripe db req true).2, b) := by
  simp only [runSchedule, confirmStripe, if_true]
  cases hf : findPayment db req.paymentId with
  | none => simp [stripeStep, hf]
  | some payment =>
    simp only [stripeStep, hf]
    split <;> rfl

/-- C28 (divergence): loan 1 (`totalPayable = 55`, `FUNDED`) has two repayments of 30 and 25
awaiting confirmation. When the confirm-stripe handler of the first runs to its end before
that of the second starts, the loan is `COMPLETED`. When both handlers perform their
`findUnique` before either writes, both answer 200 and both payments are confirmed (sum 55),
but each handler compares its snapshot's aggregate plus its own amount (30 and 25) with 55,
and the loan stays `FUNDED`: it is set to `COMPLETED` zero times. -/
theorem confirmStripe_interleaved_never_completes :
    payableAndStatus storeTwoRepaymentsPending = [(55, .FUNDED)]
      ∧ confirmedFlags storeTwoRepaymentsPending = [(1, 50, false), (2, 30, false), (3, 25, false)]
      ∧ payableAndStatus (runSchedule storeTwoRepaymentsPending (.start (reqStripeFor 2))
          (.start (reqStripeFor 3)) scheduleOneAfterTheOther).1 = [(55, .COMPLETED)]
      ∧ (runSchedule storeTwoRepaymentsPending (.start (reqStripeFor 2))
          (.start (reqStripeFor 3)) scheduleBothReadFirst).2
          = (.finished { code := 200 }, .finished { code := 200 })
      ∧ confirmedFlags (runSchedule storeTwoRepaymentsPending (.start (reqStripeFor 2))
          (.start (reqStripeFor 3)) scheduleBothReadFirst).1
          = [(1, 50, false), (2, 30, true), (3, 25, true)]
      ∧ totalRepaidOf (paymentsOfLoan (runSchedule storeTwoRepaymentsPending
          (.start (reqStripeFor 2)) (.start (reqStripeFor 3)) scheduleBothReadFirst).1 1) = 55
      ∧ payableAndStatus (runSchedule storeTwoRepaymentsPending (.start (reqStripeFor 2))
          (.start (reqStripeFor 3)) scheduleBothReadFirst).1 = [(55, .FUNDED)] :=
  ⟨by decide!, by decide!, by decide!, by decide!, by decide!, by decide!, by decide!⟩

/-! ## C1: which calls write `COMPLETED`, and on what sum -/

theorem findLoan_of_loans_eq {db db' : Db} (h : db'.loans = db.loans) (id : Nat) :
    findLoan db' id = findLoan db id := by
  unfold findLoan; rw [h]

/-- A call that rewrites the loan rows one by one, keeping their ids and writing `COMPLETED`
on none that was not `COMPLETED`, completes no loan. -/
theorem not_becameCompleted_of_map {before after : Db} (f : Loan → Loan)
    (hloans : after.loans = before.loans.map f) (hid : ∀ l, (f l).id = l.id)
    (hstatus : ∀ l, (f l).status = LoanStatus.COMPLETED → l.status = LoanStatus.COMPLETED)
    (id : Nat) : ¬ becameCompleted before after id := by
  rintro ⟨loan, loan', h1, h2, h3, h4⟩
  have hfind : findLoan after id = (findLoan before id).map f := by
    unfold findLoan
    rw [hloans]
    exact find?_map_of_key (fun l => l.id) f hid id before.loans
  rw [hfind, h1] at h2
  simp only [Option.map_some', Option.some.injEq] at h2
  rw [← h2] at h4
  exact h3 (hstatus loan h4)

theorem not_becameCompleted_of_loans_eq {before after : Db} (hloans : after.loans = before.loans)
    (id : Nat) : ¬ becameCompleted before after id :=
  not_becameCompleted_of_map (fun l => l) (by rw [hloans, List.map_id']) (fun _ => rfl)
    (fun _ h => h) id

theorem not_becameCompleted_of_setLoanStatus {before after : Db} (x : Nat) (s : LoanStatus)
    (hs : s ≠ LoanStatus.COMPLETED) (hloans : after.loans = (setLoanStatus before x s).loans)
    (id : Nat) : ¬ becameCompleted before after id :=
  not_becameCompleted_of_map (fun l => if l.id = x then { l with status := s } else l) hloans
    (fun l => by dsimp only; split <;> rfl)
    (fun l h => by
      dsimp only at h
      split at h
      · exact absurd h hs
      · exact h) id

/-- The loan rows after `confirmManualPayment`: as before; or one id set to `ACTIVE`; or the
loan of the payment set to `COMPLETED`, the aggregate read after the payment's update being
at least its `totalPayable`. -/
theorem confirmManualPayment_loans_precise (sch : Schema) (db : Db) (req : ConfirmManualReq) :
    (confirmManualPayment sch db req).1.loans = db.loans
      ∨ (∃ x, (confirmManualPayment sch db req).1.loans
          = (setLoanStatus db x .ACTIVE).loans)
      ∨ (∃ x loan0, findLoan db x = some loan0
          ∧ totalRepaidOf (paymentsOfLoan (confirmManualPayment sch db req).1 x)
              ≥ loan0.totalPayable
          ∧ (confirmManualPayment sch db req).1.loans
              = (setLoanStatus db x .COMPLETED).loans) := by
  cases hpid : req.paymentId with
  | none => left; simp [confirmManualPayment, hpid]
  | some pid =>
    cases hfind : findPayment db pid with
    | none => left; simp [confirmManualPayment, hpid, hfind]
    | some payment =>
      have hpay := confirmManualPayment_payments sch db req pid payment hpid hfind
      have hpl : ∀ x, paymentsOfLoan (confirmManualPayment sch db req).1 x
          = paymentsOfLoan (updatePayment db pid
              (applyUpdate (buildUpdateData payment req))) x := by
        intro x; unfold paymentsOfLoan; rw [hpay]
      simp only [confirmManualPayment, hpid, hfind] at hpl ⊢
      by_cases hL : payment.payerRole = Role.LENDER
      · have hrep : ∀ d, repaymentStep sch d payment req (buildUpdateData payment req)
            = some d := by
          intro d; simp [repaymentStep, hL]
        cases hf : fundingStep sch (updatePayment db pid
            (applyUpdate (buildUpdateData payment req))) payment req with
        | none => left; rfl
        | some db2 =>
          simp only [hrep]
          have hl2 : db2.loans = db.loans
              ∨ db2.loans = (setLoanStatus db payment.loanId .ACTIVE).loans := by
            unfold fundingStep at hf
            split at hf
            · split at hf
              · unfold loanUpdateStatus at hf
                split at hf
                · cases hf; right; rfl
                · cases hf
              · cases hf; left; rfl
            · cases hf; left; rfl
          rcases hl2 with h | h
          · left; split <;> exact h
          · right; left
            exact ⟨payment.loanId, by split <;> exact h⟩
      · have hfund : ∀ d, fundingStep sch d payment req = some d := by
          intro d; simp [fundingStep, hL]
        simp only [hfund] at hpl ⊢
        cases hr : repaymentStep sch (updatePayment db pid
            (applyUpdate (buildUpdateData payment req))) payment req
            (buildUpdateData payment req) with
        | none => left; rfl
        | some db3 =>
          simp only [hr] at hpl ⊢
          have hl3 : db3.loans = db.loans
              ∨ ∃ loan0, findLoan db payment.loanId = some loan0
                ∧ totalRepaidOf (paymentsOfLoan (updatePayment db pid
                    (applyUpdate (buildUpdateData payment req))) payment.loanId)
                    ≥ loan0.totalPayable
                ∧ db3.loans = (setLoanStatus db payment.loanId .COMPLETED).loans := by
            unfold repaymentStep at hr
            split at hr
            · split at hr
              · split at hr
                · cases hr
                · rename_i loan0 hloan0
                  have hloan0' : findLoan db payment.loanId = some loan0 := hloan0
                  have hid0 := findLoan_id hloan0'
                  dsimp only at hr
                  split at hr
                  · rename_i hge
                    unfold loanUpdateStatus at hr
                    split at hr
                    · cases hr
                      right
                      refine ⟨loan0, hloan0', ?_, rfl⟩
                      rw [hid0] at hge
                      exact hge
                    · cases hr
                  · cases hr; left; rfl
              · cases hr; left; rfl
            · cases hr; left; rfl
          rcases hl3 with h | ⟨loan0, h0, hge, h⟩
          · left; split <;> exact h
          · right; right
            refine ⟨payment.loanId, loan0, h0, ?_, by split <;> exact h⟩
            rw [hpl]
            exact hge

/-- The loan rows after initiate payment: as before; or the loan of the request set to
`FUNDED`; or, for an internal-wallet payment paid by the borrower, that loan set to
`COMPLETED`, the aggregate read before plus the amount being at least its `totalPayable`
and the new payment being stored as confirmed. -/
theorem initiatePayment_loans_precise (sch : Schema) (db : Db) (req : InitiateReq)
    (remote : RemoteInit) :
    (initiatePayment sch db req remote).1.loans = db.loans
      ∨ (initiatePayment sch db req remote).1.loans
          = (setLoanStatus db req.loanId .FUNDED).loans
      ∨ (∃ loan, findLoan db req.loanId = some loan
          ∧ req.payerRole = Role.BORROWER
          ∧ fadd (totalRepaidOf (paymentsOfLoan db req.loanId)) req.amount ≥ loan.totalPayable
          ∧ (initiatePayment sch db req remote).1.loans
              = (setLoanStatus db req.loanId .COMPLETED).loans
          ∧ (initiatePayment sch db req remote).1.payments
              = db.payments ++ [{ newPayment db req none none with
                  confirmed := true, transferStatus := .COMPLETED }]) := by
  cases hloan : findLoan db req.loanId with
  | none => left; simp [initiatePayment, hloan]
  | some loan =>
    have hid := findLoan_id hloan
    by_cases hm : req.method = PaymentMethod.INTERNAL_WALLET
    · by_cases hs : sch.paymentRoleOk req.payerRole = false
          ∨ sch.paymentRoleOk req.receiverRole = false
      · left
        have hacc : resolveAccounts db loan req = .ok none none :=
          resolveAccounts_of_no_rail db loan req (by rw [hm]; decide) (by rw [hm]; decide)
        simp only [initiatePayment, hloan, hacc, if_pos hs]
      · have hp : sch.paymentRoleOk req.payerRole = true := by
          cases h : sch.paymentRoleOk req.payerRole
          · exact absurd (Or.inl h) hs
          · rfl
        have hr : sch.paymentRoleOk req.receiverRole = true := by
          cases h : sch.paymentRoleOk req.receiverRole
          · exact absurd (Or.inr h) hs
          · rfl
        have h := initiatePayment_wallet sch db req remote loan hloan hp hr hm
        have hup := updatePayment_appended db (newPayment db req none none)
          (fun p => { p with confirmed := true, transferStatus := .COMPLETED })
          (newPayment_id_fresh db req none none)
        rw [h]
        dsimp only
        rw [hup]
        by_cases hL : req.payerRole = Role.LENDER
        · right; left
          rw [hL, settleLoan_lender, hid]
          rfl
        · by_cases hB : req.payerRole = Role.BORROWER
          · rw [hB, settleLoan_borrower, hid]
            by_cases hge : fadd (totalRepaidOf (paymentsOfLoan db req.loanId)) req.amount
                ≥ loan.totalPayable
            · right; right
              rw [if_pos hge]
              exact ⟨loan, rfl, rfl, hge, rfl, rfl⟩
            · left
              rw [if_neg hge]
          · left
            simp [settleLoan, hL, hB]
    · unfold initiatePayment
      simp only [hloan]
      split
      · left; rfl
      · split
        · left; rfl
        · split
          · split
            · right; left; rfl
            · left; rfl
          · left
            split_ifs <;> rfl

/-- C1 (amended): `confirmManualPayment`, and initiate payment for a request whose
`receiverRole` is `LENDER`, change a loan's status to `COMPLETED` only when the loan's
confirmed borrower→lender amounts, added in stored order in double arithmetic and read
after the call, are at least its `totalPayable`; loan creation, `submitManualProof`, the
lender's fund and deny endpoints and the overdue sweep change no loan's status to
`COMPLETED`. -/
theorem completed_written_only_when_covered (sch : Schema) (db : Db) (id : Nat) :
    (∀ req : ConfirmManualReq,
        becameCompleted db (confirmManualPayment sch db req).1 id →
        coveredIn (confirmManualPayment sch db req).1 id)
      ∧ (∀ (req : InitiateReq) (remote : RemoteInit), req.receiverRole = Role.LENDER →
          becameCompleted db (initiatePayment sch db req remote).1 id →
          coveredIn (initiatePayment sch db req remote).1 id)
      ∧ (∀ (userId : Nat) (req : CreateLoanReq) (now : Int),
          ¬ becameCompleted db (createLoan db userId req now).1 id)
      ∧ (∀ req : SubmitProofReq, ¬ becameCompleted db (submitManualProof db req).1 id)
      ∧ (∀ userId loanId : Nat, ¬ becameCompleted db (fundLoan db userId loanId).1 id)
      ∧ (∀ userId loanId : Nat, ¬ becameCompleted db (denyLoan db userId loanId).1 id)
      ∧ (∀ now : Int, ¬ becameCompleted db (overdueSweep db now) id) := by
  refine ⟨?_, ?_, ?_, ?_, ?_, ?_, ?_⟩
  · intro req hbc
    rcases confirmManualPayment_loans_precise sch db req with h | ⟨x, h⟩ | ⟨x, loan0, h0, hge, h⟩
    · exact absurd hbc (not_becameCompleted_of_loans_eq h id)
    · exact absurd hbc (not_becameCompleted_of_setLoanStatus x .ACTIVE (by decide) h id)
    · obtain ⟨loan, loan', h1, h2, h3, h4⟩ := hbc
      have hfind : findLoan (confirmManualPayment sch db req).1 id
          = findLoan (setLoanStatus db x .COMPLETED) id := findLoan_of_loans_eq h id
      rw [hfind, findLoan_setLoanStatus_any, h1] at h2
      simp only [Option.map_some', Option.some.injEq] at h2
      by_cases hx : loan.id = x
      · rw [if_pos hx] at h2
        have hidx : id = x := by rw [← findLoan_id h1]; exact hx
        subst hidx
        rw [h1] at h0
        cases h0
        refine ⟨loan', ?_, ?_⟩
        · rw [hfind, findLoan_setLoanStatus_any, h1]
          simp only [Option.map_some', if_pos hx]
          rw [h2]
        · rw [← h2]
          exact hge
      · rw [if_neg hx] at h2
        rw [← h2] at h4
        exact absurd h4 h3
  · intro req remote hrecv hbc
    rcases initiatePayment_loans_precise sch db req remote with h | h
        | ⟨loan0, h0, hB, hge, h, hpay⟩
    · exact absurd hbc (not_becameCompleted_of_loans_eq h id)
    · exact absurd hbc (not_becameCompleted_of_setLoanStatus req.loanId .FUNDED (by decide) h id)
    · obtain ⟨loan, loan', h1, h2, h3, h4⟩ := hbc
      have hfind : findLoan (initiatePayment sch db req remote).1 id
          = findLoan (setLoanStatus db req.loanId .COMPLETED) id := findLoan_of_loans_eq h id
      rw [hfind, findLoan_setLoanStatus_any, h1] at h2
      simp only [Option.map_some', Option.some.injEq] at h2
      by_cases hx : loan.id = req.loanId
      · rw [if_pos hx] at h2
        have hidx : id = req.loanId := by rw [← findLoan_id h1]; exact hx
        subst hidx
        rw [h1] at h0
        cases h0
        refine ⟨loan', ?_, ?_⟩
        · rw [hfind, findLoan_setLoanStatus_any, h1]
          simp only [Option.map_some', if_pos hx]
          rw [h2]
        have hsum : totalRepaidOf (paymentsOfLoan (initiatePayment sch db req remote).1
            req.loanId) = fadd (totalRepaidOf (paymentsOfLoan db req.loanId)) req.amount := by
          have hp := paymentsOfLoan_append db
            { newPayment db req none none with confirmed := true, transferStatus := .COMPLETED }
          have hl : ({ newPayment db req none none with
              confirmed := true, transferStatus := .COMPLETED } : Payment).loanId
              = req.loanId := rfl
          rw [hl] at hp
          have hpl : paymentsOfLoan (initiatePayment sch db req remote).1 req.loanId
              = paymentsOfLoan { db with payments := db.payments ++
                  [{ newPayment db req none none with
                      confirmed := true, transferStatus := .COMPLETED }] } req.loanId := by
            unfold paymentsOfLoan; rw [hpay]
          rw [hpl, hp, totalRepaidOf_append_repayment _ _
            (by simp [isConfirmedRepayment, newPayment, hB, hrecv])]
          rfl
        rw [hsum, ← h2]
        exact hge
      · rw [if_neg hx] at h2
        rw [← h2] at h4
        exact absurd h4 h3
  · intro userId req now
    rintro ⟨loan, loan', h1, h2, h3, h4⟩
    have hcases : (createLoan db userId req now).1.loans = db.loans
        ∨ ∃ l, (createLoan db userId req now).1.loans = db.loans ++ [l] := by
      unfold createLoan
      split
      · left; rfl
      · split
        · left; rfl
        · split
          · left; rfl
          · right; exact ⟨_, rfl⟩
    rcases hcases with h | ⟨l, h⟩
    · rw [findLoan_of_loans_eq h id, h1] at h2
      cases h2
      exact h3 h4
    · unfold findLoan at h1 h2
      rw [h, List.find?_append, h1] at h2
      simp only [Option.or, Option.some.injEq] at h2
      rw [← h2] at h4
      exact h3 h4
  · intro req
    apply not_becameCompleted_of_loans_eq
    unfold submitManualProof
    split
    · rfl
    · split
      · rfl
      · dsimp only
        split <;> rfl
  · intro userId loanId
    unfold fundLoan
    split
    · exact not_becameCompleted_of_loans_eq rfl id
    · rename_i loan _
      split
      · exact not_becameCompleted_of_loans_eq rfl id
      · exact not_becameCompleted_of_map
          (fun l => if l.id = loanId then
            { l with
              status := .FUNDED
              lenderTermId :=
                (match loan.lenderTermId with
                  | none => none
                  | some tid => db.lenderTerms.find? (fun (t : LenderTerm) => t.id == tid)).map
                  (fun (t : LenderTerm) => t.id) }
            else l) rfl
          (fun l => by dsimp only; split <;> rfl)
          (fun l h => by
            dsimp only at h
            split at h
            · cases h
            · exact h) id
  · intro userId loanId
    unfold denyLoan
    split
    · exact not_becameCompleted_of_loans_eq rfl id
    · split
      · exact not_becameCompleted_of_loans_eq rfl id
      · exact not_becameCompleted_of_setLoanStatus loanId .DENIED (by decide) rfl id
  · intro now
    exact not_becameCompleted_of_map
      (fun l => if l.status = LoanStatus.FUNDED ∧ l.paybackDate < now then
          { l with status := .OVERDUE, health := healthBand (daysLateOf now l) }
        else l) rfl
      (fun l => by dsimp only; split <;> rfl)
      (fun l h => by
        dsimp only at h
        split at h
        · cases h
        · exact h) id

/-- Counterexample to C1: the borrower's mark-completed endpoint sets a freshly requested
loan (`totalPayable = 55`) to `COMPLETED` while it has no payment at all; after a loan was
completed by two confirmed repayments, a dispute of one of them leaves the loan `COMPLETED`
with 30 < 55 confirmed; an internal-wallet payment of 55 that names the borrower as payer
and as receiver sets the loan to `COMPLETED` with no confirmed borrower→lender payment; and
two repayments of 30 and of the double `24.999999999999996`, confirmed by the lender,
complete the loan because their double sum is 55, while the amounts sum to less than 55. A
second confirm-stripe call for a repayment of 30, and a confirm-cashapp call for a confirmed
repayment of 30, set the loan to `COMPLETED` with 30 confirmed, and the administrator's
loan update writes `COMPLETED` on a loan without payment. -/
theorem completed_not_always_covered :
    (run schemaWithActive demoDb opsMarkCompleted).loans.map
        (fun l => (l.status, l.totalPayable)) = [(.COMPLETED, 55)]
      ∧ totalRepaidOf (paymentsOfLoan (run schemaWithActive demoDb opsMarkCompleted) 1) = 0
      ∧ ¬ CompletedCovered (run schemaWithActive demoDb opsMarkCompleted)
      ∧ (run schemaWithActive demoDb opsDisputeAfterCompletion).loans.map
          (fun l => (l.status, l.totalPayable)) = [(.COMPLETED, 55)]
      ∧ totalRepaidOf (paymentsOfLoan (run schemaWithActive demoDb opsDisputeAfterCompletion) 1)
          = 30
      ∧ ¬ CompletedCovered (run schemaWithActive demoDb opsDisputeAfterCompletion)
      ∧ (run schemaWithActive demoDb opsWalletToBorrower).loans.map
          (fun l => (l.status, l.totalPayable)) = [(.COMPLETED, 55)]
      ∧ totalRepaidOf (paymentsOfLoan (run schemaWithActive demoDb opsWalletToBorrower) 1) = 0
      ∧ ¬ CompletedCovered (run schemaWithActive demoDb opsWalletToBorrower)
      ∧ (run schemaWithActive demoDb opsRoundedRepayments).loans.map
          (fun l => (l.status, l.totalPayable)) = [(.COMPLETED, 55)]
      ∧ totalRepaidOf (paymentsOfLoan (run schemaWithActive demoDb opsRoundedRepayments) 1) = 55
      ∧ exactRepaidOf (paymentsOfLoan (run schemaWithActive demoDb opsRoundedRepayments) 1)
          < 55
      ∧ (confirmStripe (confirmStripe (run schemaWithActive demoDb opsOneRepayment)
            reqStripe true).1 reqStripe true).1.loans.map (fun l => (l.status, l.totalPayable))
          = [(.COMPLETED, 55)]
      ∧ ¬ CompletedCovered (confirmStripe (confirmStripe
            (run schemaWithActive demoDb opsOneRepayment) reqStripe true).1 reqStripe true).1
      ∧ (confirmCashapp (run schemaWithActive cashappDb opsCashappRepaymentConfirmed)
            reqCashapp).1.loans.map (fun l => (l.status, l.totalPayable)) = [(.COMPLETED, 55)]
      ∧ ¬ CompletedCovered (confirmCashapp
            (run schemaWithActive cashappDb opsCashappRepaymentConfirmed) reqCashapp).1
      ∧ (adminUpdateLoan (run schemaWithActive demoDb [opRequestLoan]) 1 (some .COMPLETED)
            none).1.loans.map (fun l => (l.status, l.totalPayable)) = [(.COMPLETED, 55)]
      ∧ ¬ CompletedCovered (adminUpdateLoan (run schemaWithActive demoDb [opRequestLoan]) 1
            (some .COMPLETED) none).1 :=
  ⟨by decide!, by decide!, by decide!, by decide!, by decide!, by decide!, by decide!,
    by decide!, by decide!, by decide!, by decide!, by decide!, by decide!, by decide!,
    by decide!, by decide!, by decide!, by decide!⟩

/-- Witness of C1 (amended): loan 1 is funded and has a confirmed repayment of 30 and a
repayment of 25 awaiting confirmation; the lender's confirmation of the second changes the
status to `COMPLETED`, and the confirmed repayments read after the call sum to 55. -/
theorem completed_written_only_when_covered_witness :
    becameCompleted (run schemaWithActive demoDb (opsFullRepayment.take 5))
        (confirmManualPayment schemaWithActive
          (run schemaWithActive demoDb (opsFullRepayment.take 5))
          (reqConfirm 3 true .LENDER)).1 1
      ∧ totalRepaidOf (paymentsOfLoan (confirmManualPayment schemaWithActive
          (run schemaWithActive demoDb (opsFullRepayment.take 5))
          (reqConfirm 3 true .LENDER)).1 1) = 55
      ∧ coveredIn (confirmManualPayment schemaWithActive
          (run schemaWithActive demoDb (opsFullRepayment.take 5))
          (reqConfirm 3 true .LENDER)).1 1 :=
  ⟨by decide!, by decide!,
    (completed_written_only_when_covered schemaWithActive
      (run schemaWithActive demoDb (opsFullRepayment.take 5)) 1).1
      (reqConfirm 3 true .LENDER) (by decide!)⟩

/-! ## C9: which calls leave a confirmed funding payment behind `FUNDED` -/

theorem mem_updatePayment {db : Db} {p : Payment} (id : Nat) (f : Payment → Payment)
    (hp : p ∈ db.payments) (hid : p.id = id) : f p ∈ (updatePayment db id f).payments := by
  unfold updatePayment
  have := List.mem_map_of_mem (fun q => if q.id = id then f q else q) hp
  simpa [hid] using this

theorem hasConfirmedFunding_of_mem {db : Db} {p : Payment} (hp : p ∈ db.payments)
    (hc : isConfirmedFunding p = true) : hasConfirmedFunding db p.loanId := by
  refine ⟨p, ?_, hc⟩
  unfold paymentsOfLoan
  simp [hp]

theorem settleFromSnapshot_payments (db0 db : Db) (payment : Payment) :
    (settleFromSnapshot db0 db payment).1.payments = db.payments := by
  unfold settleFromSnapshot
  split
  · split <;> rfl
  · exact settleLoan_payments _ _ _ _

theorem hasConfirmedFunding_of_payments_eq {db db' : Db} (h : db'.payments = db.payments)
    (id : Nat) (hf : hasConfirmedFunding db id) : hasConfirmedFunding db' id := by
  unfold hasConfirmedFunding paymentsOfLoan at *
  rw [h]; exact hf

theorem hasConfirmedFunding_updatePayment (db : Db) (id : Nat) (f : Payment → Payment)
    (hf : ∀ p, isConfirmedFunding (f p) = isConfirmedFunding p ∧ (f p).loanId = p.loanId)
    (loanId : Nat) (h : hasConfirmedFunding db loanId) :
    hasConfirmedFunding (updatePayment db id f) loanId := by
  obtain ⟨p, hp, hc⟩ := h
  unfold paymentsOfLoan at hp
  rw [List.mem_filter] at hp
  by_cases hid : p.id = id
  · refine ⟨f p, ?_, by rw [(hf p).1]; exact hc⟩
    unfold paymentsOfLoan
    rw [List.mem_filter]
    exact ⟨mem_updatePayment id f hp.1 hid, by rw [(hf p).2]; exact hp.2⟩
  · refine ⟨p, ?_, hc⟩
    unfold paymentsOfLoan updatePayment
    rw [List.mem_filter]
    refine ⟨?_, hp.2⟩
    have := List.mem_map_of_mem (fun q => if q.id = id then f q else q) hp.1
    simpa [hid] using this

/-- Counterexample to C9: the lender's fund endpoint sets a requested loan to `FUNDED` while
it has no payment; the initiation of a Zelle funding payment sets the loan to `FUNDED` while
the payment is not confirmed; an internal-wallet payment paid by the lender that names the
lender as receiver sets the loan to `FUNDED` with no lender→borrower payment; the
borrower's mark-completed endpoint sets a loan without payment to `COMPLETED`; and the
administrator's loan update writes `FUNDED` on a loan without payment. -/
theorem funded_not_always_backed :
    (run schemaWithActive demoDb opsFundEndpoint).loans.map (fun l => l.status) = [.FUNDED]
      ∧ (run schemaWithActive demoDb opsFundEndpoint).payments = []
      ∧ ¬ FundedBacked (run schemaWithActive demoDb opsFundEndpoint)
      ∧ (run schemaWithActive demoDb opsZelleFunding).loans.map (fun l => l.status) = [.FUNDED]
      ∧ (run schemaWithActive demoDb opsZelleFunding).payments.map (fun p => p.confirmed)
          = [false]
      ∧ ¬ FundedBacked (run schemaWithActive demoDb opsZelleFunding)
      ∧ (run schemaWithActive demoDb opsWalletToLender).loans.map (fun l => l.status)
          = [.FUNDED]
      ∧ rolesOfPayments (run schemaWithActive demoDb opsWalletToLender) = [(.LENDER, .LENDER)]
      ∧ ¬ FundedBacked (run schemaWithActive demoDb opsWalletToLender)
      ∧ (run schemaWithActive demoDb opsMarkCompleted).loans.map (fun l => l.status)
          = [.COMPLETED]
      ∧ (run schemaWithActive demoDb opsMarkCompleted).payments = []
      ∧ ¬ FundedBacked (run schemaWithActive demoDb opsMarkCompleted)
      ∧ (adminUpdateLoan (run schemaWithActive demoDb [opRequestLoan]) 1 (some .FUNDED)
          none).1.loans.map (fun l => l.status) = [.FUNDED]
      ∧ (adminUpdateLoan (run schemaWithActive demoDb [opRequestLoan]) 1 (some .FUNDED)
          none).1.payments = []
      ∧ ¬ FundedBacked (adminUpdateLoan (run schemaWithActive demoDb [opRequestLoan]) 1
          (some .FUNDED) none).1 :=
  ⟨by decide!, by decide!, by decide!, by decide!, by decide!, by decide!, by decide!,
    by decide!, by decide!, by decide!, by decide!, by decide!, by decide!, by decide!,
    by decide!⟩

/-- C9 (amended): a confirmed lender→borrower payment is in the store, and the loan is
`FUNDED`, right after an `INTERNAL_WALLET` initiation with payer `LENDER` and receiver
`BORROWER` on an existing loan (the payment table accepting the roles), and right after a
successful confirm-stripe, or a confirm-paypal answered 200, of a payment with payer
`LENDER` and receiver `BORROWER` whose loan exists; the overdue sweep keeps such a payment, and a loan that is `OVERDUE` after
the sweep was `FUNDED` or `OVERDUE` before it. -/
theorem funded_backed_after_settlement (sch : Schema) (db : Db) :
    (∀ (req : InitiateReq) (remote : RemoteInit) (loan : Loan),
        findLoan db req.loanId = some loan →
        req.method = PaymentMethod.INTERNAL_WALLET →
        req.payerRole = Role.LENDER → req.receiverRole = Role.BORROWER →
        sch.paymentRoleOk Role.LENDER = true → sch.paymentRoleOk Role.BORROWER = true →
        (findLoan (initiatePayment sch db req remote).1 req.loanId).map (fun l => l.status)
            = some .FUNDED
          ∧ hasConfirmedFunding (initiatePayment sch db req remote).1 req.loanId)
      ∧ (∀ (req : ConfirmStripeReq) (payment : Payment) (loan : Loan),
          findPayment db req.paymentId = some payment →
          findLoan db payment.loanId = some loan →
          payment.payerRole = Role.LENDER → payment.receiverRole = Role.BORROWER →
          (findLoan (confirmStripe db req true).1 payment.loanId).map (fun l => l.status)
              = some .FUNDED
            ∧ hasConfirmedFunding (confirmStripe db req true).1 payment.loanId)
      ∧ (∀ (req : ConfirmPaypalReq) (payout : PayoutResult) (payment : Payment) (loan : Loan),
          findPayment db req.dbPaymentId = some payment →
          findLoan db payment.loanId = some loan →
          payment.payerRole = Role.LENDER → payment.receiverRole = Role.BORROWER →
          (confirmPaypal db req true payout).2.code = 200 →
          (findLoan (confirmPaypal db req true payout).1 payment.loanId).map
              (fun l => l.status) = some .FUNDED
            ∧ hasConfirmedFunding (confirmPaypal db req true payout).1 payment.loanId)
      ∧ (∀ (now : Int) (id : Nat),
          (hasConfirmedFunding db id → hasConfirmedFunding (overdueSweep db now) id)
            ∧ ∀ l', findLoan (overdueSweep db now) id = some l' → l'.status = .OVERDUE →
                ∃ l, findLoan db id = some l
                  ∧ (l.status = .FUNDED ∨ l.status = .OVERDUE)) := by
  refine ⟨?_, ?_, ?_, ?_⟩
  · intro req remote loan hloan hm hL hB hokL hokB
    have hp : sch.paymentRoleOk req.payerRole = true := by rw [hL]; exact hokL
    have hr : sch.paymentRoleOk req.receiverRole = true := by rw [hB]; exact hokB
    have h := initiatePayment_wallet sch db req remote loan hloan hp hr hm
    have hup := updatePayment_appended db (newPayment db req none none)
      (fun p => { p with confirmed := true, transferStatus := .COMPLETED })
      (newPayment_id_fresh db req none none)
    have hpay : (initiatePayment sch db req remote).1.payments
        = db.payments ++ [{ newPayment db req none none with
            confirmed := true, transferStatus := .COMPLETED }] := by
      rw [h]; dsimp only; rw [settleLoan_payments, hup]
    constructor
    · rw [h]
      dsimp only
      rw [hL, settleLoan_lender, findLoan_id hloan, findLoan_setLoanStatus]
      have : findLoan (updatePayment { db with payments := db.payments
          ++ [newPayment db req none none] } (newPayment db req none none).id
          (fun p => { p with confirmed := true, transferStatus := .COMPLETED })) req.loanId
          = some loan := hloan
      rw [this]; rfl
    · have hmem : ({ newPayment db req none none with
          confirmed := true, transferStatus := .COMPLETED } : Payment)
          ∈ (initiatePayment sch db req remote).1.payments := by
        rw [hpay]; simp
      exact hasConfirmedFunding_of_mem hmem (by simp [isConfirmedFunding, newPayment, hL, hB])
  · intro req payment loan hfind hloan hL hB
    refine ⟨confirmStripe_lender db req payment loan hfind hloan hL, ?_⟩
    obtain ⟨hmem, hid⟩ := findPayment_mem hfind
    have h1 := mem_updatePayment req.paymentId (fun p : Payment =>
      { p with confirmed := true, transferStatus := .PROCESSING,
               stripePaymentIntentId := some req.paymentIntentId }) hmem hid
    have h2 := mem_updatePayment req.paymentId (fun p : Payment =>
      { p with transferStatus := .COMPLETED }) h1 hid
    have hpay : (confirmStripe db req true).1.payments
        = (updatePayment (updatePayment db req.paymentId (fun p : Payment =>
            { p with confirmed := true, transferStatus := .PROCESSING,
                     stripePaymentIntentId := some req.paymentIntentId }))
            req.paymentId (fun p : Payment => { p with transferStatus := .COMPLETED })).payments := by
      simp only [confirmStripe, hfind, if_true]
      split
      · rfl
      · exact settleFromSnapshot_payments _ _ _
    rw [← hpay] at h2
    have hq := hasConfirmedFunding_of_mem h2 (by simp [isConfirmedFunding, hL, hB])
    exact hq
  · intro req payout payment loan hfind hloan hL hB hcode
    refine ⟨confirmPaypal_lender db req payout payment loan hfind hloan hL hcode, ?_⟩
    obtain ⟨hmem, hid⟩ := findPayment_mem hfind
    have h1 := mem_updatePayment req.dbPaymentId (fun p : Payment =>
      { p with confirmed := true, transferStatus := .PROCESSING,
               stripePaymentIntentId := some req.paymentId }) hmem hid
    have hq := hasConfirmedFunding_of_mem h1 (by simp [isConfirmedFunding, hL, hB])
    have hq1 : hasConfirmedFunding (updatePayment db req.dbPaymentId (fun p : Payment =>
        { p with confirmed := true, transferStatus := .PROCESSING,
                 stripePaymentIntentId := some req.paymentId })) payment.loanId := hq
    have hs := fun d => settleFromSnapshot_lender db d payment loan hloan hL
    simp only [confirmPaypal, hfind, if_true, hL, true_and, reduceCtorEq, false_and,
      if_false, hs] at hcode ⊢
    split at hcode
    · rename_i h1
      simp only [h1, if_true] at hcode ⊢
      split at hcode
      · rename_i h2
        simp only [h2, if_true] at hcode ⊢
        split at hcode
        · rename_i h3
          simp only [h3, if_true]
          refine hasConfirmedFunding_of_payments_eq (setLoanStatus_payments _ _ _) _ ?_
          refine hasConfirmedFunding_updatePayment _ _ _ ?_ _ hq1
          exact fun _ => ⟨rfl, rfl⟩
        · cases hcode
      · cases hcode
    · rename_i h1
      simp only [h1, if_false]
      refine hasConfirmedFunding_of_payments_eq (setLoanStatus_payments _ _ _) _ ?_
      refine hasConfirmedFunding_updatePayment _ _ _ ?_ _ hq1
      exact fun _ => ⟨rfl, rfl⟩
  · intro now id
    refine ⟨hasConfirmedFunding_of_payments_eq rfl id, ?_⟩
    intro l' hfind hst
    have hmap : findLoan (overdueSweep db now) id = (findLoan db id).map (fun l =>
        if l.status = LoanStatus.FUNDED ∧ l.paybackDate < now then
          { l with status := .OVERDUE, health := healthBand (daysLateOf now l) }
        else l) := by
      unfold findLoan overdueSweep
      exact find?_map_of_key (fun l => l.id)
        (fun l => if l.status = LoanStatus.FUNDED ∧ l.paybackDate < now then
            { l with status := .OVERDUE, health := healthBand (daysLateOf now l) }
          else l)
        (fun l => by dsimp only; split <;> rfl) id db.loans
    rw [hmap] at hfind
    cases hl : findLoan db id with
    | none => rw [hl] at hfind; cases hfind
    | some l =>
      rw [hl] at hfind
      simp only [Option.map_some', Option.some.injEq] at hfind
      refine ⟨l, rfl, ?_⟩
      by_cases hsel : l.status = LoanStatus.FUNDED ∧ l.paybackDate < now
      · exact Or.inl hsel.1
      · rw [if_neg hsel] at hfind
        right
        rw [hfind]; exact hst

/-- Witness of C9 (amended): the lender funds the requested loan 1 from the internal wallet;
the loan is `FUNDED` and the payment is stored as confirmed. -/
theorem funded_backed_after_settlement_witness :
    findLoan (run schemaWithActive demoDb [opRequestLoan]) reqWalletFunding.loanId
        = some (loanRow .PENDING)
      ∧ (findLoan (initiatePayment schemaWithActive (run schemaWithActive demoDb [opRequestLoan])
          reqWalletFunding remoteFailure).1 reqWalletFunding.loanId).map (fun l => l.status)
          = some .FUNDED
      ∧ hasConfirmedFunding (initiatePayment schemaWithActive
          (run schemaWithActive demoDb [opRequestLoan]) reqWalletFunding remoteFailure).1
          reqWalletFunding.loanId :=
  ⟨by decide!,
    ((funded_backed_after_settlement schemaWithActive
      (run schemaWithActive demoDb [opRequestLoan])).1 reqWalletFunding remoteFailure
      (loanRow .PENDING) (by decide!) rfl rfl rfl rfl rfl).1,
    ((funded_backed_after_settlement schemaWithActive
      (run schemaWithActive demoDb [opRequestLoan])).1 reqWalletFunding remoteFailure
      (loanRow .PENDING) (by decide!) rfl rfl rfl rfl rfl).2⟩

end LoanIt2Me
